import Mathlib

/-!
Shallow embedding of the simple-nes emulator core (Rust) for checking the
natural-language specification against the code.

Conventions of the embedding:
  * Machine integers (`u8`, `u16`, `usize`) are embedded as `Nat`.  A
    function that takes a `u8` / `u16` parameter in Rust reduces it with
    `% 256` / `% 65536` on entry (the type boundary); wrapping arithmetic is
    written with an explicit `% 2^w`.  A Rust bitwise mask by a contiguous
    low mask `2^k - 1` is written `% 2^k`, a right shift `>> k` is written
    `/ 2^k`, a left shift `<< k` is `* 2^k`, and a single-bit test
    `x & 2^k != 0` is `x / 2^k % 2 = 1`; these are the same functions on the
    masked domains.  Non-contiguous masks keep `&&&` / `|||`.  Where a Rust
    subtraction on an unsigned type can underflow (a panic under debug
    assertions, two's-complement wrap in release builds), the wrap is written
    explicitly and, where a claim is about it, a ghost flag records that the
    wrap happened.
  * Byte arrays (`Box<[u8]>`) are embedded as total functions `Nat → Nat`;
    out-of-bounds indexing (a Rust panic) is not modelled, and no claim below
    depends on it.
  * Rust trait objects (the mapper) become an inductive type with dispatch
    functions; Rust trait-generic code (the CPU instruction and addressing
    mode matrix) becomes higher-order functions taking the mode's operations
    as arguments.
  * `f32` / `f64` audio values are embedded as exact rationals (`Rat`).  This
    is faithful for the values the claims touch (small dyadics and the
    literal `0.0`); it is not bit-faithful for sample mixing, which no claim
    observes.
  * The PPU (`src/device/ppu.rs`) is not among the provided sources, only its
    callers are; the small part of it that the system bus and the DMA unit
    touch is modelled from the spec and marked as such below.
  * Ghost instrumentation (a bus write log, counters of CPU clocks and DMA
    transfers, the sweep underflow flag) records externally observable events
    that the claims quantify over; it never feeds back into the emulated
    behaviour.
-/

set_option maxRecDepth 16384

namespace Nes

/-! ## Basic byte stores: `Ram` (src/device.rs) -/

/-- `Ram` from src/device.rs: a byte store addressed through a power-of-two
mask.  `addr_mask` is always `2^k - 1` (set by `Ram::new`), so the Rust
`addr & addr_mask` is embedded as `addr % (addr_mask + 1)`.  The backing
array `mem` is embedded as a total function. -/
structure Ram where
  addr_mask : Nat
  mem : Nat → Nat

/-- `Ram::new(p2_size)`: mask `(1 << p2_size) - 1`, zeroed memory. -/
def Ram.new (p2_size : Nat) : Ram :=
  { addr_mask := 2 ^ p2_size - 1, mem := fun _ => 0 }

/-- `Ram::read`: index masked by `addr_mask`. -/
def Ram.read (r : Ram) (addr : Nat) : Nat :=
  r.mem (addr % (r.addr_mask + 1))

/-- `Ram::write`: index masked by `addr_mask`. -/
def Ram.write (r : Ram) (addr data : Nat) : Ram :=
  { r with
    mem := fun i => if i = addr % (r.addr_mask + 1) then data else r.mem i }

/-! ## Mirror modes and mappers (src/cartridge.rs) -/

inductive MirrorMode where
  | horizontal
  | vertical
  | oneScreenLow
  | oneScreenHigh
deriving DecidableEq

/-- `MapperReadResult` from src/cartridge.rs. -/
inductive MapperReadResult where
  | data (d : Nat)
  | address (a : Option Nat)

/-- `PRG_BANK_SIZE` (0x4000). -/
def PRG_BANK_SIZE : Nat := 0x4000

/-- `CHR_BANK_SIZE` (0x2000). -/
def CHR_BANK_SIZE : Nat := 0x2000

/-- Helper for functional array update on `Nat → Nat` stores. -/
def updFn (f : Nat → Nat) (i v : Nat) : Nat → Nat :=
  fun j => if j = i then v else f j

/-- Mapper 0 state (`NRom`).  `mask` is 0x3FFF or 0x7FFF. -/
structure NRom where
  mask : Nat

def NRom.new (prg_banks : Nat) : NRom :=
  { mask := if prg_banks > 1 then 0x7FFF else 0x3FFF }

/-- Mapper 1 state (`Mmc1`). -/
structure Mmc1 where
  prg_banks : Nat
  load : Nat
  load_count : Nat
  control : Nat
  prg_bank_32 : Nat
  chr_bank_8 : Nat
  prg_bank_16_lo : Nat
  prg_bank_16_hi : Nat
  chr_bank_4_lo : Nat
  chr_bank_4_hi : Nat
  mirror : MirrorMode
  prg_ram : Nat → Nat

def Mmc1.new (prg_banks : Nat) : Mmc1 :=
  { prg_banks
    load := 0
    load_count := 0
    control := 0x1C
    prg_bank_32 := 0
    chr_bank_8 := 0
    prg_bank_16_lo := 0
    prg_bank_16_hi := prg_banks - 1
    chr_bank_4_lo := 0
    chr_bank_4_hi := 0
    mirror := MirrorMode.horizontal
    prg_ram := fun _ => 0 }

/-- The MMC1 mirror-mode decode used when the control register is committed
(`match self.control & 0x03` in `Mmc1::cpu_write`). -/
def Mmc1.mirrorOf (bits : Nat) : MirrorMode :=
  if bits = 0 then MirrorMode.oneScreenLow
  else if bits = 1 then MirrorMode.oneScreenHigh
  else if bits = 2 then MirrorMode.vertical
  else MirrorMode.horizontal

/-- The commit block of `Mmc1::cpu_write` (the `if self.load_count == 5`
body): commit the 5-bit value `v` to the register selected by `target`
(bits 13-14 of the write address), then clear the load register.
`v & 0x1F` is `v % 32`, `v & 0x1E` is `v / 2 % 16 * 2`,
`(v & 0x0E) >> 1` is `v / 2 % 8`, `v & 0x0F` is `v % 16`,
`(control >> 2) & 0x03` is `control / 4 % 4`. -/
def Mmc1.commitRegister (target v : Nat) (m : Mmc1) : Mmc1 :=
  if target = 0 then
    -- Control register
    { m with
      control := v % 32
      mirror := Mmc1.mirrorOf (v % 32 % 4)
      load := 0, load_count := 0 }
  else if target = 1 then
    -- CHR low bank
    if m.control / 16 % 2 = 1 then
      { m with chr_bank_4_lo := v % 32, load := 0, load_count := 0 }
    else
      { m with chr_bank_8 := v / 2 % 16 * 2, load := 0, load_count := 0 }
  else if target = 2 then
    -- CHR high bank
    if m.control / 16 % 2 = 1 then
      { m with chr_bank_4_hi := v % 32, load := 0, load_count := 0 }
    else
      { m with load := 0, load_count := 0 }
  else
    -- PRG banks
    let prg_mode := m.control / 4 % 4
    if prg_mode ≤ 1 then
      { m with prg_bank_32 := v / 2 % 8, load := 0, load_count := 0 }
    else if prg_mode = 2 then
      { m with prg_bank_16_lo := 0, prg_bank_16_hi := v % 16,
               load := 0, load_count := 0 }
    else
      { m with prg_bank_16_lo := v % 16, prg_bank_16_hi := m.prg_banks - 1,
               load := 0, load_count := 0 }

/-- `Mmc1::cpu_write`.  A write with bit 7 set resets the load register and
ors 0x0C into the control register; otherwise a data bit is shifted into the
5-bit load register and the fifth such write commits. -/
def Mmc1.cpuWrite (m : Mmc1) (addr data : Nat) : Mmc1 :=
  let addr := addr % 65536
  let data := data % 256
  if 0x6000 ≤ addr ∧ addr ≤ 0x7FFF then
    { m with prg_ram := updFn m.prg_ram (addr % 0x2000) data }
  else if 0x8000 ≤ addr then
    if 128 ≤ data then
      { m with load := 0, load_count := 0, control := m.control ||| 0x0C }
    else
      -- load >>= 1; load |= (data & 0x01) << 4
      let load := (m.load / 2) ||| (data % 2 * 16)
      let load_count := m.load_count + 1
      if load_count = 5 then
        Mmc1.commitRegister (addr / 8192 % 4) load m
      else
        { m with load := load, load_count := load_count }
  else
    m

/-- `Mmc1::cpu_read`. -/
def Mmc1.cpuRead (m : Mmc1) (addr : Nat) : MapperReadResult :=
  let addr := addr % 65536
  if 0x6000 ≤ addr ∧ addr ≤ 0x7FFF then
    MapperReadResult.data (m.prg_ram (addr % 0x2000))
  else if 0x8000 ≤ addr then
    if m.control / 8 % 2 = 1 then
      -- 16k mode
      if addr ≤ 0xBFFF then
        MapperReadResult.address (some (m.prg_bank_16_lo * PRG_BANK_SIZE + addr % 0x4000))
      else
        MapperReadResult.address (some (m.prg_bank_16_hi * PRG_BANK_SIZE + addr % 0x4000))
    else
      -- 32k mode
      MapperReadResult.address (some (m.prg_bank_32 * 2 * PRG_BANK_SIZE + addr % 0x8000))
  else
    MapperReadResult.address none

/-- `Mmc1::ppu_read`. -/
def Mmc1.ppuRead (m : Mmc1) (addr : Nat) : MapperReadResult :=
  let addr := addr % 65536
  if addr ≤ 0x1FFF then
    if m.control / 16 % 2 = 1 then
      if addr ≤ 0x0FFF then
        MapperReadResult.address (some (m.chr_bank_4_lo * 0x1000 + addr % 0x1000))
      else
        MapperReadResult.address (some (m.chr_bank_4_hi * 0x1000 + addr % 0x1000))
    else
      MapperReadResult.address (some (m.chr_bank_8 * CHR_BANK_SIZE + addr % 0x2000))
  else
    MapperReadResult.address none

/-- `Mmc1::reset` (internal RAM preserved). -/
def Mmc1.reset (m : Mmc1) : Mmc1 :=
  { m with
    load := 0, load_count := 0, control := 0x1C,
    prg_bank_32 := 0, chr_bank_8 := 0,
    prg_bank_16_lo := 0, prg_bank_16_hi := m.prg_banks - 1,
    chr_bank_4_lo := 0, chr_bank_4_hi := 0 }

/-- Mapper 2 state (`UxRom`). -/
structure UxRom where
  prg_bank_lo : Nat
  prg_bank_hi : Nat

def UxRom.new (prg_banks : Nat) : UxRom :=
  { prg_bank_lo := 0, prg_bank_hi := prg_banks - 1 }

/-- Mapper 3 state (`CNRom`). -/
structure CNRom where
  mask : Nat
  chr_bank : Nat

def CNRom.new (prg_banks : Nat) : CNRom :=
  { mask := if prg_banks > 1 then 0x7FFF else 0x3FFF, chr_bank := 0 }

/-- Mapper 4 state (`Mmc3`).  The `register`, `prg_bank` and `chr_bank`
arrays are embedded as functions on their index. -/
structure Mmc3 where
  target_reg : Nat
  register : Nat → Nat
  prg_bank : Nat → Nat
  chr_bank : Nat → Nat
  interrupt_counter : Nat
  interrupt_step : Nat
  interrupt_active : Bool
  interrupt_enabled : Bool
  prg_bank_mode : Bool
  chr_inversion : Bool
  prg_banks : Nat
  mirror : MirrorMode
  prg_ram : Nat → Nat

def Mmc3.new (prg_banks : Nat) : Mmc3 :=
  { target_reg := 0
    register := fun _ => 0
    prg_bank := fun i =>
      if i = 0 then 0
      else if i = 1 then 0x2000
      else if i = 2 then (prg_banks * 2 - 2) * 0x2000
      else (prg_banks * 2 - 1) * 0x2000
    chr_bank := fun _ => 0
    interrupt_counter := 0
    interrupt_step := 0
    interrupt_active := false
    interrupt_enabled := false
    prg_bank_mode := false
    chr_inversion := false
    prg_banks
    mirror := MirrorMode.horizontal
    prg_ram := fun _ => 0 }

/-- `Mmc3::on_scanline`: reload the counter from the latched step when it is
zero, decrement it otherwise; then raise the interrupt when the counter is
zero and interrupts are enabled. -/
def Mmc3.onScanline (m : Mmc3) : Mmc3 :=
  let m :=
    if m.interrupt_counter = 0 then
      { m with interrupt_counter := m.interrupt_step }
    else
      { m with interrupt_counter := m.interrupt_counter - 1 }
  if m.interrupt_counter = 0 ∧ m.interrupt_enabled then
    { m with interrupt_active := true }
  else
    m

/-- The CHR/PRG bank recomputation performed by `Mmc3::cpu_write` after a
bank-data write (address bit 0 set in 0x8000-0x9FFF).  `r & 0xFE` is
`r / 2 * 2` and `r & 0x3F` is `r % 64`. -/
def Mmc3.updateBanks (m : Mmc3) : Mmc3 :=
  let chrSz := 0x0400
  let prgSz := 0x2000
  let chr_bank : Nat → Nat :=
    if m.chr_inversion then fun i =>
      if i = 0 then m.register 2 * chrSz
      else if i = 1 then m.register 3 * chrSz
      else if i = 2 then m.register 4 * chrSz
      else if i = 3 then m.register 5 * chrSz
      else if i = 4 then m.register 0 / 2 * 2 * chrSz
      else if i = 5 then m.register 0 * chrSz + chrSz
      else if i = 6 then m.register 1 / 2 * 2 * chrSz
      else m.register 1 * chrSz + chrSz
    else fun i =>
      if i = 0 then m.register 0 / 2 * 2 * chrSz
      else if i = 1 then m.register 0 * chrSz + chrSz
      else if i = 2 then m.register 1 / 2 * 2 * chrSz
      else if i = 3 then m.register 1 * chrSz + chrSz
      else if i = 4 then m.register 2 * chrSz
      else if i = 5 then m.register 3 * chrSz
      else if i = 6 then m.register 4 * chrSz
      else m.register 5 * chrSz
  let prg_bank : Nat → Nat :=
    let p02 : Nat → Nat :=
      if m.prg_bank_mode then fun i =>
        if i = 2 then m.register 6 % 64 * prgSz
        else (m.prg_banks * 2 - 2) * prgSz
      else fun i =>
        if i = 0 then m.register 6 % 64 * prgSz
        else (m.prg_banks * 2 - 2) * prgSz
    fun i =>
      if i = 1 then m.register 7 % 64 * prgSz
      else if i = 3 then (m.prg_banks * 2 - 1) * prgSz
      else p02 i
  { m with chr_bank := chr_bank, prg_bank := prg_bank }

/-- `Mmc3::cpu_write`. -/
def Mmc3.cpuWrite (m : Mmc3) (addr data : Nat) : Mmc3 :=
  let addr := addr % 65536
  let data := data % 256
  if 0x6000 ≤ addr ∧ addr ≤ 0x7FFF then
    { m with prg_ram := updFn m.prg_ram (addr % 0x2000) data }
  else if 0x8000 ≤ addr then
    if addr ≤ 0x9FFF then
      -- Bank select / bank data
      if addr % 2 = 0 then
        { m with
          target_reg := data % 8
          prg_bank_mode := data / 64 % 2 = 1
          chr_inversion := data / 128 % 2 = 1 }
      else
        Mmc3.updateBanks { m with register := updFn m.register m.target_reg data }
    else if addr ≤ 0xBFFF then
      -- Mirroring
      if addr % 2 = 0 then
        if data % 2 = 1 then
          { m with mirror := MirrorMode.horizontal }
        else
          { m with mirror := MirrorMode.vertical }
      else
        m
    else if addr ≤ 0xDFFF then
      -- Interrupt latch / counter clear
      if addr % 2 = 0 then
        { m with interrupt_step := data }
      else
        { m with interrupt_counter := 0 }
    else
      -- Interrupt disable / enable
      if addr % 2 = 0 then
        { m with interrupt_active := false, interrupt_enabled := false }
      else
        { m with interrupt_enabled := true }
  else
    m

/-- `Mmc3::cpu_read`. -/
def Mmc3.cpuRead (m : Mmc3) (addr : Nat) : MapperReadResult :=
  let addr := addr % 65536
  if 0x6000 ≤ addr ∧ addr ≤ 0x7FFF then
    MapperReadResult.data (m.prg_ram (addr % 0x2000))
  else if 0x8000 ≤ addr then
    MapperReadResult.address (some (m.prg_bank (addr / 8192 % 4) + addr % 0x2000))
  else
    MapperReadResult.address none

/-- `Mmc3::ppu_read`. -/
def Mmc3.ppuRead (m : Mmc3) (addr : Nat) : MapperReadResult :=
  let addr := addr % 65536
  if addr ≤ 0x1FFF then
    MapperReadResult.address (some (m.chr_bank (addr / 1024 % 8) + addr % 0x0400))
  else
    MapperReadResult.address none

/-- Mapper 7 state (`AxRom`). -/
structure AxRom where
  prg_bank : Nat
  mirror : MirrorMode

def AxRom.new : AxRom :=
  { prg_bank := 0, mirror := MirrorMode.oneScreenLow }

/-- Mapper 66 state (`GxRom`). -/
structure GxRom where
  prg_bank : Nat
  chr_bank : Nat

def GxRom.new : GxRom :=
  { prg_bank := 0, chr_bank := 0 }

/-- The mapper trait object, as a closed variant type (design note §9 of the
spec: a tagged variant with per-variant dispatch). -/
inductive Mapper where
  | nrom (m : NRom)
  | mmc1 (m : Mmc1)
  | uxrom (m : UxRom)
  | cnrom (m : CNRom)
  | mmc3 (m : Mmc3)
  | axrom (m : AxRom)
  | gxrom (m : GxRom)

/-- `Mapper::mirror` dispatch. -/
def Mapper.mirror : Mapper → Option MirrorMode
  | .nrom _ => none
  | .mmc1 m => some m.mirror
  | .uxrom _ => none
  | .cnrom _ => none
  | .mmc3 m => some m.mirror
  | .axrom m => some m.mirror
  | .gxrom _ => none

/-- `Mapper::interrupt_state` dispatch. -/
def Mapper.interruptState : Mapper → Bool
  | .mmc3 m => m.interrupt_active
  | _ => false

/-- `Mapper::reset_interrupt` dispatch. -/
def Mapper.resetInterrupt : Mapper → Mapper
  | .mmc3 m => .mmc3 { m with interrupt_active := false }
  | m => m

/-- `Mapper::on_scanline` dispatch. -/
def Mapper.onScanline : Mapper → Mapper
  | .mmc3 m => .mmc3 (Mmc3.onScanline m)
  | m => m

/-- `Mapper::cpu_read` dispatch. -/
def Mapper.cpuRead : Mapper → Nat → MapperReadResult
  | .nrom m, addr =>
    if 0x8000 ≤ addr % 65536 then
      MapperReadResult.address (some (addr % 65536 % (m.mask + 1)))
    else MapperReadResult.address none
  | .mmc1 m, addr => Mmc1.cpuRead m addr
  | .uxrom m, addr =>
    if 0x8000 ≤ addr % 65536 ∧ addr % 65536 ≤ 0xBFFF then
      MapperReadResult.address (some (m.prg_bank_lo * PRG_BANK_SIZE + addr % 0x4000))
    else if 0xC000 ≤ addr % 65536 then
      MapperReadResult.address (some (m.prg_bank_hi * PRG_BANK_SIZE + addr % 0x4000))
    else
      MapperReadResult.address none
  | .cnrom m, addr =>
    if 0x8000 ≤ addr % 65536 then
      MapperReadResult.address (some (addr % 65536 % (m.mask + 1)))
    else MapperReadResult.address none
  | .mmc3 m, addr => Mmc3.cpuRead m addr
  | .axrom m, addr =>
    if 0x8000 ≤ addr % 65536 then
      MapperReadResult.address (some (m.prg_bank * 2 * PRG_BANK_SIZE + addr % 0x8000))
    else MapperReadResult.address none
  | .gxrom m, addr =>
    if 0x8000 ≤ addr % 65536 then
      MapperReadResult.address (some (m.prg_bank * 2 * PRG_BANK_SIZE + addr % 0x8000))
    else MapperReadResult.address none

/-- `Mapper::ppu_read` dispatch. -/
def Mapper.ppuRead : Mapper → Nat → MapperReadResult
  | .nrom _, addr =>
    if addr % 65536 ≤ 0x1FFF then MapperReadResult.address (some (addr % 65536))
    else MapperReadResult.address none
  | .mmc1 m, addr => Mmc1.ppuRead m addr
  | .uxrom _, addr =>
    if addr % 65536 ≤ 0x1FFF then MapperReadResult.address (some (addr % 65536))
    else MapperReadResult.address none
  | .cnrom m, addr =>
    if addr % 65536 ≤ 0x1FFF then
      MapperReadResult.address (some (m.chr_bank * CHR_BANK_SIZE + addr % 65536))
    else MapperReadResult.address none
  | .mmc3 m, addr => Mmc3.ppuRead m addr
  | .axrom _, addr =>
    if addr % 65536 ≤ 0x1FFF then MapperReadResult.address (some (addr % 65536))
    else MapperReadResult.address none
  | .gxrom m, addr =>
    if addr % 65536 ≤ 0x1FFF then
      MapperReadResult.address (some (m.chr_bank * CHR_BANK_SIZE + addr % 65536))
    else MapperReadResult.address none

/-- `Mapper::cpu_write` dispatch. -/
def Mapper.cpuWrite : Mapper → Nat → Nat → Mapper
  | .nrom m, _, _ => .nrom m
  | .mmc1 m, addr, data => .mmc1 (Mmc1.cpuWrite m addr data)
  | .uxrom m, addr, data =>
    if 0x8000 ≤ addr % 65536 then .uxrom { m with prg_bank_lo := data % 16 }
    else .uxrom m
  | .cnrom m, addr, data =>
    if 0x8000 ≤ addr % 65536 then .cnrom { m with chr_bank := data % 4 }
    else .cnrom m
  | .mmc3 m, addr, data => .mmc3 (Mmc3.cpuWrite m addr data)
  | .axrom m, addr, data =>
    if 0x8000 ≤ addr % 65536 then
      .axrom { prg_bank := data % 8
               mirror := if data / 16 % 2 = 0 then MirrorMode.oneScreenLow
                         else MirrorMode.oneScreenHigh }
    else .axrom m
  | .gxrom m, addr, data =>
    if 0x8000 ≤ addr % 65536 then
      .gxrom { chr_bank := data % 4, prg_bank := data / 16 % 4 }
    else .gxrom m

/-! ## Cartridge (src/cartridge.rs) -/

/-- `Cartridge`: mapper plus program/character memory.  The byte arrays are
embedded as total functions (out-of-bounds indexing, a Rust panic, is not
modelled). -/
structure Cartridge where
  mapper : Mapper
  prg_rom : Nat → Nat
  chr_rom : Nat → Nat
  chr_is_ram : Bool
  mirror : MirrorMode

/-- `Cartridge::mirror`: the mapper override or the header default. -/
def Cartridge.mirrorMode (c : Cartridge) : MirrorMode :=
  (c.mapper.mirror).getD c.mirror

/-- `Cartridge::interrupt_state`. -/
def Cartridge.interruptState (c : Cartridge) : Bool :=
  c.mapper.interruptState

/-- `Cartridge::reset_interrupt`. -/
def Cartridge.resetInterrupt (c : Cartridge) : Cartridge :=
  { c with mapper := c.mapper.resetInterrupt }

/-- `Cartridge::on_scanline`. -/
def Cartridge.onScanline (c : Cartridge) : Cartridge :=
  { c with mapper := c.mapper.onScanline }

/-- `Cartridge::cpu_read`: `none` for unmapped addresses (the bus then yields
the open-bus value). -/
def Cartridge.cpuRead (c : Cartridge) (addr : Nat) : Option Nat :=
  match c.mapper.cpuRead addr with
  | MapperReadResult.data d => some d
  | MapperReadResult.address a => a.map fun i => c.prg_rom i

/-- `Cartridge::cpu_write`. -/
def Cartridge.cpuWrite (c : Cartridge) (addr data : Nat) : Cartridge :=
  { c with mapper := c.mapper.cpuWrite addr data }

/-- `Cartridge::ppu_read`. -/
def Cartridge.ppuRead (c : Cartridge) (addr : Nat) : Nat :=
  if c.chr_is_ram then
    c.chr_rom (addr % 0x2000)
  else
    match c.mapper.ppuRead addr with
    | MapperReadResult.data d => d
    | MapperReadResult.address (some mapped) => c.chr_rom mapped
    | MapperReadResult.address none => 0

/-- `Cartridge::ppu_write`: only CHR-RAM is writable. -/
def Cartridge.ppuWrite (c : Cartridge) (addr data : Nat) : Cartridge :=
  if c.chr_is_ram then
    { c with chr_rom := updFn c.chr_rom (addr % 0x2000) data }
  else
    c

/-! ## Nametable RAM (src/device/vram.rs) -/

/-- `Vram`: two 1-KiB tables selected through the mirror mode. -/
structure Vram where
  table0 : Ram
  table1 : Ram

def Vram.new : Vram :=
  { table0 := Ram.new 10, table1 := Ram.new 10 }

/-- `Vram::read`: `(addr >> 11) & 1` is `addr / 2048 % 2`, `(addr >> 10) & 1`
is `addr / 1024 % 2`. -/
def Vram.read (v : Vram) (mirror : MirrorMode) (addr : Nat) : Nat :=
  match mirror with
  | MirrorMode.horizontal =>
    if addr / 2048 % 2 = 0 then v.table0.read addr else v.table1.read addr
  | MirrorMode.vertical =>
    if addr / 1024 % 2 = 0 then v.table0.read addr else v.table1.read addr
  | MirrorMode.oneScreenLow => v.table0.read addr
  | MirrorMode.oneScreenHigh => v.table1.read addr

/-- `Vram::write`. -/
def Vram.write (v : Vram) (mirror : MirrorMode) (addr data : Nat) : Vram :=
  match mirror with
  | MirrorMode.horizontal =>
    if addr / 2048 % 2 = 0 then { v with table0 := v.table0.write addr data }
    else { v with table1 := v.table1.write addr data }
  | MirrorMode.vertical =>
    if addr / 1024 % 2 = 0 then { v with table0 := v.table0.write addr data }
    else { v with table1 := v.table1.write addr data }
  | MirrorMode.oneScreenLow => { v with table0 := v.table0.write addr data }
  | MirrorMode.oneScreenHigh => { v with table1 := v.table1.write addr data }

/-! ## PPU bus (src/system.rs, `PpuBus`) -/

/-- The `PpuBus` aggregate: cartridge CHR, nametable RAM and the 32-byte
palette RAM (`Ram::new(5)` in `System::new`). -/
structure PpuBus where
  cart : Cartridge
  vram : Vram
  palette : Ram

/-- `PpuBus::read`: the PPU address is masked to 14 bits
(`addr & 0x3FFF` is `addr % 0x4000`). -/
def PpuBus.read (b : PpuBus) (addr : Nat) : Nat :=
  let addr := addr % 0x4000
  if addr ≤ 0x1FFF then b.cart.ppuRead addr
  else if addr ≤ 0x3EFF then b.vram.read b.cart.mirrorMode (addr - 0x2000)
  else b.palette.read (addr - 0x3F00)

/-- `PpuBus::write`. -/
def PpuBus.write (b : PpuBus) (addr data : Nat) : PpuBus :=
  let addr := addr % 0x4000
  if addr ≤ 0x1FFF then { b with cart := b.cart.ppuWrite addr data }
  else if addr ≤ 0x3EFF then
    { b with vram := b.vram.write b.cart.mirrorMode (addr - 0x2000) data }
  else
    { b with palette := b.palette.write (addr - 0x3F00) data }

/-- A concrete NROM cartridge (mapper 0, zeroed ROM) used for closed test
states. -/
def testCart : Cartridge :=
  { mapper := Mapper.nrom (NRom.new 2)
    prg_rom := fun _ => 0
    chr_rom := fun _ => 0
    chr_is_ram := false
    mirror := MirrorMode.horizontal }

/-- A fresh PPU bus over the test cartridge: power-up nametable and palette
RAM are zeroed. -/
def testPpuBus : PpuBus :=
  { cart := testCart, vram := Vram.new, palette := Ram.new 5 }

/-! ## Claim C1: palette mirroring on the PPU bus -/

/-- C1, counterexample.  On a fresh palette (all cells zero) the byte 1
written via the PPU bus to 0x3F10 is not visible at 0x3F00: `PpuBus::write`
sends 0x3F10 to palette cell 0x10 and `PpuBus::read` fetches 0x3F00 from
palette cell 0x00, with no mirroring between the two. -/
theorem c1_palette_mirror_counterexample :
    (Nes.PpuBus.write Nes.testPpuBus 0x3F10 1).read 0x3F00 ≠ 1 := by
  decide

/-- C1, amended.  For each pair (w, r) among (0x3F10, 0x3F00),
(0x3F14, 0x3F04), (0x3F18, 0x3F08), (0x3F1C, 0x3F0C): writing byte b via the
PPU bus to w and then reading w back returns b, while reading r returns the
palette entry at offset r - 0x3F00 unchanged — the PPU bus maps every
palette address to its own cell of the 32-byte palette RAM (offset taken
modulo 32) and performs no 0x10 → 0x00 mirroring. -/
theorem c1_palette_no_bus_mirror (b : PpuBus) (x w r : Nat)
    (hm : b.palette.addr_mask = 0x1F)
    (hp : (w = 0x3F10 ∧ r = 0x3F00) ∨ (w = 0x3F14 ∧ r = 0x3F04) ∨
          (w = 0x3F18 ∧ r = 0x3F08) ∨ (w = 0x3F1C ∧ r = 0x3F0C)) :
    (b.write w x).read w = x ∧ (b.write w x).read r = b.read r := by
  obtain ⟨cart, vram, pal⟩ := b
  obtain ⟨mask, mem⟩ := pal
  dsimp only at hm
  subst hm
  rcases hp with ⟨hw, hr⟩ | ⟨hw, hr⟩ | ⟨hw, hr⟩ | ⟨hw, hr⟩ <;>
    subst hw <;> subst hr <;> exact ⟨rfl, rfl⟩

/-- C1 witness: the amended statement evaluated on the fresh test bus with
byte 7 at the pair (0x3F10, 0x3F00). -/
theorem c1_palette_no_bus_mirror_witness :
    (Nes.testPpuBus.write 0x3F10 7).read 0x3F10 = 7 ∧
      (Nes.testPpuBus.write 0x3F10 7).read 0x3F00 = Nes.testPpuBus.read 0x3F00 :=
  c1_palette_no_bus_mirror testPpuBus 7 0x3F10 0x3F00 rfl (Or.inl ⟨rfl, rfl⟩)

/-! ## Claim C6: the MMC1 serial load register -/

lemma mod256_mod2 (d : Nat) : d % 256 % 2 = d % 2 :=
  Nat.mod_mod_of_dvd d (by norm_num)

/-- A non-reset MMC1 write (bit 7 clear) that is not the fifth one only
shifts the load register. -/
lemma Mmc1.cpuWrite_shift (m : Mmc1) (a d : Nat)
    (ha : 0x8000 ≤ a % 65536) (hd : d % 256 < 128)
    (hcnt : m.load_count + 1 ≠ 5) :
    m.cpuWrite a d =
      { m with load := m.load / 2 ||| d % 2 * 16,
               load_count := m.load_count + 1 } := by
  have h1 : ¬(0x6000 ≤ a % 65536 ∧ a % 65536 ≤ 0x7FFF) := by omega
  have h3 : ¬(128 ≤ d % 256) := by omega
  simp [Mmc1.cpuWrite, h1, ha, h3, hcnt, mod256_mod2]

/-- The fifth non-reset MMC1 write commits the shifted value. -/
lemma Mmc1.cpuWrite_commit5 (m : Mmc1) (a d : Nat)
    (ha : 0x8000 ≤ a % 65536) (hd : d % 256 < 128)
    (hcnt : m.load_count = 4) :
    m.cpuWrite a d =
      Mmc1.commitRegister (a % 65536 / 8192 % 4)
        (m.load / 2 ||| d % 2 * 16) m := by
  have h1 : ¬(0x6000 ≤ a % 65536 ∧ a % 65536 ≤ 0x7FFF) := by omega
  have h3 : ¬(128 ≤ d % 256) := by omega
  simp [Mmc1.cpuWrite, h1, ha, h3, hcnt, mod256_mod2]

/-- A MMC1 write with data bit 7 set resets the load register and ors 0x0C
into the control register. -/
lemma Mmc1.cpuWrite_reset_load (m : Mmc1) (a d : Nat)
    (ha : 0x8000 ≤ a % 65536) (hd : 128 ≤ d % 256) :
    m.cpuWrite a d =
      { m with load := 0, load_count := 0, control := m.control ||| 0x0C } := by
  have h1 : ¬(0x6000 ≤ a % 65536 ∧ a % 65536 ≤ 0x7FFF) := by omega
  simp [Mmc1.cpuWrite, h1, ha, hd]

/-- `Mmc1.commitRegister` never reads the load register or the write count;
it only overwrites them with zero. -/
lemma Mmc1.commitRegister_load_irrel (l2 c2 t v : Nat)
    (pb l c ctl b32 c8 plo phi c4l c4h : Nat) (mir : MirrorMode)
    (pram : Nat → Nat) :
    Mmc1.commitRegister t v ⟨pb, l, c, ctl, b32, c8, plo, phi, c4l, c4h, mir, pram⟩ =
      Mmc1.commitRegister t v ⟨pb, l2, c2, ctl, b32, c8, plo, phi, c4l, c4h, mir, pram⟩ := by
  unfold Mmc1.commitRegister
  dsimp only

/-- `Mmc1.commitRegister` clears the load register. -/
lemma Mmc1.commitRegister_clears (t v : Nat) (m : Mmc1) :
    (Mmc1.commitRegister t v m).load = 0 ∧
      (Mmc1.commitRegister t v m).load_count = 0 := by
  unfold Mmc1.commitRegister
  dsimp only
  repeat' split
  all_goals exact ⟨rfl, rfl⟩

/-- Five serial shifts starting from an empty load register accumulate the
five data bits, bit 0 of the first write landing in bit 0 of the value. -/
lemma mmc1LoadBits (d1 d2 d3 d4 d5 : Nat) :
    ((((0 / 2 ||| d1 % 2 * 16) / 2 ||| d2 % 2 * 16) / 2 |||
        d3 % 2 * 16) / 2 ||| d4 % 2 * 16) / 2 ||| d5 % 2 * 16 =
      d1 % 2 + d2 % 2 * 2 + d3 % 2 * 4 + d4 % 2 * 8 + d5 % 2 * 16 := by
  rcases Nat.mod_two_eq_zero_or_one d1 with h1 | h1 <;>
    rcases Nat.mod_two_eq_zero_or_one d2 with h2 | h2 <;>
    rcases Nat.mod_two_eq_zero_or_one d3 with h3 | h3 <;>
    rcases Nat.mod_two_eq_zero_or_one d4 with h4 | h4 <;>
    rcases Nat.mod_two_eq_zero_or_one d5 with h5 | h5 <;>
    rw [h1, h2, h3, h4, h5] <;> decide

set_option maxRecDepth 4096 in
lemma lor12_mode3 (c : Nat) (h : c < 256) : (c ||| 12) / 4 % 4 = 3 := by
  revert h; revert c; decide

/-- C6: the MMC1 serial load register.  Starting from an empty load register
(`load = 0`, `load_count = 0`), four writes to addresses at or above 0x8000
with data bit 7 clear leave every bank register, the control register and
the mirror mode untouched and only advance the write count, and the fifth
write commits the accumulated 5-bit value (bit 0 of the first write in bit
0) to the internal register selected by bits 13-14 of the fifth write's
address, clearing the load register; furthermore any write at or above
0x8000 with data bit 7 set clears the load register and ors 0x0C into the
control register, forcing the PRG-mode bits (control bits 2-3) to mode 3. -/
theorem c6_mmc1_load_register (m : Mmc1)
    (a1 a2 a3 a4 a5 d1 d2 d3 d4 d5 : Nat)
    (hl : m.load = 0) (hc : m.load_count = 0) (hctl : m.control < 256)
    (ha1 : 0x8000 ≤ a1 % 65536) (ha2 : 0x8000 ≤ a2 % 65536)
    (ha3 : 0x8000 ≤ a3 % 65536) (ha4 : 0x8000 ≤ a4 % 65536)
    (ha5 : 0x8000 ≤ a5 % 65536)
    (hd1 : d1 % 256 < 128) (hd2 : d2 % 256 < 128) (hd3 : d3 % 256 < 128)
    (hd4 : d4 % 256 < 128) (hd5 : d5 % 256 < 128) :
    (((((m.cpuWrite a1 d1).cpuWrite a2 d2).cpuWrite a3 d3).cpuWrite a4 d4).load_count = 4 ∧
      ((((m.cpuWrite a1 d1).cpuWrite a2 d2).cpuWrite a3 d3).cpuWrite a4 d4).control = m.control ∧
      ((((m.cpuWrite a1 d1).cpuWrite a2 d2).cpuWrite a3 d3).cpuWrite a4 d4).mirror = m.mirror ∧
      ((((m.cpuWrite a1 d1).cpuWrite a2 d2).cpuWrite a3 d3).cpuWrite a4 d4).prg_bank_32 = m.prg_bank_32 ∧
      ((((m.cpuWrite a1 d1).cpuWrite a2 d2).cpuWrite a3 d3).cpuWrite a4 d4).chr_bank_8 = m.chr_bank_8 ∧
      ((((m.cpuWrite a1 d1).cpuWrite a2 d2).cpuWrite a3 d3).cpuWrite a4 d4).prg_bank_16_lo = m.prg_bank_16_lo ∧
      ((((m.cpuWrite a1 d1).cpuWrite a2 d2).cpuWrite a3 d3).cpuWrite a4 d4).prg_bank_16_hi = m.prg_bank_16_hi ∧
      ((((m.cpuWrite a1 d1).cpuWrite a2 d2).cpuWrite a3 d3).cpuWrite a4 d4).chr_bank_4_lo = m.chr_bank_4_lo ∧
      ((((m.cpuWrite a1 d1).cpuWrite a2 d2).cpuWrite a3 d3).cpuWrite a4 d4).chr_bank_4_hi = m.chr_bank_4_hi) ∧
    (((((m.cpuWrite a1 d1).cpuWrite a2 d2).cpuWrite a3 d3).cpuWrite a4 d4).cpuWrite a5 d5 =
      Mmc1.commitRegister (a5 % 65536 / 8192 % 4)
        (d1 % 2 + d2 % 2 * 2 + d3 % 2 * 4 + d4 % 2 * 8 + d5 % 2 * 16) m) ∧
    ((((((m.cpuWrite a1 d1).cpuWrite a2 d2).cpuWrite a3 d3).cpuWrite a4 d4).cpuWrite a5 d5).load = 0 ∧
      (((((m.cpuWrite a1 d1).cpuWrite a2 d2).cpuWrite a3 d3).cpuWrite a4 d4).cpuWrite a5 d5).load_count = 0) ∧
    (∀ a d : Nat, 0x8000 ≤ a % 65536 → 128 ≤ d % 256 →
      (m.cpuWrite a d).load = 0 ∧ (m.cpuWrite a d).load_count = 0 ∧
      (m.cpuWrite a d).control = m.control ||| 0x0C ∧
      (m.cpuWrite a d).control / 4 % 4 = 3) := by
  obtain ⟨pb, load, cnt, ctl, b32, c8, plo, phi, c4l, c4h, mir, pram⟩ := m
  dsimp only at hl hc hctl
  subst hl; subst hc
  have e1 : (⟨pb, 0, 0, ctl, b32, c8, plo, phi, c4l, c4h, mir, pram⟩ : Mmc1).cpuWrite a1 d1 =
      ⟨pb, 0 / 2 ||| d1 % 2 * 16, 1, ctl, b32, c8, plo, phi, c4l, c4h, mir, pram⟩ :=
    Mmc1.cpuWrite_shift _ a1 d1 ha1 hd1 (by simp)
  have e2 : (⟨pb, 0 / 2 ||| d1 % 2 * 16, 1, ctl, b32, c8, plo, phi, c4l, c4h, mir, pram⟩ : Mmc1).cpuWrite a2 d2 =
      ⟨pb, (0 / 2 ||| d1 % 2 * 16) / 2 ||| d2 % 2 * 16, 2, ctl, b32, c8, plo, phi, c4l, c4h, mir, pram⟩ :=
    Mmc1.cpuWrite_shift _ a2 d2 ha2 hd2 (by simp)
  have e3 : (⟨pb, (0 / 2 ||| d1 % 2 * 16) / 2 ||| d2 % 2 * 16, 2, ctl, b32, c8, plo, phi, c4l, c4h, mir, pram⟩ : Mmc1).cpuWrite a3 d3 =
      ⟨pb, ((0 / 2 ||| d1 % 2 * 16) / 2 ||| d2 % 2 * 16) / 2 ||| d3 % 2 * 16, 3, ctl, b32, c8, plo, phi, c4l, c4h, mir, pram⟩ :=
    Mmc1.cpuWrite_shift _ a3 d3 ha3 hd3 (by simp)
  have e4 : (⟨pb, ((0 / 2 ||| d1 % 2 * 16) / 2 ||| d2 % 2 * 16) / 2 ||| d3 % 2 * 16, 3, ctl, b32, c8, plo, phi, c4l, c4h, mir, pram⟩ : Mmc1).cpuWrite a4 d4 =
      ⟨pb, (((0 / 2 ||| d1 % 2 * 16) / 2 ||| d2 % 2 * 16) / 2 ||| d3 % 2 * 16) / 2 ||| d4 % 2 * 16, 4, ctl, b32, c8, plo, phi, c4l, c4h, mir, pram⟩ :=
    Mmc1.cpuWrite_shift _ a4 d4 ha4 hd4 (by simp)
  have e5 : (⟨pb, (((0 / 2 ||| d1 % 2 * 16) / 2 ||| d2 % 2 * 16) / 2 ||| d3 % 2 * 16) / 2 ||| d4 % 2 * 16, 4, ctl, b32, c8, plo, phi, c4l, c4h, mir, pram⟩ : Mmc1).cpuWrite a5 d5 =
      Mmc1.commitRegister (a5 % 65536 / 8192 % 4)
        (((((0 / 2 ||| d1 % 2 * 16) / 2 ||| d2 % 2 * 16) / 2 ||| d3 % 2 * 16) / 2 ||| d4 % 2 * 16) / 2 ||| d5 % 2 * 16)
        ⟨pb, (((0 / 2 ||| d1 % 2 * 16) / 2 ||| d2 % 2 * 16) / 2 ||| d3 % 2 * 16) / 2 ||| d4 % 2 * 16, 4, ctl, b32, c8, plo, phi, c4l, c4h, mir, pram⟩ :=
    Mmc1.cpuWrite_commit5 _ a5 d5 ha5 hd5 rfl
  rw [e1, e2, e3, e4, e5]
  refine ⟨⟨rfl, rfl, rfl, rfl, rfl, rfl, rfl, rfl, rfl⟩, ?_, ?_, ?_⟩
  · rw [Mmc1.commitRegister_load_irrel 0 0, mmc1LoadBits]
  · rw [Mmc1.commitRegister_load_irrel 0 0, mmc1LoadBits]
    exact Mmc1.commitRegister_clears _ _ _
  · intro a d ha hd
    rw [Mmc1.cpuWrite_reset_load _ a d ha hd]
    exact ⟨rfl, rfl, rfl, lor12_mode3 ctl hctl⟩

/-- C6 witness: the golden five-write sequence 0,1,0,0,0 to 0x8000 from the
power-up MMC1 state commits the value 2 to the control register; the reset
branch is exercised with a bit-7 write of 0x80. -/
theorem c6_mmc1_load_register_witness :
    (((((Mmc1.new 2).cpuWrite 0x8000 0).cpuWrite 0x8000 1).cpuWrite 0x8000 0).cpuWrite 0x8000 0).load_count = 4 ∧
    ((((((Mmc1.new 2).cpuWrite 0x8000 0).cpuWrite 0x8000 1).cpuWrite 0x8000 0).cpuWrite 0x8000 0).cpuWrite 0x8000 0 =
      Mmc1.commitRegister 0 2 (Mmc1.new 2)) ∧
    ((Mmc1.new 2).cpuWrite 0x8000 0x80).control / 4 % 4 = 3 := by
  have h := c6_mmc1_load_register (Mmc1.new 2) 0x8000 0x8000 0x8000 0x8000 0x8000
    0 1 0 0 0 rfl rfl (by decide) (by norm_num) (by norm_num) (by norm_num)
    (by norm_num) (by norm_num) (by norm_num) (by norm_num) (by norm_num)
    (by norm_num) (by norm_num)
  refine ⟨h.1.1, h.2.1, (h.2.2.2 0x8000 0x80 (by norm_num) (by norm_num)).2.2.2⟩

/-! ## Claim C7: the MMC3 scanline counter -/

/-- Counting down: from a state whose counter holds `n + 1` (with the
interrupt flag clear and interrupts enabled), the first `n` scanline ticks
only decrement the counter and the tick `n + 1` raises the interrupt. -/
lemma mmc3_countdown : ∀ (n : Nat) (m : Mmc3),
    m.interrupt_active = false → m.interrupt_enabled = true →
    m.interrupt_counter = n + 1 →
    (∀ k, k ≤ n → (Mmc3.onScanline^[k] m).interrupt_active = false ∧
        (Mmc3.onScanline^[k] m).interrupt_counter = n + 1 - k) ∧
    (Mmc3.onScanline^[n + 1] m).interrupt_active = true := by
  intro n
  induction n with
  | zero =>
    intro m ha he hc
    refine ⟨?_, ?_⟩
    · intro k hk
      interval_cases k
      simpa using ⟨ha, hc⟩
    · simp [Mmc3.onScanline, hc, he]
  | succ n ih =>
    intro m ha he hc
    have hstep : Mmc3.onScanline m = { m with interrupt_counter := n + 1 } := by
      simp [Mmc3.onScanline, hc]
    have ih' := ih (Mmc3.onScanline m) (by rw [hstep]; exact ha)
      (by rw [hstep]; exact he) (by rw [hstep])
    refine ⟨?_, ?_⟩
    · intro k hk
      cases k with
      | zero => simpa using ⟨ha, hc⟩
      | succ j =>
        rw [Function.iterate_succ_apply]
        refine ⟨(ih'.1 j (by omega)).1, ?_⟩
        rw [(ih'.1 j (by omega)).2]
        omega
    · rw [Function.iterate_succ_apply]
      exact ih'.2

/-- C7: MMC3 scanline interrupt timing.  From a state whose counter is zero,
whose latched reload value is `interrupt_step`, whose interrupt flag is
clear and whose interrupts are enabled, the interrupt flag is still clear
after each of the first `interrupt_step` scanline ticks (the first tick
reloads the counter from the latch, later ticks decrement it) and becomes
set exactly on tick `interrupt_step + 1`. -/
theorem c7_mmc3_irq_after_reload_plus_one (m : Mmc3)
    (h0 : m.interrupt_counter = 0) (ha : m.interrupt_active = false)
    (he : m.interrupt_enabled = true) :
    (∀ k, 1 ≤ k → k ≤ m.interrupt_step →
        (Mmc3.onScanline^[k] m).interrupt_active = false ∧
        (Mmc3.onScanline^[k] m).interrupt_counter = m.interrupt_step + 1 - k) ∧
    (Mmc3.onScanline^[m.interrupt_step + 1] m).interrupt_active = true := by
  rcases Nat.eq_zero_or_pos m.interrupt_step with hz | hpos
  · refine ⟨?_, ?_⟩
    · intro k hk1 hk2; omega
    · rw [hz]
      simp [Mmc3.onScanline, h0, he, hz]
  · obtain ⟨r, hr⟩ : ∃ r, m.interrupt_step = r + 1 := ⟨m.interrupt_step - 1, by omega⟩
    have hstep : Mmc3.onScanline m = { m with interrupt_counter := m.interrupt_step } := by
      simp [Mmc3.onScanline, h0, hr]
    have hcd := mmc3_countdown r (Mmc3.onScanline m)
      (by rw [hstep]; exact ha) (by rw [hstep]; exact he) (by rw [hstep]; exact hr)
    refine ⟨?_, ?_⟩
    · intro k hk1 hk2
      obtain ⟨j, rfl⟩ : ∃ j, k = j + 1 := ⟨k - 1, by omega⟩
      rw [Function.iterate_succ_apply]
      refine ⟨(hcd.1 j (by omega)).1, ?_⟩
      rw [(hcd.1 j (by omega)).2]
      omega
    · rw [hr, Function.iterate_succ_apply]
      exact hcd.2

/-- A concrete MMC3 state for the C7 witness: power-up state with the
latched reload value 3 and interrupts enabled. -/
def mmc3W : Mmc3 :=
  { Mmc3.new 2 with interrupt_step := 3, interrupt_enabled := true }

/-- C7 witness: with reload value 3, the interrupt flag is clear after 2
ticks and set after 4 ticks. -/
theorem c7_mmc3_irq_witness :
    (Mmc3.onScanline^[2] mmc3W).interrupt_active = false ∧
      (Mmc3.onScanline^[4] mmc3W).interrupt_active = true := by
  have h := c7_mmc3_irq_after_reload_plus_one mmc3W rfl rfl rfl
  exact ⟨(h.1 2 (by norm_num) (by decide)).1, h.2⟩

/-! ## APU (src/device/apu.rs)

Audio amplitudes (`f32` in the source) are embedded as exact rationals.  The
claims only observe whether a sample is exactly `0.0` (silence) or not, and
the concrete values they touch are small dyadics that `f32` represents
exactly. -/

/-- `Sequencer`: an 11-bit period and its countdown timer. -/
structure Sequencer where
  period : Nat
  timer : Nat

def Sequencer.new : Sequencer := { period := 0, timer := 0 }

/-- `Sequencer::is_pulse_enabled`: `(period & 0x07FF) >= 8`. -/
def Sequencer.isPulseEnabled (s : Sequencer) : Prop :=
  8 ≤ s.period % 2048

instance (s : Sequencer) : Decidable s.isPulseEnabled := by
  unfold Sequencer.isPulseEnabled; infer_instance

/-- `Sequencer::is_triangle_enabled`: `(period & 0x07FF) >= 2`. -/
def Sequencer.isTriangleEnabled (s : Sequencer) : Prop :=
  2 ≤ s.period % 2048

instance (s : Sequencer) : Decidable s.isTriangleEnabled := by
  unfold Sequencer.isTriangleEnabled; infer_instance

/-- `Sequencer::set_lo`: replace the low byte of the period. -/
def Sequencer.setLo (s : Sequencer) (lo : Nat) : Sequencer :=
  let lo := lo % 256
  { s with period := s.period / 256 * 256 + lo }

/-- `Sequencer::set_hi`: `period = ((hi & 0x07) << 8) | (period & 0xF8FF)`
(bits 8-10 from `hi`, bits 0-7 and 11-15 kept), then reload the timer with
`period & 0x07FF`. -/
def Sequencer.setHi (s : Sequencer) (hi : Nat) : Sequencer :=
  let hi := hi % 256
  let period := hi % 8 * 256 + (s.period % 256 + s.period / 2048 * 2048)
  { period := period, timer := period % 2048 }

/-- `Sequencer::set_period`: `period = (period & 0xF800) | (p & 0x07FF)`,
then reload the timer. -/
def Sequencer.setPeriod (s : Sequencer) (p : Nat) : Sequencer :=
  let p := p % 65536
  let period := s.period / 2048 * 2048 + p % 2048
  { period := period, timer := period % 2048 }

/-- `Sequencer::clock`: wrapping decrement of the timer; on wrap past zero
reload it from `period & 0x07FF` and report a tick. -/
def Sequencer.clock (s : Sequencer) : Bool × Sequencer :=
  let t := (s.timer + 65535) % 65536
  if t = 65535 then
    (true, { s with timer := s.period % 2048 })
  else
    (false, { s with timer := t })

/-- `Sweep`: the pulse-channel sweep unit; it owns the channel's sequencer.
`uflow` is a ghost flag recording that the u16 subtraction in
`update_target_period` wrapped below zero (a panic under Rust debug
assertions); it feeds back into nothing. -/
structure Sweep where
  sequencer : Sequencer
  is_channel_1 : Bool
  enabled : Bool
  period : Nat
  negate : Bool
  shift : Nat
  reload : Bool
  divider : Nat
  target_period : Nat
  uflow : Bool

def Sweep.new (is_channel_1 : Bool) : Sweep :=
  { sequencer := Sequencer.new
    is_channel_1
    enabled := false
    period := 0
    negate := false
    shift := 0
    reload := false
    divider := 0
    target_period := 0
    uflow := false }

/-- `Sweep::update_target_period`.  In negate mode the code computes
`period - (period >> shift)` and, on channel 1, a further `- 1`, both on
`u16`.  The first subtraction cannot go below zero; the second wraps (and
sets the ghost flag) exactly when `period - (period >> shift)` is zero. -/
def Sweep.updateTargetPeriod (s : Sweep) : Sweep :=
  let shift_result := s.sequencer.period / 2 ^ s.shift
  if s.negate then
    let tp := s.sequencer.period - shift_result
    if s.is_channel_1 then
      { s with target_period := (tp + 65535) % 65536,
               uflow := s.uflow || decide (tp = 0) }
    else
      { s with target_period := tp }
  else
    { s with target_period := (s.sequencer.period + shift_result) % 65536 }

/-- `Sweep::set`: decode the 0x4001/0x4005 register byte. -/
def Sweep.set (s : Sweep) (v : Nat) : Sweep :=
  let v := v % 256
  { s with
    enabled := 128 ≤ v
    period := v / 16 % 8
    negate := v / 8 % 2 = 1
    shift := v % 8
    reload := true }

/-- `Sweep::clock`: recompute the target period, on half-frames run the
divider (updating the sequencer period when allowed), then clock the
sequencer. -/
def Sweep.clock (s : Sweep) (half : Bool) : Bool × Sweep :=
  let s := s.updateTargetPeriod
  let s :=
    if half then
      let divider := (s.divider + 255) % 256
      let s :=
        if divider = 0 then
          let s :=
            if 0 < s.shift ∧ s.enabled = true ∧ s.sequencer.isPulseEnabled ∧
                s.target_period ≤ 0x07FF then
              { s with sequencer := { s.sequencer with period := s.target_period } }
            else s
          { s with divider := s.period }
        else
          { s with divider := divider }
      if s.reload then
        { s with divider := s.period, reload := false }
      else s
    else s
  let (tick, seq) := s.sequencer.clock
  (tick, { s with sequencer := seq })

/-- The APU length-counter load table. -/
def lengthTable : List Nat :=
  [10, 254, 20, 2, 40, 4, 80, 6, 160, 8, 60, 10, 14, 12, 26, 14,
   12, 16, 24, 18, 48, 20, 96, 22, 192, 24, 72, 26, 16, 28, 32, 30]

/-- `LengthCounter`. -/
structure LengthCounter where
  halt : Bool
  counter : Nat

def LengthCounter.new : LengthCounter := { halt := false, counter := 0 }

/-- `LengthCounter::load`: table lookup at `(value & 0xF8) >> 3`. -/
def LengthCounter.load (l : LengthCounter) (value : Nat) : LengthCounter :=
  { l with counter := lengthTable.getD (value % 256 / 8) 0 }

/-- `LengthCounter::clock`: decrement while positive and not halted. -/
def LengthCounter.clock (l : LengthCounter) : LengthCounter :=
  if 0 < l.counter ∧ l.halt = false then
    { l with counter := l.counter - 1 }
  else l

/-- `VOLUME_SCALE` (15.0). -/
def VOLUME_SCALE : Rat := 15

/-- `Envelope`: owns the channel's length counter. -/
structure Envelope where
  length_counter : LengthCounter
  use_constant_volume : Bool
  volume_or_reload : Nat
  start : Bool
  divider_counter : Nat
  decay_counter : Nat

def Envelope.new : Envelope :=
  { length_counter := LengthCounter.new
    use_constant_volume := true
    volume_or_reload := 0
    start := false
    divider_counter := 0
    decay_counter := 0 }

/-- `Envelope::get_volume`. -/
def Envelope.getVolume (e : Envelope) : Rat :=
  if 0 < e.length_counter.counter then
    if e.use_constant_volume then
      (e.volume_or_reload : Rat) / VOLUME_SCALE
    else
      (e.decay_counter : Rat) / VOLUME_SCALE
  else
    0

/-- `Envelope::set`. -/
def Envelope.set (e : Envelope) (value : Nat) : Envelope :=
  let value := value % 256
  { e with
    use_constant_volume := value / 16 % 2 = 1
    volume_or_reload := value % 16
    start := true }

/-- `Envelope::clock`. -/
def Envelope.clock (e : Envelope) : Envelope :=
  if e.start then
    { e with start := false, decay_counter := 15,
             divider_counter := e.volume_or_reload }
  else
    if e.divider_counter = 0 then
      if e.decay_counter = 0 then
        if e.length_counter.halt then
          { e with divider_counter := e.volume_or_reload, decay_counter := 15 }
        else
          { e with divider_counter := e.volume_or_reload }
      else
        { e with divider_counter := e.volume_or_reload,
                 decay_counter := e.decay_counter - 1 }
    else
      { e with divider_counter := e.divider_counter - 1 }

/-- The four 8-step pulse duty patterns. -/
def pulseSequences : List Nat := [0b00000001, 0b00000011, 0b00001111, 0b11111100]

/-- `PulseChannel`. -/
structure PulseChannel where
  sequence : Nat
  sequence_pos : Nat
  enabled : Bool
  sweep : Sweep
  envelope : Envelope

def PulseChannel.new (is_channel_1 : Bool) : PulseChannel :=
  { sequence := pulseSequences.getD 0 0
    sequence_pos := 0
    enabled := true
    sweep := Sweep.new is_channel_1
    envelope := Envelope.new }

/-- `PulseChannel::write` for channel registers 0-3.  The source panics on
any other register index; callers only pass `address % 4`, so that arm is
unreachable and embedded as a no-op. -/
def PulseChannel.write (c : PulseChannel) (address data : Nat) : PulseChannel :=
  let data := data % 256
  if address = 0 then
    { c with
      sequence := pulseSequences.getD (data / 64 % 4) 0
      envelope :=
        Envelope.set
          { c.envelope with
            length_counter :=
              { c.envelope.length_counter with halt := data / 32 % 2 = 1 } }
          data }
  else if address = 1 then
    { c with sweep := c.sweep.set data }
  else if address = 2 then
    { c with sweep := { c.sweep with sequencer := c.sweep.sequencer.setLo data } }
  else if address = 3 then
    { c with
      sweep := { c.sweep with sequencer := c.sweep.sequencer.setHi data }
      envelope :=
        { c.envelope with
          length_counter := c.envelope.length_counter.load data
          start := true } }
  else
    c

/-- `PulseChannel::clock`. -/
def PulseChannel.clock (c : PulseChannel) (quarter half : Bool) : PulseChannel :=
  let c := if quarter then { c with envelope := c.envelope.clock } else c
  let c :=
    if half then
      { c with envelope :=
          { c.envelope with length_counter := c.envelope.length_counter.clock } }
    else c
  let (tick, sweep) := c.sweep.clock half
  let c := { c with sweep := sweep }
  if tick then { c with sequence_pos := (c.sequence_pos + 1) % 8 } else c

/-- `PulseChannel::sample`: the duty bit at the current position scaled by
the envelope volume; silence when the channel is disabled or the sequencer
period (masked to 11 bits) is below 8. -/
def PulseChannel.sample (c : PulseChannel) : Rat :=
  if c.enabled = true ∧ c.sweep.sequencer.isPulseEnabled then
    let output := c.sequence / 2 ^ c.sequence_pos % 2
    ((output : Rat) * 2 - 1) * c.envelope.getVolume
  else
    0

/-- `TriangleChannel`. -/
structure TriangleChannel where
  sequence_pos : Nat
  enabled : Bool
  sequencer : Sequencer
  length_counter : LengthCounter
  linear_counter : Nat
  linear_counter_reload : Nat
  reload : Bool

def TriangleChannel.new : TriangleChannel :=
  { sequence_pos := 0
    enabled := true
    sequencer := Sequencer.new
    length_counter := LengthCounter.new
    linear_counter := 0
    linear_counter_reload := 0
    reload := false }

/-- `TriangleChannel::write` for channel registers 0-3 (register 1 and the
unreachable panic arm are no-ops). -/
def TriangleChannel.write (c : TriangleChannel) (address data : Nat) : TriangleChannel :=
  let data := data % 256
  if address = 0 then
    { c with
      length_counter := { c.length_counter with halt := data / 128 % 2 = 1 }
      linear_counter_reload := data % 128 }
  else if address = 2 then
    { c with sequencer := c.sequencer.setLo data }
  else if address = 3 then
    { c with
      sequencer := c.sequencer.setHi data
      length_counter := c.length_counter.load data
      reload := true }
  else
    c

/-- `TriangleChannel::clock`. -/
def TriangleChannel.clock (c : TriangleChannel) (quarter half : Bool) : TriangleChannel :=
  let c :=
    if quarter then
      let c :=
        if c.reload then
          { c with linear_counter := c.linear_counter_reload }
        else if 0 < c.linear_counter then
          { c with linear_counter := c.linear_counter - 1 }
        else c
      if c.length_counter.halt = false then { c with reload := false } else c
    else c
  let c :=
    if half then { c with length_counter := c.length_counter.clock } else c
  let (tick, seq) := c.sequencer.clock
  let c := { c with sequencer := seq }
  if tick then { c with sequence_pos := (c.sequence_pos + 1) % 32 } else c

/-- The 32-step triangle ramp 15 → 0 → 15, scaled to [-1, 1]: entry `i` is
`(15 - i) / 15 * 2 - 1` for `i < 16` and `(i - 16) / 15 * 2 - 1` above. -/
def triangleSeq (i : Nat) : Rat :=
  if i < 16 then ((15 - i : Nat) : Rat) / VOLUME_SCALE * 2 - 1
  else ((i - 16 : Nat) : Rat) / VOLUME_SCALE * 2 - 1

/-- `TriangleChannel::sample`. -/
def TriangleChannel.sample (c : TriangleChannel) : Rat :=
  if c.enabled = true ∧ c.sequencer.isTriangleEnabled ∧
      0 < c.length_counter.counter ∧ 0 < c.linear_counter then
    triangleSeq (c.sequence_pos % 32)
  else
    0

/-- The tabulated noise periods. -/
def noisePeriodTable : List Nat :=
  [4, 8, 16, 32, 64, 96, 128, 160, 202, 254, 380, 508, 762, 1016, 2034, 4068]

/-- `NoiseChannel`: a 15-bit LFSR. -/
structure NoiseChannel where
  enabled : Bool
  shift : Nat
  mode : Bool
  sequencer : Sequencer
  envelope : Envelope

def NoiseChannel.new : NoiseChannel :=
  { enabled := true
    shift := 0x0001
    mode := false
    sequencer := Sequencer.new
    envelope := Envelope.new }

/-- `NoiseChannel::write` for channel registers 0-3. -/
def NoiseChannel.write (c : NoiseChannel) (address data : Nat) : NoiseChannel :=
  let data := data % 256
  if address = 0 then
    { c with
      envelope :=
        Envelope.set
          { c.envelope with
            length_counter :=
              { c.envelope.length_counter with halt := data / 32 % 2 = 1 } }
          data }
  else if address = 2 then
    { c with
      mode := data / 128 % 2 = 1
      sequencer := c.sequencer.setPeriod (noisePeriodTable.getD (data % 16) 0 - 1) }
  else if address = 3 then
    { c with
      envelope :=
        { c.envelope with
          length_counter := c.envelope.length_counter.load data
          start := true } }
  else
    c

/-- `NoiseChannel::clock`: on a sequencer tick shift the LFSR; the feedback
bit is the xor of bit 0 and bit 1 (or bit 6 in mode 1), fed into bit 14. -/
def NoiseChannel.clock (c : NoiseChannel) (quarter half : Bool) : NoiseChannel :=
  let c := if quarter then { c with envelope := c.envelope.clock } else c
  let c :=
    if half then
      { c with envelope :=
          { c.envelope with length_counter := c.envelope.length_counter.clock } }
    else c
  let (tick, seq) := c.sequencer.clock
  let c := { c with sequencer := seq }
  if tick then
    let bit1 := c.shift % 2
    let bit2 := (if c.mode then c.shift / 64 else c.shift / 2) % 2
    let feedback := (bit1 + bit2) % 2
    { c with shift := c.shift / 2 ||| feedback * 16384 }
  else c

/-- `NoiseChannel::sample`. -/
def NoiseChannel.sample (c : NoiseChannel) : Rat :=
  if c.enabled = true ∧ c.shift % 2 = 0 then
    let volume := c.envelope.getVolume
    if volume = 0 then 0 else volume * 2 - 1
  else
    0

/-- `DMC_BASE_ADDRESS` / `DMC_WRAP_ADDRESS`. -/
def DMC_BASE_ADDRESS : Nat := 0xC000
def DMC_WRAP_ADDRESS : Nat := 0x8000

/-- `SampleReader`: the DMC byte-stream reader. -/
structure SampleReader where
  address : Nat
  length : Nat
  irq_enabled : Bool
  irq : Bool
  loop_enabled : Bool
  current_pos : Nat
  bytes_remaining : Nat
  current : Nat
  bits_remaining : Nat
  output : Bool
  has_ended : Bool

def SampleReader.new : SampleReader :=
  { address := DMC_BASE_ADDRESS
    length := 0x0001
    irq_enabled := true
    irq := false
    loop_enabled := false
    current_pos := DMC_BASE_ADDRESS
    bytes_remaining := 0
    current := 0
    bits_remaining := 0
    output := false
    has_ended := true }

def SampleReader.setFlags (r : SampleReader) (value : Nat) : SampleReader :=
  let value := value % 256
  let r := { r with
    irq_enabled := value / 128 % 2 = 1
    loop_enabled := value / 64 % 2 = 1 }
  if r.irq_enabled = false then { r with irq := false } else r

/-- `SampleReader::set_address`: `0xC000 | (value << 6)` (disjoint bits). -/
def SampleReader.setAddress (r : SampleReader) (value : Nat) : SampleReader :=
  { r with address := DMC_BASE_ADDRESS + value % 256 * 64 }

/-- `SampleReader::set_length`: `(value << 4) | 1` (disjoint bits). -/
def SampleReader.setLength (r : SampleReader) (value : Nat) : SampleReader :=
  { r with length := value % 256 * 16 + 1 }

def SampleReader.restart (r : SampleReader) : SampleReader :=
  if r.bytes_remaining = 0 then
    { r with current_pos := r.address, bytes_remaining := r.length,
             has_ended := false }
  else r

def SampleReader.halt (r : SampleReader) : SampleReader :=
  { r with bytes_remaining := 0, has_ended := true }

def SampleReader.clearIrq (r : SampleReader) : SampleReader :=
  { r with irq := false }

/-- `SampleReader::clock`.  The source assigns `cart.cpu_read(pos)` (an
`Option<u8>`) straight to the `u8` field `current`, which does not type
check as written; the read is embedded with a default of 0.  It is guarded
by `has_ended` and no claim depends on it.  `bytes_remaining -= 1` can
underflow when the stream was empty and looping is off; the u16 wrap is
explicit. -/
def SampleReader.clock (r : SampleReader) (cart : Cartridge) : SampleReader :=
  let r :=
    if r.bits_remaining = 0 then
      let r := { r with bits_remaining := 8 }
      if r.has_ended = false then
        let r :=
          if r.bytes_remaining = 0 then
            let r := { r with has_ended := true }
            if r.loop_enabled then r.restart
            else if r.irq_enabled then { r with irq := true }
            else r
          else r
        let r := { r with current := (cart.cpuRead r.current_pos).getD 0 }
        let pos := (r.current_pos + 1) % 65536
        let r := { r with current_pos := if pos = 0 then DMC_WRAP_ADDRESS else pos }
        { r with bytes_remaining := (r.bytes_remaining + 65535) % 65536 }
      else r
    else r
  { r with
    output := r.current % 2 = 1
    current := r.current / 2
    bits_remaining := r.bits_remaining - 1 }

/-- The tabulated DMC rates. -/
def dmcRateTable : List Nat :=
  [214, 190, 170, 160, 143, 127, 113, 107, 95, 80, 71, 64, 53, 42, 36, 27]

/-- `DmcChannel`. -/
structure DmcChannel where
  enabled : Bool
  rate : Nat
  output : Nat
  reader : SampleReader
  cycles : Nat

def DmcChannel.new : DmcChannel :=
  { enabled := true, rate := 0, output := 0, reader := SampleReader.new, cycles := 0 }

/-- `DmcChannel::write` for channel registers 0-3. -/
def DmcChannel.write (c : DmcChannel) (address data : Nat) : DmcChannel :=
  let data := data % 256
  if address = 0 then
    { c with
      reader := c.reader.setFlags data
      rate := dmcRateTable.getD (data % 16) 0 + 1 }
  else if address = 1 then
    { c with output := data % 128 }
  else if address = 2 then
    { c with reader := c.reader.setAddress data }
  else if address = 3 then
    { c with reader := c.reader.setLength data }
  else
    c

/-- `DmcChannel::clock`. -/
def DmcChannel.clock (c : DmcChannel) (cart : Cartridge) : DmcChannel :=
  let cycles := (c.cycles + 1) % 256
  if cycles = c.rate then
    let c := { c with cycles := 0, reader := c.reader.clock cart }
    if c.reader.has_ended = false then
      if c.reader.output then
        if c.output ≤ 125 then { c with output := c.output + 2 } else c
      else
        if 2 ≤ c.output then { c with output := c.output - 2 } else c
    else c
  else
    { c with cycles := cycles }

/-- `DmcChannel::sample`. -/
def DmcChannel.sample (c : DmcChannel) : Rat :=
  if c.enabled = true ∧ c.reader.has_ended = false then
    (c.output : Rat) / VOLUME_SCALE
  else
    (1 : Rat) / 2

/-- `SECONDS_PER_APU_CLOCK` = 1 / (1789773 / 2). -/
def SECONDS_PER_APU_CLOCK : Rat := 2 / 1789773

/-- `SECONDS_PER_SAMPLE` = 1 / 44100. -/
def SECONDS_PER_SAMPLE : Rat := 1 / 44100

/-- `Apu`: the five channels, the frame sequencer and the sample-rate
accumulator `t` (an `f64` in the source, embedded as an exact rational). -/
structure Apu where
  pulse_channel_1 : PulseChannel
  pulse_channel_2 : PulseChannel
  triangle_channel : TriangleChannel
  noise_channel : NoiseChannel
  dmc_channel : DmcChannel
  counter_mode : Bool
  even_cycle : Bool
  cycles : Nat
  inhibit_irq : Bool
  irq : Bool
  t : Rat

def Apu.new : Apu :=
  { pulse_channel_1 := PulseChannel.new true
    pulse_channel_2 := PulseChannel.new false
    triangle_channel := TriangleChannel.new
    noise_channel := NoiseChannel.new
    dmc_channel := DmcChannel.new
    counter_mode := false
    even_cycle := false
    cycles := 0
    inhibit_irq := true
    irq := false
    t := 0 }

/-- `Apu::reset`. -/
def Apu.reset (a : Apu) : Apu :=
  { a with
    pulse_channel_1 :=
      { a.pulse_channel_1 with
        enabled := false
        envelope :=
          { a.pulse_channel_1.envelope with
            length_counter :=
              { a.pulse_channel_1.envelope.length_counter with counter := 0 } } }
    pulse_channel_2 :=
      { a.pulse_channel_2 with
        enabled := false
        envelope :=
          { a.pulse_channel_2.envelope with
            length_counter :=
              { a.pulse_channel_2.envelope.length_counter with counter := 0 } } }
    triangle_channel :=
      { a.triangle_channel with
        enabled := false
        length_counter := { a.triangle_channel.length_counter with counter := 0 } }
    noise_channel :=
      { a.noise_channel with
        enabled := false
        envelope :=
          { a.noise_channel.envelope with
            length_counter :=
              { a.noise_channel.envelope.length_counter with counter := 0 } } } }

def Apu.dmcIrqRequested (a : Apu) : Bool := a.dmc_channel.reader.irq

def Apu.irqRequested (a : Apu) : Bool := a.irq

/-- The number of iterations of the `while self.t >= 0.0` sample-push loop
for a starting value `t`: the least `n` with `t - n / 44100 < 0`. -/
def samplePushCount (t : Rat) : Nat :=
  if 0 ≤ t then ((t / SECONDS_PER_SAMPLE).floor + 1).toNat else 0

/-- `Apu::clock`: advance the frame sequencer, clock the channels (pulse,
noise and DMC on even cycles only, the triangle every cycle with gated
quarter/half events), and on even cycles mix one sample and push it zero or
more times into the sample buffer.  Returns the clocked APU and the pushed
samples (the ring buffer is embedded as an unbounded list; a full buffer,
which panics in the source via `unwrap`, is not modelled — no claim
observes the buffer). -/
def Apu.clock (a : Apu) (cart : Cartridge) : Apu × List Rat :=
  let even := !a.even_cycle
  let cycles := if even then (a.cycles + 1) % 4294967296 else a.cycles
  let full := if a.counter_mode then cycles = 18641 else cycles = 14915
  let half := cycles = 7457 ∨ full
  let quarter := cycles = 3729 ∨ cycles = 11186 ∨ half
  let cycles := if full then 0 else cycles
  let irq :=
    if full ∧ a.inhibit_irq = false ∧ a.counter_mode = false then true else a.irq
  let tri := a.triangle_channel.clock (decide quarter && even) (decide half && even)
  if even then
    let p1 := a.pulse_channel_1.clock (decide quarter) (decide half)
    let p2 := a.pulse_channel_2.clock (decide quarter) (decide half)
    let noi := a.noise_channel.clock (decide quarter) (decide half)
    let dmc := a.dmc_channel.clock cart
    let sample := (0.00752 : Rat) * (p1.sample + p2.sample) +
      (0.00851 : Rat) * tri.sample + (0.00494 : Rat) * noi.sample +
      (0.00335 : Rat) * dmc.sample * VOLUME_SCALE
    let t := a.t + SECONDS_PER_APU_CLOCK
    let n := samplePushCount t
    ({ a with
        pulse_channel_1 := p1
        pulse_channel_2 := p2
        triangle_channel := tri
        noise_channel := noi
        dmc_channel := dmc
        even_cycle := even
        cycles := cycles
        irq := irq
        t := t - n * SECONDS_PER_SAMPLE },
      List.replicate n sample)
  else
    ({ a with
        triangle_channel := tri
        even_cycle := even
        cycles := cycles
        irq := irq }, [])

/-- `Apu::write` for 0x4000-0x4013 (the offset into APU space). -/
def Apu.write (a : Apu) (address data : Nat) : Apu :=
  let address := address % 65536
  let channel_index := address / 4
  let channel_address := address % 4
  if channel_index = 0 then
    { a with pulse_channel_1 := a.pulse_channel_1.write channel_address data }
  else if channel_index = 1 then
    { a with pulse_channel_2 := a.pulse_channel_2.write channel_address data }
  else if channel_index = 2 then
    { a with triangle_channel := a.triangle_channel.write channel_address data }
  else if channel_index = 3 then
    { a with noise_channel := a.noise_channel.write channel_address data }
  else if channel_index = 4 then
    { a with dmc_channel := a.dmc_channel.write channel_address data }
  else
    a

/-- `Apu::read_status`: length-counter activity bits, the frame IRQ bit and
the DMC IRQ bit; reading clears the frame IRQ. -/
def Apu.readStatus (a : Apu) : Nat × Apu :=
  let result : Nat :=
    (if 0 < a.pulse_channel_1.envelope.length_counter.counter then 0x01 else 0) +
    (if 0 < a.pulse_channel_2.envelope.length_counter.counter then 0x02 else 0) +
    (if 0 < a.triangle_channel.length_counter.counter then 0x04 else 0) +
    (if 0 < a.noise_channel.envelope.length_counter.counter then 0x08 else 0) +
    (if a.dmc_channel.reader.has_ended = false then 0x10 else 0) +
    (if a.irq then 0x40 else 0) +
    (if a.dmc_channel.reader.irq then 0x80 else 0)
  (result, { a with irq := false })

/-- `Apu::write_control` (0x4015 writes). -/
def Apu.writeControl (a : Apu) (data : Nat) : Apu :=
  let data := data % 256
  let pulse_1_enabled := data % 2 = 1
  let pulse_2_enabled := data / 2 % 2 = 1
  let triangle_enabled := data / 4 % 2 = 1
  let noise_enabled := data / 8 % 2 = 1
  let dmc_enabled := data / 16 % 2 = 1
  let p1 := { a.pulse_channel_1 with enabled := pulse_1_enabled }
  let p1 := if pulse_1_enabled then p1 else
    { p1 with envelope := { p1.envelope with
        length_counter := { p1.envelope.length_counter with counter := 0 } } }
  let p2 := { a.pulse_channel_2 with enabled := pulse_2_enabled }
  let p2 := if pulse_2_enabled then p2 else
    { p2 with envelope := { p2.envelope with
        length_counter := { p2.envelope.length_counter with counter := 0 } } }
  let tri := { a.triangle_channel with enabled := triangle_enabled }
  let tri := if triangle_enabled then tri else
    { tri with length_counter := { tri.length_counter with counter := 0 } }
  let noi := { a.noise_channel with enabled := noise_enabled }
  let noi := if noise_enabled then noi else
    { noi with envelope := { noi.envelope with
        length_counter := { noi.envelope.length_counter with counter := 0 } } }
  let dmc := { a.dmc_channel with enabled := dmc_enabled }
  let dmc := { dmc with reader := dmc.reader.clearIrq }
  let dmc :=
    if dmc_enabled then { dmc with reader := dmc.reader.restart }
    else { dmc with reader := dmc.reader.halt }
  { a with pulse_channel_1 := p1, pulse_channel_2 := p2,
           triangle_channel := tri, noise_channel := noi, dmc_channel := dmc }

/-- `Apu::write_frame_counter` (0x4017 writes). -/
def Apu.writeFrameCounter (a : Apu) (data : Nat) : Apu :=
  let data := data % 256
  { a with counter_mode := data / 128 % 2 = 1, inhibit_irq := data / 64 % 2 = 1 }

/-! ## Claim C8: pulse-channel muting -/

/-- A pulse-1 channel whose sequencer period is 0x400 (≥ 8), whose sweep
shift is 0 with negate clear — so the computed sweep target is 0x800, above
0x7FF — and whose envelope outputs constant volume 15 with a live length
counter. -/
def c8Channel : PulseChannel :=
  { sequence := 1
    sequence_pos := 0
    enabled := true
    sweep :=
      { sequencer := { period := 0x400, timer := 0 }
        is_channel_1 := true
        enabled := false
        period := 0
        negate := false
        shift := 0
        reload := false
        divider := 0
        target_period := 0x800
        uflow := false }
    envelope :=
      { length_counter := { halt := false, counter := 1 }
        use_constant_volume := true
        volume_or_reload := 15
        start := false
        divider_counter := 0
        decay_counter := 0 } }

/-- C8, counterexample.  The sweep target period computed by
`Sweep::update_target_period` for this channel is 0x800, above 0x7FF, yet
`PulseChannel::sample` is not silent: the sample function only checks
`enabled` and `period >= 8`, never the sweep target. -/
theorem c8_sweep_target_no_mute_counterexample :
    (c8Channel.sweep.updateTargetPeriod).target_period = 0x800 ∧
      c8Channel.sample ≠ 0 := by
  constructor
  · rfl
  · norm_num [c8Channel, PulseChannel.sample, Sequencer.isPulseEnabled,
      Envelope.getVolume, VOLUME_SCALE]

/-- C8, amended.  A pulse channel's sample output is silence whenever the
sequencer period masked to 11 bits is below 8 (and also whenever the
channel is disabled); the sweep unit's target period does not gate the
sample output — it only gates sweep period updates in `Sweep::clock`. -/
theorem c8_pulse_muted_when_period_low (c : PulseChannel)
    (h : c.sweep.sequencer.period % 2048 < 8) : c.sample = 0 := by
  unfold PulseChannel.sample
  rw [if_neg]
  rintro ⟨-, h2⟩
  unfold Sequencer.isPulseEnabled at h2
  omega

/-- C8 witness: the power-up pulse-1 channel has period 0, hence samples
silence. -/
theorem c8_pulse_muted_witness : (PulseChannel.new true).sample = 0 :=
  c8_pulse_muted_when_period_low (PulseChannel.new true) (by decide)

/-! ## Claim C10: the sweep target-period subtraction -/

/-- C10, evaluation at the failing input.  From APU power-up, a CPU write of
0x08 to 0x4001 (sweep register of pulse 1: negate set, shift 0) followed by
one APU clock makes `Sweep::update_target_period` compute `0u16 - 0 - 1`:
the subtraction underflows (a panic under Rust debug assertions) and wraps
the target period to 0xFFFF.  The ghost flag `uflow` records the wrap. -/
theorem c10_sweep_underflow_eval :
    (((Apu.new.write 1 8).clock testCart).1.pulse_channel_1.sweep.uflow = true) ∧
      (((Apu.new.write 1 8).clock testCart).1.pulse_channel_1.sweep.target_period = 65535) :=
  ⟨rfl, rfl⟩

/-! ## PPU register file and frame counter (modelled from the spec)

`src/device/ppu.rs` is not among the provided sources; only its callers
(`src/system.rs`) are.  The parts the system bus and the DMA unit touch are
modelled here from spec §4.3 (registers, OAM, loopy registers, the timing
grid, NMI generation) and §4.5 (OAM-address-based DMA writes).  The
background/sprite rendering pipeline, the odd-frame cycle skip and the
open-bus low bits of PPUSTATUS are not modelled; no claim below depends on
them. -/

/-- Modelled from the spec: the PPU state visible to the system bus —
control/mask/status registers, OAM plus its address register, the loopy
registers `v`/`t`/fine-x/`w`, the PPUDATA read buffer, the scanline/dot
counters and the NMI latch (spec §4.3). -/
structure Ppu where
  ctrl : Nat
  mask : Nat
  status : Nat
  oam_addr : Nat
  oam : Nat → Nat
  v : Nat
  t : Nat
  fine_x : Nat
  w : Nat
  data_buffer : Nat
  scanline : Nat
  dot : Nat
  nmi_latch : Bool

def Ppu.new : Ppu :=
  { ctrl := 0, mask := 0, status := 0, oam_addr := 0, oam := fun _ => 0,
    v := 0, t := 0, fine_x := 0, w := 0, data_buffer := 0,
    scanline := 0, dot := 0, nmi_latch := false }

/-- Modelled from the spec (§4.5): a DMA byte is written to OAM at the
internal OAM-address register, which increments. -/
def Ppu.dmaWrite (p : Ppu) (data : Nat) : Ppu :=
  { p with
    oam := updFn p.oam (p.oam_addr % 256) (data % 256)
    oam_addr := (p.oam_addr % 256 + 1) % 256 }

/-- The PPUDATA address increment selected by PPUCTRL bit 2 (spec §4.3). -/
def Ppu.vramIncrement (p : Ppu) : Nat :=
  if p.ctrl / 4 % 2 = 1 then 32 else 1

/-- Modelled from the spec (§4.3): CPU reads of the PPU register file
(register index = address mod 8).  PPUSTATUS returns the top three status
bits, clears vblank and resets the write toggle (its open-bus low bits are
modelled as zero); OAMDATA reads OAM at the OAM address; PPUDATA reads
through the internal buffer except in palette space and increments `v`;
other registers read zero. -/
def Ppu.cpuRead (p : Ppu) (pb : PpuBus) (addr : Nat) : Nat × Ppu :=
  let reg := addr % 8
  if reg = 2 then
    (p.status % 256 / 32 * 32, { p with status := p.status % 128, w := 0 })
  else if reg = 4 then
    (p.oam (p.oam_addr % 256), p)
  else if reg = 7 then
    let vaddr := p.v % 0x4000
    let p' := { p with v := (p.v + p.vramIncrement) % 32768 }
    if 0x3F00 ≤ vaddr then
      (pb.read vaddr, p')
    else
      (p.data_buffer, { p' with data_buffer := pb.read vaddr })
  else
    (0, p)

/-- Modelled from the spec (§4.3): CPU writes of the PPU register file.
PPUCTRL also loads the nametable bits of `t`; PPUSCROLL and PPUADDR are the
two-write registers over `t`/`w`; OAMDATA writes OAM and increments the OAM
address; PPUDATA writes through the PPU bus and increments `v`. -/
def Ppu.cpuWrite (p : Ppu) (pb : PpuBus) (addr data : Nat) : Ppu × PpuBus :=
  let reg := addr % 8
  let data := data % 256
  if reg = 0 then
    ({ p with
        ctrl := data
        t := p.t % 1024 + data % 4 * 1024 + p.t / 4096 * 4096 }, pb)
  else if reg = 1 then
    ({ p with mask := data }, pb)
  else if reg = 3 then
    ({ p with oam_addr := data }, pb)
  else if reg = 4 then
    ({ p with
        oam := updFn p.oam (p.oam_addr % 256) data
        oam_addr := (p.oam_addr % 256 + 1) % 256 }, pb)
  else if reg = 5 then
    if p.w = 0 then
      ({ p with t := p.t / 32 * 32 + data / 8, fine_x := data % 8, w := 1 }, pb)
    else
      ({ p with
          t := p.t % 32 + data / 8 % 32 * 32 + p.t / 1024 % 4 * 1024 +
            data % 8 * 4096
          w := 0 }, pb)
  else if reg = 6 then
    if p.w = 0 then
      ({ p with t := data % 64 * 256 + p.t % 256, w := 1 }, pb)
    else
      let t := p.t / 256 * 256 + data
      ({ p with t := t, v := t, w := 0 }, pb)
  else if reg = 7 then
    ({ p with v := (p.v + p.vramIncrement) % 32768 },
      pb.write (p.v % 0x4000) data)
  else
    (p, pb)

/-- Modelled from the spec (§4.3 timing grid, §4.6, §5): one PPU dot.
Advances the dot/scanline counters over the 341 × 262 grid, sets the vblank
flag and latches an NMI at dot 1 of scanline 241 when NMI is enabled,
clears the status flags at dot 1 of scanline 261, and delivers the mapper
scanline tick at dot 260 of the visible and pre-render lines when rendering
is enabled.  The odd-frame skip is not modelled. -/
def Ppu.clock (p : Ppu) (cart : Cartridge) : Ppu × Cartridge :=
  let dot := p.dot + 1
  let p :=
    if 341 ≤ dot then
      { p with dot := 0, scanline := (p.scanline + 1) % 262 }
    else
      { p with dot := dot }
  let p :=
    if p.scanline = 241 ∧ p.dot = 1 then
      { p with
        status := p.status % 128 + 128
        nmi_latch := p.nmi_latch || decide (p.ctrl / 128 % 2 = 1) }
    else p
  let p :=
    if p.scanline = 261 ∧ p.dot = 1 then { p with status := p.status % 32 } else p
  let cart :=
    if p.dot = 260 ∧ (p.scanline < 240 ∨ p.scanline = 261) ∧ p.mask / 8 % 4 ≠ 0 then
      cart.onScanline
    else cart
  (p, cart)

/-- Modelled from the spec: `Ppu::check_nmi` reports and clears the latched
NMI signal. -/
def Ppu.checkNmi (p : Ppu) : Bool × Ppu :=
  (p.nmi_latch, { p with nmi_latch := false })

/-! ## DMA unit and controllers (src/system.rs, src/device/controller.rs) -/

/-- `Dma`: source page, offset and the active flag. -/
structure Dma where
  page : Nat
  addr : Nat
  active : Bool

def Dma.new : Dma := { page := 0, addr := 0, active := false }

/-- `Dma::write` (a CPU write to 0x4014): latch the page, reset the offset
and go active. -/
def Dma.write (_d : Dma) (data : Nat) : Dma :=
  { page := data % 256, addr := 0, active := true }

/-- `Controller`: two 8-bit shift registers with a latch. -/
structure Controller where
  c0 : Nat
  c1 : Nat
  buffer0 : Nat
  buffer1 : Nat
  latch : Bool

def Controller.new : Controller :=
  { c0 := 0, c1 := 0, buffer0 := 0, buffer1 := 0, latch := false }

def Controller.updateState (c : Controller) (a b : Nat) : Controller :=
  { c with buffer0 := a % 256, buffer1 := b % 256 }

/-- `Controller::read`: while latched the register is refreshed from the
buffer; reading returns the top bit and shifts left. -/
def Controller.read (c : Controller) (port : Nat) : Nat × Controller :=
  if port = 0 then
    let reg := if c.latch then c.buffer0 else c.c0
    (reg % 256 / 128, { c with c0 := reg % 256 * 2 % 256 })
  else
    let reg := if c.latch then c.buffer1 else c.c1
    (reg % 256 / 128, { c with c1 := reg % 256 * 2 % 256 })

/-- `Controller::write`: bit 0 set latches; a write with bit 0 clear while
latched commits the buffers and unlatches. -/
def Controller.write (c : Controller) (data : Nat) : Controller :=
  if data % 2 = 1 then
    { c with latch := true }
  else if c.latch then
    { c with c0 := c.buffer0, c1 := c.buffer1, latch := false }
  else
    c

/-! ## CPU state (src/cpu.rs) -/

/-- The six live status flags plus the push-only B and U bits
(`StatusFlags` and the `B_FLAG`/`U_FLAG` constants in src/cpu.rs). -/
def FLAG_C : Nat := 0x01
def FLAG_Z : Nat := 0x02
def FLAG_I : Nat := 0x04
def FLAG_D : Nat := 0x08
def FLAG_V : Nat := 0x40
def FLAG_N : Nat := 0x80
def B_FLAG : Nat := 0x10
def U_FLAG : Nat := 0x20

def STACK_HIGH_BYTE : Nat := 0x01
def IRQ_VECTOR : Nat := 0xFFFE
def NMI_VECTOR : Nat := 0xFFFA
def RESET_VECTOR : Nat := 0xFFFC

/-- `Cpu`: registers, status byte, program counter, the per-instruction
cycle countdown and the two interrupt latches. -/
structure Cpu where
  a : Nat
  x : Nat
  y : Nat
  s : Nat
  p : Nat
  pc : Nat
  cycle_counter : Nat
  irq_pending : Bool
  nmi_pending : Bool

/-- `bitflags` `contains` on the status byte: single-flag test.  The flag
masks are single bits, so `p & flag != 0` is `p / flag % 2 = 1`. -/
def Cpu.flag (c : Cpu) (f : Nat) : Prop := c.p / f % 2 = 1

instance (c : Cpu) (f : Nat) : Decidable (c.flag f) := by
  unfold Cpu.flag; infer_instance

/-- `bitflags` `set` on the status byte (single-bit flags): clear the bit,
then or it back in when requested. -/
def setFlag (p f : Nat) (b : Bool) : Nat :=
  let cleared := p % 256 - p % 256 / f % 2 * f
  if b then cleared + f else cleared

/-- `StatusFlags::from_bits_truncate`: keep only the six defined flag bits
(mask 0xCF = drop bits 4 and 5). -/
def fromBitsTruncate (v : Nat) : Nat :=
  v % 256 - v % 256 / 16 % 4 * 16

/-! ## The system state and CPU bus (src/system.rs, `CpuBus`) -/

/-- The whole emulated machine, plus ghost instrumentation: `writeLog`
records every CPU-bus write (address, data) in order, `cpuClocks` counts
invocations of `Cpu::clock`, `dmaTransfers` counts DMA byte copies, and
`audio` collects pushed samples. -/
structure NesState where
  cpu : Cpu
  ram : Ram
  ppu : Ppu
  apu : Apu
  dma : Dma
  controller : Controller
  cart : Cartridge
  vram : Vram
  palette : Ram
  last_bus_value : Nat
  even_cycle : Bool
  writeLog : List (Nat × Nat)
  cpuClocks : Nat
  dmaTransfers : Nat
  audio : List Rat

/-- The `PpuBus` view of a system state (`system.rs` builds it from the
cartridge, nametable RAM and palette fields). -/
def NesState.ppuBus (s : NesState) : PpuBus :=
  { cart := s.cart, vram := s.vram, palette := s.palette }

/-- Write a `PpuBus` view back into the system state. -/
def NesState.setPpuBus (s : NesState) (pb : PpuBus) : NesState :=
  { s with cart := pb.cart, vram := pb.vram, palette := pb.palette }

/-- The routing `match` of `CpuBus::read` (src/system.rs), producing the
value and the state effects of the selected device.  Reads of
0x4000-0x4014 and 0x4018-0x401F fall through to the open-bus arm;
cartridge reads that return `none` also yield the latch. -/
def busReadCore (s : NesState) (addr : Nat) : Nat × NesState :=
  if addr ≤ 0x1FFF then
    (s.ram.read addr, s)
  else if addr ≤ 0x3FFF then
    let (v, ppu) := s.ppu.cpuRead s.ppuBus (addr - 0x2000)
    (v, { s with ppu := ppu })
  else if addr = 0x4015 then
    let (v, apu) := s.apu.readStatus
    ((v % 256 - v % 256 / 32 % 2 * 32) + s.last_bus_value % 64 / 32 * 32,
      { s with apu := apu })
  else if addr = 0x4016 then
    let (v, controller) := s.controller.read 0
    (v % 32 + s.last_bus_value % 256 / 32 * 32, { s with controller := controller })
  else if addr = 0x4017 then
    let (v, controller) := s.controller.read 1
    (v % 32 + s.last_bus_value % 256 / 32 * 32, { s with controller := controller })
  else if 0x4020 ≤ addr then
    ((s.cart.cpuRead addr).getD s.last_bus_value, s)
  else
    (s.last_bus_value, s)

/-- `CpuBus::read`: route the read, then store the returned value in the
last-bus-value latch. -/
def busRead (s : NesState) (addr : Nat) : Nat × NesState :=
  let (value, s1) := busReadCore s (addr % 65536)
  (value, { s1 with last_bus_value := value })

/-- The routing `match` of `CpuBus::write` (src/system.rs).  None of the
arms touches the last-bus-value latch. -/
def busWriteCore (s : NesState) (addr data : Nat) : NesState :=
  if addr ≤ 0x1FFF then
    { s with ram := s.ram.write addr data }
  else if addr ≤ 0x3FFF then
    let (ppu, pb) := s.ppu.cpuWrite s.ppuBus (addr - 0x2000) data
    { s.setPpuBus pb with ppu := ppu }
  else if addr ≤ 0x4013 then
    { s with apu := s.apu.write (addr - 0x4000) data }
  else if addr = 0x4014 then
    { s with dma := s.dma.write data }
  else if addr = 0x4015 then
    { s with apu := s.apu.writeControl data }
  else if addr = 0x4016 then
    { s with controller := s.controller.write data }
  else if addr = 0x4017 then
    { s with apu := s.apu.writeFrameCounter data }
  else if 0x4020 ≤ addr then
    { s with cart := s.cart.cpuWrite addr data }
  else
    s

/-- `CpuBus::write`: store the data in the last-bus-value latch, then route
the write.  The ghost `writeLog` records every write. -/
def busWrite (s : NesState) (addr data : Nat) : NesState :=
  let addr := addr % 65536
  let data := data % 256
  busWriteCore
    { s with
      last_bus_value := data
      writeLog := s.writeLog ++ [(addr, data)] }
    addr data

/-- `CpuBus::read_16`: little-endian 16-bit read with wrap-around address
increment. -/
def busRead16 (s : NesState) (addr : Nat) : Nat × NesState :=
  let (low, s) := busRead s addr
  let (high, s) := busRead s ((addr + 1) % 65536)
  (low % 256 + high % 256 * 256, s)

/-- A power-up system state over the test NROM cartridge, used for closed
evaluations (the CPU registers are at their documented power-up values with
`pc = 0`, since the test cartridge ROM is all zero). -/
def mkState : NesState :=
  { cpu := ⟨0, 0, 0, 0xFD, FLAG_I, 0, 0, false, false⟩
    ram := Ram.new 11
    ppu := Ppu.new
    apu := Apu.new
    dma := Dma.new
    controller := Controller.new
    cart := testCart
    vram := Vram.new
    palette := Ram.new 5
    last_bus_value := 0xFF
    even_cycle := false
    writeLog := []
    cpuClocks := 0
    dmaTransfers := 0
    audio := [] }

/-! ## Claim C5: open bus and the last-bus-value latch -/

/-- No arm of the write-routing match touches the last-bus-value latch. -/
lemma busWriteCore_latch (s : NesState) (addr data : Nat) :
    (busWriteCore s addr data).last_bus_value = s.last_bus_value := by
  unfold busWriteCore
  repeat' split
  all_goals rfl

/-- C5: CPU-bus reads of unmapped addresses (0x4000-0x4014 and
0x4018-0x401F fall through the routing match) return the current
last-bus-value latch, as do cartridge-space reads for which the cartridge
returns `none`; every read stores the returned value in the latch and every
write stores the written data in the latch. -/
theorem c5_open_bus_and_latch (s : NesState) (addr d : Nat)
    (h16 : addr < 65536) (hd : d < 256) :
    ((0x4000 ≤ addr ∧ addr ≤ 0x4014) ∨ (0x4018 ≤ addr ∧ addr ≤ 0x401F) →
      (busRead s addr).1 = s.last_bus_value) ∧
    (0x4020 ≤ addr → s.cart.cpuRead addr = none →
      (busRead s addr).1 = s.last_bus_value) ∧
    (busRead s addr).2.last_bus_value = (busRead s addr).1 ∧
    (busWrite s addr d).last_bus_value = d := by
  have hm : addr % 65536 = addr := Nat.mod_eq_of_lt h16
  have hdm : d % 256 = d := Nat.mod_eq_of_lt hd
  refine ⟨?_, ?_, ?_, ?_⟩
  · intro h
    unfold busRead busReadCore
    rw [hm]
    rw [if_neg (by omega), if_neg (by omega), if_neg (by omega),
      if_neg (by omega), if_neg (by omega), if_neg (by omega)]
  · intro h hnone
    unfold busRead busReadCore
    rw [hm]
    rw [if_neg (by omega), if_neg (by omega), if_neg (by omega),
      if_neg (by omega), if_neg (by omega), if_pos h, hnone]
    rfl
  · unfold busRead
    rcases h : busReadCore s (addr % 65536) with ⟨v, s1⟩
    rfl
  · unfold busWrite
    rw [hm, hdm]
    exact busWriteCore_latch _ _ _

/-- C5 witness: on the power-up state, a read of the unmapped address
0x4000 returns the latch (0xFF) and a write of 0xAB to it updates the
latch. -/
theorem c5_open_bus_witness :
    (busRead mkState 0x4000).1 = mkState.last_bus_value ∧
      (busWrite mkState 0x4000 0xAB).last_bus_value = 0xAB := by
  have h := c5_open_bus_and_latch mkState 0x4000 0xAB (by norm_num) (by norm_num)
  exact ⟨h.1 (Or.inl ⟨by norm_num, by norm_num⟩), h.2.2.2⟩

/-! ## Claim C9: the pulse-1 length counter load -/

/-- C9, counterexample.  A CPU-bus write of 0x08 to 0x4003 routes to the
pulse-1 channel register 3 and loads the length counter from the table at
index `(0x08 & 0xF8) >> 3 = 1`, which holds 254 — not 160 (160 sits at
index 8, i.e. a write of 0x40-0x47). -/
theorem c9_length_load_counterexample :
    (busWrite mkState 0x4003 0x08).apu.pulse_channel_1.envelope.length_counter.counter = 254 ∧
      (254 : Nat) ≠ 160 := by
  exact ⟨rfl, by norm_num⟩

/-- `LengthCounter::clock` keeps the halt flag and, with halt clear,
decrements a positive counter; `counter` many clocks therefore drain it. -/
lemma lengthCounter_drains : ∀ (n : Nat) (l : LengthCounter),
    l.halt = false → l.counter = n →
    (LengthCounter.clock^[n] l).counter = 0 := by
  intro n
  induction n with
  | zero => intro l _ hc; simpa using hc
  | succ n ih =>
    intro l hh hc
    rw [Function.iterate_succ_apply]
    have hstep : LengthCounter.clock l = ⟨false, n⟩ := by
      unfold LengthCounter.clock
      rw [if_pos ⟨by omega, hh⟩]
      obtain ⟨h0, c0⟩ := l
      dsimp only at hh hc
      subst hh
      simp [hc]
    rw [hstep]
    exact ih ⟨false, n⟩ rfl rfl

/-- C9, amended.  Writing 0x08 to 0x4003 loads the pulse-1 length counter
with 254 and a clear halt flag; with halt clear, a number of half-frame
length-counter clocks equal to the loaded value (here 254, not 160) brings
the counter to 0; and a zero pulse-1 length counter reads back as a clear
bit 0 of the 0x4015 status. -/
theorem c9_length_counter_amended :
    ((busWrite mkState 0x4003 0x08).apu.pulse_channel_1.envelope.length_counter =
      ⟨false, 254⟩) ∧
    (∀ (l : LengthCounter), l.halt = false →
      (LengthCounter.clock^[l.counter] l).counter = 0) ∧
    (∀ (a : Apu), a.pulse_channel_1.envelope.length_counter.counter = 0 →
      a.readStatus.1 % 2 = 0) := by
  refine ⟨rfl, ?_, ?_⟩
  · intro l hh
    exact lengthCounter_drains l.counter l hh rfl
  · intro a h
    simp only [Apu.readStatus, h]
    repeat' split
    all_goals omega

/-- C9 witness: the amended statement applied at the loaded counter value
(254 clocks drain the counter loaded by the 0x4003 write) and at the
power-up APU (whose status bit 0 is clear). -/
theorem c9_length_counter_witness :
    (LengthCounter.clock^[254]
        (busWrite mkState 0x4003 0x08).apu.pulse_channel_1.envelope.length_counter).counter = 0 ∧
      mkState.apu.readStatus.1 % 2 = 0 := by
  have h := c9_length_counter_amended
  constructor
  · have h2 := h.2.1 (busWrite mkState 0x4003 0x08).apu.pulse_channel_1.envelope.length_counter
      (by rw [h.1])
    rwa [show (busWrite mkState 0x4003 0x08).apu.pulse_channel_1.envelope.length_counter.counter
        = 254 from by rw [h.1]] at h2
  · exact h.2.2 mkState.apu rfl

/-! ## CPU stack helpers (src/cpu.rs) -/

/-- `Cpu::push`: write to `[STACK_HIGH_BYTE:S]`, then decrement `S` with
wrap. -/
def push (s : NesState) (data : Nat) : NesState :=
  let addr := STACK_HIGH_BYTE * 256 + s.cpu.s % 256
  let s := busWrite s addr data
  { s with cpu := { s.cpu with s := (s.cpu.s % 256 + 255) % 256 } }

/-- `Cpu::push_16`: high byte first, then low byte. -/
def push16 (s : NesState) (data : Nat) : NesState :=
  let low := data % 256
  let high := data / 256 % 256
  let s := push s high
  push s low

/-- `Cpu::pop`: increment `S` with wrap, then read `[STACK_HIGH_BYTE:S]`. -/
def pop (s : NesState) : Nat × NesState :=
  let sp := (s.cpu.s % 256 + 1) % 256
  let s := { s with cpu := { s.cpu with s := sp } }
  busRead s (STACK_HIGH_BYTE * 256 + sp)

/-- `Cpu::pop_16`: low byte first, then high byte. -/
def pop16 (s : NesState) : Nat × NesState :=
  let (low, s) := pop s
  let (high, s) := pop s
  (low % 256 + high % 256 * 256, s)

/-! ## Addressing modes (src/cpu/addressing_mode.rs)

Each Rust mode struct becomes a Lean structure and its trait methods
(`decode`, `produce_data`, `consume_data`, `produce_address`,
`consume_data_unstable`) become functions over `NesState`.  All
`produce_address` implementations in the source are pure field reads, so
`produceAddress` takes no state. -/

structure Implicit

/-- `Implicit::decode`: dummy read of the opcode's operand slot. -/
def Implicit.decode (s : NesState) : Implicit × Bool × NesState :=
  let (_, s) := busRead s s.cpu.pc
  (⟨⟩, false, s)

structure Accumulator

/-- `Accumulator::decode`: dummy read, no operand fetch. -/
def Accumulator.decode (s : NesState) : Accumulator × Bool × NesState :=
  let (_, s) := busRead s s.cpu.pc
  (⟨⟩, false, s)

def Accumulator.produceData (_m : Accumulator) (s : NesState) : Nat × NesState :=
  (s.cpu.a % 256, s)

def Accumulator.consumeData (_m : Accumulator) (s : NesState) (data : Nat) : NesState :=
  { s with cpu := { s.cpu with a := data % 256 } }

structure Immediate where
  value : Nat

/-- `Immediate::decode`: fetch the operand byte, advance the PC. -/
def Immediate.decode (s : NesState) : Immediate × Bool × NesState :=
  let (value, s) := busRead s s.cpu.pc
  let s := { s with cpu := { s.cpu with pc := (s.cpu.pc + 1) % 65536 } }
  (⟨value⟩, false, s)

def Immediate.produceData (m : Immediate) (s : NesState) : Nat × NesState :=
  (m.value % 256, s)

structure ZeroPage where
  zp_addr : Nat

/-- `ZeroPage::decode`: fetch the zero-page address byte. -/
def ZeroPage.decode (s : NesState) : ZeroPage × Bool × NesState :=
  let (zp_addr, s) := busRead s s.cpu.pc
  let s := { s with cpu := { s.cpu with pc := (s.cpu.pc + 1) % 65536 } }
  (⟨zp_addr⟩, false, s)

def ZeroPage.produceData (m : ZeroPage) (s : NesState) : Nat × NesState :=
  busRead s (m.zp_addr % 256)

def ZeroPage.consumeData (m : ZeroPage) (s : NesState) (data : Nat) : NesState :=
  busWrite s (m.zp_addr % 256) data

/-- `ZeroPage` as `ModifiesData` (`modify_data`): read the old value, write
the old value back (the dummy write), then write the new value.  This trait
method exists in the source but no instruction body calls it. -/
def ZeroPage.modifyData (m : ZeroPage) (s : NesState) (f : Nat → Nat) :
    Nat × Nat × NesState :=
  let (old_value, s) := busRead s (m.zp_addr % 256)
  let new_value := f old_value % 256
  let s := busWrite s (m.zp_addr % 256) old_value
  let s := busWrite s (m.zp_addr % 256) new_value
  (old_value, new_value, s)

structure ZeroPageOffsetX where
  base_addr : Nat
  zp_addr : Nat

/-- `ZeroPageOffsetX::decode`: zero-page base plus X, wrapping in the page. -/
def ZeroPageOffsetX.decode (s : NesState) : ZeroPageOffsetX × Bool × NesState :=
  let (base_addr, s) := busRead s s.cpu.pc
  let zp_addr := (base_addr % 256 + s.cpu.x % 256) % 256
  let s := { s with cpu := { s.cpu with pc := (s.cpu.pc + 1) % 65536 } }
  (⟨base_addr, zp_addr⟩, false, s)

def ZeroPageOffsetX.produceData (m : ZeroPageOffsetX) (s : NesState) :
    Nat × NesState :=
  let (_, s) := busRead s (m.base_addr % 256)
  busRead s (m.zp_addr % 256)

def ZeroPageOffsetX.consumeData (m : ZeroPageOffsetX) (s : NesState)
    (data : Nat) : NesState :=
  let (_, s) := busRead s (m.base_addr % 256)
  busWrite s (m.zp_addr % 256) data

structure ZeroPageOffsetY where
  base_addr : Nat
  zp_addr : Nat

/-- `ZeroPageOffsetY::decode`: zero-page base plus Y, wrapping in the page. -/
def ZeroPageOffsetY.decode (s : NesState) : ZeroPageOffsetY × Bool × NesState :=
  let (base_addr, s) := busRead s s.cpu.pc
  let zp_addr := (base_addr % 256 + s.cpu.y % 256) % 256
  let s := { s with cpu := { s.cpu with pc := (s.cpu.pc + 1) % 65536 } }
  (⟨base_addr, zp_addr⟩, false, s)

def ZeroPageOffsetY.produceData (m : ZeroPageOffsetY) (s : NesState) :
    Nat × NesState :=
  let (_, s) := busRead s (m.base_addr % 256)
  busRead s (m.zp_addr % 256)

def ZeroPageOffsetY.consumeData (m : ZeroPageOffsetY) (s : NesState)
    (data : Nat) : NesState :=
  let (_, s) := busRead s (m.base_addr % 256)
  busWrite s (m.zp_addr % 256) data

structure Relative where
  offset : Nat
  abs_addr : Nat

/-- `Relative::decode`: fetch the signed offset, advance and dummy-read the
PC, compute the absolute target `pc.wrapping_add_signed(offset)` (an offset
byte `>= 0x80` subtracts `256`), and report a page cross whenever the target
and the post-operand PC differ in their high byte.  The page-cross flag is
computed here unconditionally, before the branch condition is known. -/
def Relative.decode (s : NesState) : Relative × Bool × NesState :=
  let (offset, s) := busRead s s.cpu.pc
  let s := { s with cpu := { s.cpu with pc := (s.cpu.pc + 1) % 65536 } }
  let (_, s) := busRead s s.cpu.pc
  let base_addr := s.cpu.pc % 65536
  let abs_addr :=
    (base_addr + offset % 256 + (if 128 ≤ offset % 256 then 65536 - 256 else 0)) % 65536
  let page_crossed := decide (abs_addr / 256 ≠ base_addr / 256)
  (⟨offset % 256, abs_addr⟩, page_crossed, s)

def Relative.produceAddress (m : Relative) : Nat := m.abs_addr

structure Absolute where
  abs_addr : Nat

/-- `Absolute::decode`: 16-bit little-endian operand fetch. -/
def Absolute.decode (s : NesState) : Absolute × Bool × NesState :=
  let (abs_addr, s) := busRead16 s s.cpu.pc
  let s := { s with cpu := { s.cpu with pc := (s.cpu.pc + 2) % 65536 } }
  (⟨abs_addr⟩, false, s)

def Absolute.produceData (m : Absolute) (s : NesState) : Nat × NesState :=
  busRead s (m.abs_addr % 65536)

def Absolute.consumeData (m : Absolute) (s : NesState) (data : Nat) : NesState :=
  busWrite s (m.abs_addr % 65536) data

def Absolute.produceAddress (m : Absolute) : Nat := m.abs_addr

structure AbsoluteOffsetX where
  base_addr : Nat
  abs_addr : Nat
  page_crossed : Bool

/-- `AbsoluteOffsetX::decode`: absolute base plus X with 16-bit wrap; page
cross when the high bytes differ. -/
def AbsoluteOffsetX.decode (s : NesState) : AbsoluteOffsetX × Bool × NesState :=
  let (base_addr, s) := busRead16 s s.cpu.pc
  let abs_addr := (base_addr % 65536 + s.cpu.x % 256) % 65536
  let s := { s with cpu := { s.cpu with pc := (s.cpu.pc + 2) % 65536 } }
  let page_crossed := decide (abs_addr / 256 ≠ base_addr % 65536 / 256)
  (⟨base_addr, abs_addr, page_crossed⟩, page_crossed, s)

/-- `AbsoluteOffsetX::produce_data`: dummy read of the unfixed address only
on a page cross, then the real read. -/
def AbsoluteOffsetX.produceData (m : AbsoluteOffsetX) (s : NesState) :
    Nat × NesState :=
  let s :=
    if m.page_crossed then
      (busRead s (m.base_addr % 65536 / 256 * 256 + m.abs_addr % 256)).2
    else s
  busRead s (m.abs_addr % 65536)

/-- `AbsoluteOffsetX::consume_data`: unconditional dummy read of the unfixed
address, then the write. -/
def AbsoluteOffsetX.consumeData (m : AbsoluteOffsetX) (s : NesState)
    (data : Nat) : NesState :=
  let (_, s) := busRead s (m.base_addr % 65536 / 256 * 256 + m.abs_addr % 256)
  busWrite s (m.abs_addr % 65536) data

structure AbsoluteOffsetY where
  base_addr : Nat
  abs_addr : Nat
  page_crossed : Bool

/-- `AbsoluteOffsetY::decode`: absolute base plus Y with 16-bit wrap; page
cross when the high bytes differ. -/
def AbsoluteOffsetY.decode (s : NesState) : AbsoluteOffsetY × Bool × NesState :=
  let (base_addr, s) := busRead16 s s.cpu.pc
  let abs_addr := (base_addr % 65536 + s.cpu.y % 256) % 65536
  let s := { s with cpu := { s.cpu with pc := (s.cpu.pc + 2) % 65536 } }
  let page_crossed := decide (abs_addr / 256 ≠ base_addr % 65536 / 256)
  (⟨base_addr, abs_addr, page_crossed⟩, page_crossed, s)

def AbsoluteOffsetY.produceData (m : AbsoluteOffsetY) (s : NesState) :
    Nat × NesState :=
  let s :=
    if m.page_crossed then
      (busRead s (m.base_addr % 65536 / 256 * 256 + m.abs_addr % 256)).2
    else s
  busRead s (m.abs_addr % 65536)

def AbsoluteOffsetY.consumeData (m : AbsoluteOffsetY) (s : NesState)
    (data : Nat) : NesState :=
  let (_, s) := busRead s (m.base_addr % 65536 / 256 * 256 + m.abs_addr % 256)
  busWrite s (m.abs_addr % 65536) data

/-- `increment_no_carry`: increment only the low byte (the JMP-indirect
hardware bug). -/
def incrementNoCarry (addr : Nat) : Nat :=
  addr % 65536 / 256 * 256 + (addr % 256 + 1) % 256

structure Indirect where
  ind_addr : Nat
  addr : Nat

/-- `Indirect::decode`: fetch the pointer, then read the target address
through it with the no-carry page wrap on the high byte. -/
def Indirect.decode (s : NesState) : Indirect × Bool × NesState :=
  let (ind_addr, s) := busRead16 s s.cpu.pc
  let s := { s with cpu := { s.cpu with pc := (s.cpu.pc + 2) % 65536 } }
  let (low, s) := busRead s ind_addr
  let (high, s) := busRead s (incrementNoCarry ind_addr)
  (⟨ind_addr, low % 256 + high % 256 * 256⟩, false, s)

def Indirect.produceAddress (m : Indirect) : Nat := m.addr

structure OffsetXIndirect where
  zp_base_addr : Nat
  abs_addr : Nat

/-- `OffsetXIndirect::decode`: zero-page pointer at base+X (with in-page
wrap), read through it. -/
def OffsetXIndirect.decode (s : NesState) : OffsetXIndirect × Bool × NesState :=
  let (zp_base_addr, s) := busRead s s.cpu.pc
  let zp_ind_addr := (zp_base_addr % 256 + s.cpu.x % 256) % 256
  let s := { s with cpu := { s.cpu with pc := (s.cpu.pc + 1) % 65536 } }
  let (_, s) := busRead s (zp_base_addr % 256)
  let (low, s) := busRead s zp_ind_addr
  let (high, s) := busRead s ((zp_ind_addr + 1) % 256)
  (⟨zp_base_addr, low % 256 + high % 256 * 256⟩, false, s)

def OffsetXIndirect.produceData (m : OffsetXIndirect) (s : NesState) :
    Nat × NesState :=
  busRead s (m.abs_addr % 65536)

def OffsetXIndirect.consumeData (m : OffsetXIndirect) (s : NesState)
    (data : Nat) : NesState :=
  busWrite s (m.abs_addr % 65536) data

structure IndirectOffsetY where
  zp_base_addr : Nat
  base_addr : Nat
  abs_addr : Nat
  page_crossed : Bool

/-- `IndirectOffsetY::decode`: zero-page pointer, then add Y with 16-bit
wrap; page cross when the high bytes differ. -/
def IndirectOffsetY.decode (s : NesState) : IndirectOffsetY × Bool × NesState :=
  let (zp_base_addr, s) := busRead s s.cpu.pc
  let s := { s with cpu := { s.cpu with pc := (s.cpu.pc + 1) % 65536 } }
  let (low, s) := busRead s (zp_base_addr % 256)
  let (high, s) := busRead s ((zp_base_addr % 256 + 1) % 256)
  let base_addr := low % 256 + high % 256 * 256
  let abs_addr := (base_addr + s.cpu.y % 256) % 65536
  let page_crossed := decide (abs_addr / 256 ≠ base_addr / 256)
  (⟨zp_base_addr, base_addr, abs_addr, page_crossed⟩, page_crossed, s)

def IndirectOffsetY.produceData (m : IndirectOffsetY) (s : NesState) :
    Nat × NesState :=
  let s :=
    if m.page_crossed then
      (busRead s (m.base_addr % 65536 / 256 * 256 + m.abs_addr % 256)).2
    else s
  busRead s (m.abs_addr % 65536)

def IndirectOffsetY.consumeData (m : IndirectOffsetY) (s : NesState)
    (data : Nat) : NesState :=
  let (_, s) := busRead s (m.base_addr % 65536 / 256 * 256 + m.abs_addr % 256)
  busWrite s (m.abs_addr % 65536) data

structure AbsoluteOffsetXUnstable where
  base_addr : Nat
  abs_addr : Nat
  page_crossed : Bool

/-- `AbsoluteOffsetXUnstable::decode`: same as `AbsoluteOffsetX`. -/
def AbsoluteOffsetXUnstable.decode (s : NesState) :
    AbsoluteOffsetXUnstable × Bool × NesState :=
  let (base_addr, s) := busRead16 s s.cpu.pc
  let abs_addr := (base_addr % 65536 + s.cpu.x % 256) % 65536
  let s := { s with cpu := { s.cpu with pc := (s.cpu.pc + 2) % 65536 } }
  let page_crossed := decide (abs_addr / 256 ≠ base_addr % 65536 / 256)
  (⟨base_addr, abs_addr, page_crossed⟩, page_crossed, s)

/-- `AbsoluteOffsetXUnstable::consume_data_unstable`: the written data is
anded with high(base)+1; on a page cross the target address is corrupted by
the data byte. -/
def AbsoluteOffsetXUnstable.consumeDataUnstable (m : AbsoluteOffsetXUnstable)
    (s : NesState) (data : Nat) : NesState :=
  let actual_data := data % 256 &&& (m.base_addr % 65536 / 256 + 1) % 256
  let addr :=
    if m.page_crossed then m.abs_addr % 65536 &&& (actual_data * 256 + 0xFF)
    else m.abs_addr % 65536
  busWrite s addr actual_data

structure AbsoluteOffsetYUnstable where
  base_addr : Nat
  abs_addr : Nat
  page_crossed : Bool

/-- `AbsoluteOffsetYUnstable::decode`: same as `AbsoluteOffsetY`. -/
def AbsoluteOffsetYUnstable.decode (s : NesState) :
    AbsoluteOffsetYUnstable × Bool × NesState :=
  let (base_addr, s) := busRead16 s s.cpu.pc
  let abs_addr := (base_addr % 65536 + s.cpu.y % 256) % 65536
  let s := { s with cpu := { s.cpu with pc := (s.cpu.pc + 2) % 65536 } }
  let page_crossed := decide (abs_addr / 256 ≠ base_addr % 65536 / 256)
  (⟨base_addr, abs_addr, page_crossed⟩, page_crossed, s)

def AbsoluteOffsetYUnstable.consumeDataUnstable (m : AbsoluteOffsetYUnstable)
    (s : NesState) (data : Nat) : NesState :=
  let actual_data := data % 256 &&& (m.base_addr % 65536 / 256 + 1) % 256
  let addr :=
    if m.page_crossed then m.abs_addr % 65536 &&& (actual_data * 256 + 0xFF)
    else m.abs_addr % 65536
  busWrite s addr actual_data

structure IndirectOffsetYUnstable where
  zp_base_addr : Nat
  abs_addr : Nat
  magic_value : Nat
  page_crossed : Bool

/-- `IndirectOffsetYUnstable::decode`: like `IndirectOffsetY`, additionally
latching high(pointer)+1 as the magic value. -/
def IndirectOffsetYUnstable.decode (s : NesState) :
    IndirectOffsetYUnstable × Bool × NesState :=
  let (zp_base_addr, s) := busRead s s.cpu.pc
  let s := { s with cpu := { s.cpu with pc := (s.cpu.pc + 1) % 65536 } }
  let (low, s) := busRead s (zp_base_addr % 256)
  let (high, s) := busRead s ((zp_base_addr % 256 + 1) % 256)
  let base_addr := low % 256 + high % 256 * 256
  let abs_addr := (base_addr + s.cpu.y % 256) % 65536
  let page_crossed := decide (abs_addr / 256 ≠ base_addr / 256)
  (⟨zp_base_addr, abs_addr, (high % 256 + 1) % 256, page_crossed⟩, page_crossed, s)

def IndirectOffsetYUnstable.consumeDataUnstable (m : IndirectOffsetYUnstable)
    (s : NesState) (data : Nat) : NesState :=
  let actual_data := data % 256 &&& m.magic_value % 256
  let addr :=
    if m.page_crossed then m.abs_addr % 65536 &&& (actual_data * 256 + 0xFF)
    else m.abs_addr % 65536
  busWrite s addr actual_data

/-! ## Instructions (src/cpu/instruction.rs)

`pub fn execute<I: Instruction>` becomes `execInstr`, taking the mode's
`decode`, the instruction body and the `CYCLE_COUNT` /
`AFFECTED_BY_PAGE_CROSS` constants as arguments.  Each instruction body
becomes a `...Run` function taking the mode operations it is generic over. -/

/-- `execute<I>`: decode the mode, run the instruction, and return the cycle
count `CYCLE_COUNT + (page_crossed & AFFECTED_BY_PAGE_CROSS) +
branch_taken`. -/
def execInstr {M : Type} (decode : NesState → M × Bool × NesState)
    (run : M → NesState → Bool × NesState)
    (cycleCount : Nat) (affectedByPageCross : Bool) (s : NesState) :
    Nat × NesState :=
  let (m, page_crossed, s) := decode s
  let (branch_taken, s) := run m s
  (cycleCount + (if page_crossed && affectedByPageCross then 1 else 0) +
    (if branch_taken then 1 else 0), s)

/-- The Z and N updates shared by most instruction bodies
(`cpu.p.set(Z, r == 0); cpu.p.set(N, (r & 0x80) != 0)`). -/
def setZN (p result : Nat) : Nat :=
  let p := setFlag p FLAG_Z (decide (result % 256 = 0))
  setFlag p FLAG_N (decide (result % 256 / 128 % 2 = 1))

/-- `carry_add`: 8-bit add with carry in and carry out, as two overflowing
adds. -/
def carryAdd (lhs rhs : Nat) (cIn : Bool) : Nat × Bool :=
  let r1 := (lhs % 256 + rhs % 256) % 256
  let c1 := decide (256 ≤ lhs % 256 + rhs % 256)
  let r2 := (r1 + if cIn then 1 else 0) % 256
  let c2 := decide (256 ≤ r1 + if cIn then 1 else 0)
  (r2, c1 || c2)

/-- `execute_add`: the shared ADC/SBC/ISB/RRA body updating A and the
C/Z/V/N flags. -/
def executeAdd (s : NesState) (rhs : Nat) : NesState :=
  let lhs := s.cpu.a % 256
  let rhs := rhs % 256
  let cIn := decide (s.cpu.p % 2 = 1)
  let (result, cOut) := carryAdd lhs rhs cIn
  let lhsSign := lhs / 128 % 2
  let rhsSign := rhs / 128 % 2
  let resultSign := result / 128 % 2
  let p := setFlag s.cpu.p FLAG_C cOut
  let p := setFlag p FLAG_Z (decide (result = 0))
  let p := setFlag p FLAG_V (decide (lhsSign = rhsSign) && decide (lhsSign ≠ resultSign))
  let p := setFlag p FLAG_N (decide (resultSign ≠ 0))
  { s with cpu := { s.cpu with
      a := result
      p := p } }

/-- `Nop` over `Implicit` and `Immediate`: no effect. -/
def nopRun {M : Type} (_m : M) (s : NesState) : Bool × NesState := (false, s)

/-- `Nop` over memory modes: a dummy `produce_data`. -/
def nopMemRun {M : Type} (produce : M → NesState → Nat × NesState)
    (m : M) (s : NesState) : Bool × NesState :=
  let (_, s) := produce m s
  (false, s)

def adcRun {M : Type} (produce : M → NesState → Nat × NesState)
    (m : M) (s : NesState) : Bool × NesState :=
  let (rhs, s) := produce m s
  (false, executeAdd s rhs)

/-- `Sbc`: add the bitwise complement of the operand. -/
def sbcRun {M : Type} (produce : M → NesState → Nat × NesState)
    (m : M) (s : NesState) : Bool × NesState :=
  let (d, s) := produce m s
  (false, executeAdd s (255 - d % 256))

def andRun {M : Type} (produce : M → NesState → Nat × NesState)
    (m : M) (s : NesState) : Bool × NesState :=
  let (rhs, s) := produce m s
  let result := s.cpu.a % 256 &&& rhs % 256
  (false, { s with cpu := { s.cpu with
      a := result
      p := setZN s.cpu.p result } })

def eorRun {M : Type} (produce : M → NesState → Nat × NesState)
    (m : M) (s : NesState) : Bool × NesState :=
  let (rhs, s) := produce m s
  let result := s.cpu.a % 256 ^^^ rhs % 256
  (false, { s with cpu := { s.cpu with
      a := result
      p := setZN s.cpu.p result } })

def oraRun {M : Type} (produce : M → NesState → Nat × NesState)
    (m : M) (s : NesState) : Bool × NesState :=
  let (rhs, s) := produce m s
  let result := s.cpu.a % 256 ||| rhs % 256
  (false, { s with cpu := { s.cpu with
      a := result
      p := setZN s.cpu.p result } })

/-- `Asl`: shift left through `produce_data` / `consume_data` (a single bus
write of the shifted value). -/
def aslRun {M : Type} (produce : M → NesState → Nat × NesState)
    (consume : M → NesState → Nat → NesState)
    (m : M) (s : NesState) : Bool × NesState :=
  let (lhs, s) := produce m s
  let lhs := lhs % 256
  let result := lhs * 2 % 256
  let s := consume m s result
  let p := setFlag s.cpu.p FLAG_C (decide (lhs / 128 % 2 = 1))
  (false, { s with cpu := { s.cpu with p := setZN p result } })

def lsrRun {M : Type} (produce : M → NesState → Nat × NesState)
    (consume : M → NesState → Nat → NesState)
    (m : M) (s : NesState) : Bool × NesState :=
  let (lhs, s) := produce m s
  let lhs := lhs % 256
  let result := lhs / 2
  let s := consume m s result
  let p := setFlag s.cpu.p FLAG_C (decide (lhs % 2 = 1))
  (false, { s with cpu := { s.cpu with p := setZN p result } })

def rolRun {M : Type} (produce : M → NesState → Nat × NesState)
    (consume : M → NesState → Nat → NesState)
    (m : M) (s : NesState) : Bool × NesState :=
  let (lhs, s) := produce m s
  let lhs := lhs % 256
  let result := lhs * 2 % 256 + (if s.cpu.p % 2 = 1 then 1 else 0)
  let s := consume m s result
  let p := setFlag s.cpu.p FLAG_C (decide (lhs / 128 % 2 = 1))
  (false, { s with cpu := { s.cpu with p := setZN p result } })

def rorRun {M : Type} (produce : M → NesState → Nat × NesState)
    (consume : M → NesState → Nat → NesState)
    (m : M) (s : NesState) : Bool × NesState :=
  let (lhs, s) := produce m s
  let lhs := lhs % 256
  let result := lhs / 2 + (if s.cpu.p % 2 = 1 then 128 else 0)
  let s := consume m s result
  let p := setFlag s.cpu.p FLAG_C (decide (lhs % 2 = 1))
  (false, { s with cpu := { s.cpu with p := setZN p result } })

/-- `Bcs`: branch when C is set; the condition is the returned
branch-taken flag. -/
def bcsRun (m : Relative) (s : NesState) : Bool × NesState :=
  let condition := decide (s.cpu.p / FLAG_C % 2 = 1)
  if condition then
    (condition, { s with cpu := { s.cpu with pc := m.produceAddress % 65536 } })
  else (condition, s)

def bccRun (m : Relative) (s : NesState) : Bool × NesState :=
  let condition := !decide (s.cpu.p / FLAG_C % 2 = 1)
  if condition then
    (condition, { s with cpu := { s.cpu with pc := m.produceAddress % 65536 } })
  else (condition, s)

def beqRun (m : Relative) (s : NesState) : Bool × NesState :=
  let condition := decide (s.cpu.p / FLAG_Z % 2 = 1)
  if condition then
    (condition, { s with cpu := { s.cpu with pc := m.produceAddress % 65536 } })
  else (condition, s)

def bneRun (m : Relative) (s : NesState) : Bool × NesState :=
  let condition := !decide (s.cpu.p / FLAG_Z % 2 = 1)
  if condition then
    (condition, { s with cpu := { s.cpu with pc := m.produceAddress % 65536 } })
  else (condition, s)

def bmiRun (m : Relative) (s : NesState) : Bool × NesState :=
  let condition := decide (s.cpu.p / FLAG_N % 2 = 1)
  if condition then
    (condition, { s with cpu := { s.cpu with pc := m.produceAddress % 65536 } })
  else (condition, s)

def bplRun (m : Relative) (s : NesState) : Bool × NesState :=
  let condition := !decide (s.cpu.p / FLAG_N % 2 = 1)
  if condition then
    (condition, { s with cpu := { s.cpu with pc := m.produceAddress % 65536 } })
  else (condition, s)

def bvsRun (m : Relative) (s : NesState) : Bool × NesState :=
  let condition := decide (s.cpu.p / FLAG_V % 2 = 1)
  if condition then
    (condition, { s with cpu := { s.cpu with pc := m.produceAddress % 65536 } })
  else (condition, s)

def bvcRun (m : Relative) (s : NesState) : Bool × NesState :=
  let condition := !decide (s.cpu.p / FLAG_V % 2 = 1)
  if condition then
    (condition, { s with cpu := { s.cpu with pc := m.produceAddress % 65536 } })
  else (condition, s)

def bitRun {M : Type} (produce : M → NesState → Nat × NesState)
    (m : M) (s : NesState) : Bool × NesState :=
  let (value, s) := produce m s
  let value := value % 256
  let p := setFlag s.cpu.p FLAG_Z (decide (s.cpu.a % 256 &&& value = 0))
  let p := setFlag p FLAG_V (decide (value / 64 % 2 = 1))
  let p := setFlag p FLAG_N (decide (value / 128 % 2 = 1))
  (false, { s with cpu := { s.cpu with p := p } })

/-- `Brk`: push PC+1 and P (with U and B set), set I, jump through the IRQ
vector.  The Rust `p.bits() | U_FLAG | B_FLAG` sets the contiguous bits 4-5,
written arithmetically as clear-then-add. -/
def brkRun (_m : Implicit) (s : NesState) : Bool × NesState :=
  let s := push16 s ((s.cpu.pc + 1) % 65536)
  let pb := s.cpu.p % 256
  let s := push s (pb - pb / 16 % 4 * 16 + 0x30)
  let s := { s with cpu := { s.cpu with p := setFlag s.cpu.p FLAG_I true } }
  let (pc, s) := busRead16 s IRQ_VECTOR
  (false, { s with cpu := { s.cpu with pc := pc } })

def clcRun (_m : Implicit) (s : NesState) : Bool × NesState :=
  (false, { s with cpu := { s.cpu with p := setFlag s.cpu.p FLAG_C false } })

def cldRun (_m : Implicit) (s : NesState) : Bool × NesState :=
  (false, { s with cpu := { s.cpu with p := setFlag s.cpu.p FLAG_D false } })

def cliRun (_m : Implicit) (s : NesState) : Bool × NesState :=
  (false, { s with cpu := { s.cpu with p := setFlag s.cpu.p FLAG_I false } })

def clvRun (_m : Implicit) (s : NesState) : Bool × NesState :=
  (false, { s with cpu := { s.cpu with p := setFlag s.cpu.p FLAG_V false } })

def secRun (_m : Implicit) (s : NesState) : Bool × NesState :=
  (false, { s with cpu := { s.cpu with p := setFlag s.cpu.p FLAG_C true } })

def sedRun (_m : Implicit) (s : NesState) : Bool × NesState :=
  (false, { s with cpu := { s.cpu with p := setFlag s.cpu.p FLAG_D true } })

def seiRun (_m : Implicit) (s : NesState) : Bool × NesState :=
  (false, { s with cpu := { s.cpu with p := setFlag s.cpu.p FLAG_I true } })

/-- The shared compare body (`Cmp`/`Cpx`/`Cpy` on the given register):
8-bit wrapping subtract, C = no borrow, then Z/N of the difference. -/
def compareWith {M : Type} (produce : M → NesState → Nat × NesState)
    (reg : Cpu → Nat) (m : M) (s : NesState) : Bool × NesState :=
  let (rhs, s) := produce m s
  let lhs := reg s.cpu % 256
  let rhs := rhs % 256
  let result := (lhs + 256 - rhs) % 256
  let p := setFlag s.cpu.p FLAG_C (decide (rhs ≤ lhs))
  (false, { s with cpu := { s.cpu with p := setZN p result } })

def cmpRun {M : Type} (produce : M → NesState → Nat × NesState)
    (m : M) (s : NesState) : Bool × NesState :=
  compareWith produce (fun c => c.a) m s

def cpxRun {M : Type} (produce : M → NesState → Nat × NesState)
    (m : M) (s : NesState) : Bool × NesState :=
  compareWith produce (fun c => c.x) m s

def cpyRun {M : Type} (produce : M → NesState → Nat × NesState)
    (m : M) (s : NesState) : Bool × NesState :=
  compareWith produce (fun c => c.y) m s

def incRun {M : Type} (produce : M → NesState → Nat × NesState)
    (consume : M → NesState → Nat → NesState)
    (m : M) (s : NesState) : Bool × NesState :=
  let (d, s) := produce m s
  let result := (d % 256 + 1) % 256
  let s := consume m s result
  (false, { s with cpu := { s.cpu with p := setZN s.cpu.p result } })

def decRun {M : Type} (produce : M → NesState → Nat × NesState)
    (consume : M → NesState → Nat → NesState)
    (m : M) (s : NesState) : Bool × NesState :=
  let (d, s) := produce m s
  let result := (d % 256 + 255) % 256
  let s := consume m s result
  (false, { s with cpu := { s.cpu with p := setZN s.cpu.p result } })

def inxRun (_m : Implicit) (s : NesState) : Bool × NesState :=
  let x := (s.cpu.x % 256 + 1) % 256
  (false, { s with cpu := { s.cpu with
      x := x
      p := setZN s.cpu.p x } })

def inyRun (_m : Implicit) (s : NesState) : Bool × NesState :=
  let y := (s.cpu.y % 256 + 1) % 256
  (false, { s with cpu := { s.cpu with
      y := y
      p := setZN s.cpu.p y } })

def dexRun (_m : Implicit) (s : NesState) : Bool × NesState :=
  let x := (s.cpu.x % 256 + 255) % 256
  (false, { s with cpu := { s.cpu with
      x := x
      p := setZN s.cpu.p x } })

def deyRun (_m : Implicit) (s : NesState) : Bool × NesState :=
  let y := (s.cpu.y % 256 + 255) % 256
  (false, { s with cpu := { s.cpu with
      y := y
      p := setZN s.cpu.p y } })

def jmpRun {M : Type} (produceAddr : M → Nat) (m : M) (s : NesState) :
    Bool × NesState :=
  (false, { s with cpu := { s.cpu with pc := produceAddr m % 65536 } })

def jsrRun {M : Type} (produceAddr : M → Nat) (m : M) (s : NesState) :
    Bool × NesState :=
  let s := push16 s ((s.cpu.pc + 65535) % 65536)
  (false, { s with cpu := { s.cpu with pc := produceAddr m % 65536 } })

def rtsRun (_m : Implicit) (s : NesState) : Bool × NesState :=
  let (pc, s) := pop16 s
  (false, { s with cpu := { s.cpu with pc := (pc + 1) % 65536 } })

def rtiRun (_m : Implicit) (s : NesState) : Bool × NesState :=
  let (pb, s) := pop s
  let s := { s with cpu := { s.cpu with p := fromBitsTruncate pb } }
  let (pc, s) := pop16 s
  (false, { s with cpu := { s.cpu with pc := pc } })

def ldaRun {M : Type} (produce : M → NesState → Nat × NesState)
    (m : M) (s : NesState) : Bool × NesState :=
  let (d, s) := produce m s
  (false, { s with cpu := { s.cpu with
      a := d % 256
      p := setZN s.cpu.p (d % 256) } })

def ldxRun {M : Type} (produce : M → NesState → Nat × NesState)
    (m : M) (s : NesState) : Bool × NesState :=
  let (d, s) := produce m s
  (false, { s with cpu := { s.cpu with
      x := d % 256
      p := setZN s.cpu.p (d % 256) } })

def ldyRun {M : Type} (produce : M → NesState → Nat × NesState)
    (m : M) (s : NesState) : Bool × NesState :=
  let (d, s) := produce m s
  (false, { s with cpu := { s.cpu with
      y := d % 256
      p := setZN s.cpu.p (d % 256) } })

def staRun {M : Type} (consume : M → NesState → Nat → NesState)
    (m : M) (s : NesState) : Bool × NesState :=
  (false, consume m s (s.cpu.a % 256))

def stxRun {M : Type} (consume : M → NesState → Nat → NesState)
    (m : M) (s : NesState) : Bool × NesState :=
  (false, consume m s (s.cpu.x % 256))

def styRun {M : Type} (consume : M → NesState → Nat → NesState)
    (m : M) (s : NesState) : Bool × NesState :=
  (false, consume m s (s.cpu.y % 256))

def phaRun (_m : Implicit) (s : NesState) : Bool × NesState :=
  (false, push s (s.cpu.a % 256))

/-- `Php`: push P with the U and B bits set (clear-then-add of the
contiguous bits 4-5). -/
def phpRun (_m : Implicit) (s : NesState) : Bool × NesState :=
  let pb := s.cpu.p % 256
  (false, push s (pb - pb / 16 % 4 * 16 + 0x30))

def plaRun (_m : Implicit) (s : NesState) : Bool × NesState :=
  let (a, s) := pop s
  (false, { s with cpu := { s.cpu with
      a := a % 256
      p := setZN s.cpu.p (a % 256) } })

def plpRun (_m : Implicit) (s : NesState) : Bool × NesState :=
  let (pb, s) := pop s
  (false, { s with cpu := { s.cpu with p := fromBitsTruncate pb } })

def taxRun (_m : Implicit) (s : NesState) : Bool × NesState :=
  (false, { s with cpu := { s.cpu with
      x := s.cpu.a % 256
      p := setZN s.cpu.p (s.cpu.a % 256) } })

def tayRun (_m : Implicit) (s : NesState) : Bool × NesState :=
  (false, { s with cpu := { s.cpu with
      y := s.cpu.a % 256
      p := setZN s.cpu.p (s.cpu.a % 256) } })

def txaRun (_m : Implicit) (s : NesState) : Bool × NesState :=
  (false, { s with cpu := { s.cpu with
      a := s.cpu.x % 256
      p := setZN s.cpu.p (s.cpu.x % 256) } })

def tyaRun (_m : Implicit) (s : NesState) : Bool × NesState :=
  (false, { s with cpu := { s.cpu with
      a := s.cpu.y % 256
      p := setZN s.cpu.p (s.cpu.y % 256) } })

def tsxRun (_m : Implicit) (s : NesState) : Bool × NesState :=
  (false, { s with cpu := { s.cpu with
      x := s.cpu.s % 256
      p := setZN s.cpu.p (s.cpu.s % 256) } })

def txsRun (_m : Implicit) (s : NesState) : Bool × NesState :=
  (false, { s with cpu := { s.cpu with s := s.cpu.x % 256 } })

def dcpRun {M : Type} (produce : M → NesState → Nat × NesState)
    (consume : M → NesState → Nat → NesState)
    (m : M) (s : NesState) : Bool × NesState :=
  let (d, s) := produce m s
  let value := (d % 256 + 255) % 256
  let p := setFlag s.cpu.p FLAG_C (decide (value ≤ s.cpu.a % 256))
  let s := consume m { s with cpu := { s.cpu with p := p } } value
  let tmp := (s.cpu.a % 256 + 256 - value) % 256
  (false, { s with cpu := { s.cpu with p := setZN s.cpu.p tmp } })

def isbRun {M : Type} (produce : M → NesState → Nat × NesState)
    (consume : M → NesState → Nat → NesState)
    (m : M) (s : NesState) : Bool × NesState :=
  let (d, s) := produce m s
  let value := (d % 256 + 1) % 256
  let s := consume m s value
  (false, executeAdd s (255 - value))

def laxRun {M : Type} (produce : M → NesState → Nat × NesState)
    (m : M) (s : NesState) : Bool × NesState :=
  let (d, s) := produce m s
  (false, { s with cpu := { s.cpu with
      a := d % 256
      x := d % 256
      p := setZN s.cpu.p (d % 256) } })

def rlaRun {M : Type} (produce : M → NesState → Nat × NesState)
    (consume : M → NesState → Nat → NesState)
    (m : M) (s : NesState) : Bool × NesState :=
  let (value, s) := produce m s
  let value := value % 256
  let new_value := value * 2 % 256 + (if s.cpu.p % 2 = 1 then 1 else 0)
  let p := setFlag s.cpu.p FLAG_C (decide (value / 128 % 2 = 1))
  let s := consume m { s with cpu := { s.cpu with p := p } } new_value
  let a := s.cpu.a % 256 &&& new_value
  (false, { s with cpu := { s.cpu with
      a := a
      p := setZN s.cpu.p a } })

def rraRun {M : Type} (produce : M → NesState → Nat × NesState)
    (consume : M → NesState → Nat → NesState)
    (m : M) (s : NesState) : Bool × NesState :=
  let (value, s) := produce m s
  let value := value % 256
  let new_value := value / 2 + (if s.cpu.p % 2 = 1 then 128 else 0)
  let p := setFlag s.cpu.p FLAG_C (decide (value % 2 = 1))
  let s := consume m { s with cpu := { s.cpu with p := p } } new_value
  (false, executeAdd s new_value)

def saxRun {M : Type} (consume : M → NesState → Nat → NesState)
    (m : M) (s : NesState) : Bool × NesState :=
  (false, consume m s (s.cpu.a % 256 &&& s.cpu.x % 256))

def sloRun {M : Type} (produce : M → NesState → Nat × NesState)
    (consume : M → NesState → Nat → NesState)
    (m : M) (s : NesState) : Bool × NesState :=
  let (value, s) := produce m s
  let value := value % 256
  let p := setFlag s.cpu.p FLAG_C (decide (value / 128 % 2 = 1))
  let tmp := value * 2 % 256
  let s := consume m { s with cpu := { s.cpu with p := p } } tmp
  let a := s.cpu.a % 256 ||| tmp
  (false, { s with cpu := { s.cpu with
      a := a
      p := setZN s.cpu.p a } })

def sreRun {M : Type} (produce : M → NesState → Nat × NesState)
    (consume : M → NesState → Nat → NesState)
    (m : M) (s : NesState) : Bool × NesState :=
  let (value, s) := produce m s
  let value := value % 256
  let p := setFlag s.cpu.p FLAG_C (decide (value % 2 = 1))
  let tmp := value / 2
  let s := consume m { s with cpu := { s.cpu with p := p } } tmp
  let a := s.cpu.a % 256 ^^^ tmp
  (false, { s with cpu := { s.cpu with
      a := a
      p := setZN s.cpu.p a } })

def ancRun (m : Immediate) (s : NesState) : Bool × NesState :=
  let (rhs, s) := Immediate.produceData m s
  let lhs := s.cpu.a % 256
  let result := lhs &&& rhs % 256
  let p := setFlag s.cpu.p FLAG_C (decide (lhs / 128 % 2 = 1))
  (false, { s with cpu := { s.cpu with
      a := result
      p := setZN p result } })

def alrRun (m : Immediate) (s : NesState) : Bool × NesState :=
  let (rhs, s) := Immediate.produceData m s
  let and_result := s.cpu.a % 256 &&& rhs % 256
  let result := and_result / 2
  let p := setFlag s.cpu.p FLAG_C (decide (and_result % 2 = 1))
  (false, { s with cpu := { s.cpu with
      a := result
      p := setZN p result } })

def arrRun (m : Immediate) (s : NesState) : Bool × NesState :=
  let (rhs, s) := Immediate.produceData m s
  let and_result := s.cpu.a % 256 &&& rhs % 256
  let result := and_result / 2 + (if s.cpu.p % 2 = 1 then 128 else 0)
  let p := setFlag s.cpu.p FLAG_C (decide (and_result % 2 = 1))
  (false, { s with cpu := { s.cpu with
      a := result
      p := setZN p result } })

def aneRun (m : Immediate) (s : NesState) : Bool × NesState :=
  let (rhs, s) := Immediate.produceData m s
  let result := s.cpu.a % 256 &&& s.cpu.x % 256 &&& rhs % 256
  (false, { s with cpu := { s.cpu with
      a := result
      p := setZN s.cpu.p result } })

def shaRun {M : Type} (consumeU : M → NesState → Nat → NesState)
    (m : M) (s : NesState) : Bool × NesState :=
  (false, consumeU m s (s.cpu.a % 256 &&& s.cpu.x % 256))

def shxRun {M : Type} (consumeU : M → NesState → Nat → NesState)
    (m : M) (s : NesState) : Bool × NesState :=
  (false, consumeU m s (s.cpu.x % 256))

def shyRun {M : Type} (consumeU : M → NesState → Nat → NesState)
    (m : M) (s : NesState) : Bool × NesState :=
  (false, consumeU m s (s.cpu.y % 256))

def tasRun {M : Type} (consumeU : M → NesState → Nat → NesState)
    (m : M) (s : NesState) : Bool × NesState :=
  let s := consumeU m s (s.cpu.a % 256 &&& s.cpu.x % 256)
  (false, { s with cpu := { s.cpu with s := s.cpu.a % 256 &&& s.cpu.x % 256 } })

/-- `Lxa`: load A and X with A & operand (no flag updates in the source). -/
def lxaRun (m : Immediate) (s : NesState) : Bool × NesState :=
  let (rhs, s) := Immediate.produceData m s
  let result := s.cpu.a % 256 &&& rhs % 256
  (false, { s with cpu := { s.cpu with
      a := result
      x := result } })

/-- `Las`: A, X and S all get operand & S; the body returns `true` (the
source's quirk: LAS reports a taken branch, adding one cycle). -/
def lasRun {M : Type} (produce : M → NesState → Nat × NesState)
    (m : M) (s : NesState) : Bool × NesState :=
  let (lhs, s) := produce m s
  let result := lhs % 256 &&& s.cpu.s % 256
  (true, { s with cpu := { s.cpu with
      a := result
      x := result
      s := result
      p := setZN s.cpu.p result } })

def sbxRun (m : Immediate) (s : NesState) : Bool × NesState :=
  let (rhs, s) := Immediate.produceData m s
  let lhs := s.cpu.a % 256 &&& s.cpu.x % 256
  let rhs := rhs % 256
  let result := (lhs + 256 - rhs) % 256
  let p := setFlag s.cpu.p FLAG_C (decide (rhs ≤ lhs))
  (false, { s with cpu := { s.cpu with
      x := result
      p := setZN p result } })

/-! ## Opcode dispatch and `Cpu::clock` (src/cpu.rs)

The `match_instr!` table becomes a match on the opcode byte; the arms for
unlisted opcodes (the Rust `panic!` default) return `none`. -/

set_option maxHeartbeats 3200000 in
/-- The 256-entry opcode dispatch of `Cpu::clock`, returning the cycle
count and the new state, or `none` for an illegal opcode. -/
def execOpcode (opcode : Nat) (s : NesState) : Option (Nat × NesState) :=
  match opcode with
  | 0x00 => some (execInstr Implicit.decode brkRun 7 false s)
  | 0x01 => some (execInstr OffsetXIndirect.decode (oraRun OffsetXIndirect.produceData) 6 false s)
  | 0x03 => some (execInstr OffsetXIndirect.decode (sloRun OffsetXIndirect.produceData OffsetXIndirect.consumeData) 8 false s)
  | 0x04 => some (execInstr ZeroPage.decode (nopMemRun ZeroPage.produceData) 3 false s)
  | 0x05 => some (execInstr ZeroPage.decode (oraRun ZeroPage.produceData) 3 false s)
  | 0x06 => some (execInstr ZeroPage.decode (aslRun ZeroPage.produceData ZeroPage.consumeData) 5 false s)
  | 0x07 => some (execInstr ZeroPage.decode (sloRun ZeroPage.produceData ZeroPage.consumeData) 5 false s)
  | 0x08 => some (execInstr Implicit.decode phpRun 3 false s)
  | 0x09 => some (execInstr Immediate.decode (oraRun Immediate.produceData) 2 false s)
  | 0x0A => some (execInstr Accumulator.decode (aslRun Accumulator.produceData Accumulator.consumeData) 2 false s)
  | 0x0B => some (execInstr Immediate.decode ancRun 2 false s)
  | 0x0C => some (execInstr Absolute.decode (nopMemRun Absolute.produceData) 4 false s)
  | 0x0D => some (execInstr Absolute.decode (oraRun Absolute.produceData) 4 false s)
  | 0x0E => some (execInstr Absolute.decode (aslRun Absolute.produceData Absolute.consumeData) 6 false s)
  | 0x0F => some (execInstr Absolute.decode (sloRun Absolute.produceData Absolute.consumeData) 6 false s)
  | 0x10 => some (execInstr Relative.decode bplRun 2 true s)
  | 0x11 => some (execInstr IndirectOffsetY.decode (oraRun IndirectOffsetY.produceData) 5 true s)
  | 0x13 => some (execInstr IndirectOffsetY.decode (sloRun IndirectOffsetY.produceData IndirectOffsetY.consumeData) 8 false s)
  | 0x14 => some (execInstr ZeroPageOffsetX.decode (nopMemRun ZeroPageOffsetX.produceData) 4 false s)
  | 0x15 => some (execInstr ZeroPageOffsetX.decode (oraRun ZeroPageOffsetX.produceData) 4 false s)
  | 0x16 => some (execInstr ZeroPageOffsetX.decode (aslRun ZeroPageOffsetX.produceData ZeroPageOffsetX.consumeData) 6 false s)
  | 0x17 => some (execInstr ZeroPageOffsetX.decode (sloRun ZeroPageOffsetX.produceData ZeroPageOffsetX.consumeData) 6 false s)
  | 0x18 => some (execInstr Implicit.decode clcRun 2 false s)
  | 0x19 => some (execInstr AbsoluteOffsetY.decode (oraRun AbsoluteOffsetY.produceData) 4 true s)
  | 0x1A => some (execInstr Implicit.decode nopRun 2 false s)
  | 0x1B => some (execInstr AbsoluteOffsetY.decode (sloRun AbsoluteOffsetY.produceData AbsoluteOffsetY.consumeData) 7 false s)
  | 0x1C => some (execInstr AbsoluteOffsetX.decode (nopMemRun AbsoluteOffsetX.produceData) 4 true s)
  | 0x1D => some (execInstr AbsoluteOffsetX.decode (oraRun AbsoluteOffsetX.produceData) 4 true s)
  | 0x1E => some (execInstr AbsoluteOffsetX.decode (aslRun AbsoluteOffsetX.produceData AbsoluteOffsetX.consumeData) 7 false s)
  | 0x1F => some (execInstr AbsoluteOffsetX.decode (sloRun AbsoluteOffsetX.produceData AbsoluteOffsetX.consumeData) 7 false s)
  | 0x20 => some (execInstr Absolute.decode (jsrRun Absolute.produceAddress) 6 false s)
  | 0x21 => some (execInstr OffsetXIndirect.decode (andRun OffsetXIndirect.produceData) 6 false s)
  | 0x23 => some (execInstr OffsetXIndirect.decode (rlaRun OffsetXIndirect.produceData OffsetXIndirect.consumeData) 8 false s)
  | 0x24 => some (execInstr ZeroPage.decode (bitRun ZeroPage.produceData) 3 false s)
  | 0x25 => some (execInstr ZeroPage.decode (andRun ZeroPage.produceData) 3 false s)
  | 0x26 => some (execInstr ZeroPage.decode (rolRun ZeroPage.produceData ZeroPage.consumeData) 5 false s)
  | 0x27 => some (execInstr ZeroPage.decode (rlaRun ZeroPage.produceData ZeroPage.consumeData) 5 false s)
  | 0x28 => some (execInstr Implicit.decode plpRun 4 false s)
  | 0x29 => some (execInstr Immediate.decode (andRun Immediate.produceData) 2 false s)
  | 0x2A => some (execInstr Accumulator.decode (rolRun Accumulator.produceData Accumulator.consumeData) 2 false s)
  | 0x2B => some (execInstr Immediate.decode ancRun 2 false s)
  | 0x2C => some (execInstr Absolute.decode (bitRun Absolute.produceData) 4 false s)
  | 0x2D => some (execInstr Absolute.decode (andRun Absolute.produceData) 4 false s)
  | 0x2E => some (execInstr Absolute.decode (rolRun Absolute.produceData Absolute.consumeData) 6 false s)
  | 0x2F => some (execInstr Absolute.decode (rlaRun Absolute.produceData Absolute.consumeData) 6 false s)
  | 0x30 => some (execInstr Relative.decode bmiRun 2 true s)
  | 0x31 => some (execInstr IndirectOffsetY.decode (andRun IndirectOffsetY.produceData) 5 true s)
  | 0x33 => some (execInstr IndirectOffsetY.decode (rlaRun IndirectOffsetY.produceData IndirectOffsetY.consumeData) 8 false s)
  | 0x34 => some (execInstr ZeroPageOffsetX.decode (nopMemRun ZeroPageOffsetX.produceData) 4 false s)
  | 0x35 => some (execInstr ZeroPageOffsetX.decode (andRun ZeroPageOffsetX.produceData) 4 false s)
  | 0x36 => some (execInstr ZeroPageOffsetX.decode (rolRun ZeroPageOffsetX.produceData ZeroPageOffsetX.consumeData) 6 false s)
  | 0x37 => some (execInstr ZeroPageOffsetX.decode (rlaRun ZeroPageOffsetX.produceData ZeroPageOffsetX.consumeData) 6 false s)
  | 0x38 => some (execInstr Implicit.decode secRun 2 false s)
  | 0x39 => some (execInstr AbsoluteOffsetY.decode (andRun AbsoluteOffsetY.produceData) 4 true s)
  | 0x3A => some (execInstr Implicit.decode nopRun 2 false s)
  | 0x3B => some (execInstr AbsoluteOffsetY.decode (rlaRun AbsoluteOffsetY.produceData AbsoluteOffsetY.consumeData) 7 false s)
  | 0x3C => some (execInstr AbsoluteOffsetX.decode (nopMemRun AbsoluteOffsetX.produceData) 4 true s)
  | 0x3D => some (execInstr AbsoluteOffsetX.decode (andRun AbsoluteOffsetX.produceData) 4 true s)
  | 0x3E => some (execInstr AbsoluteOffsetX.decode (rolRun AbsoluteOffsetX.produceData AbsoluteOffsetX.consumeData) 7 false s)
  | 0x3F => some (execInstr AbsoluteOffsetX.decode (rlaRun AbsoluteOffsetX.produceData AbsoluteOffsetX.consumeData) 7 false s)
  | 0x40 => some (execInstr Implicit.decode rtiRun 6 false s)
  | 0x41 => some (execInstr OffsetXIndirect.decode (eorRun OffsetXIndirect.produceData) 6 false s)
  | 0x43 => some (execInstr OffsetXIndirect.decode (sreRun OffsetXIndirect.produceData OffsetXIndirect.consumeData) 8 false s)
  | 0x44 => some (execInstr ZeroPage.decode (nopMemRun ZeroPage.produceData) 3 false s)
  | 0x45 => some (execInstr ZeroPage.decode (eorRun ZeroPage.produceData) 3 false s)
  | 0x46 => some (execInstr ZeroPage.decode (lsrRun ZeroPage.produceData ZeroPage.consumeData) 5 false s)
  | 0x47 => some (execInstr ZeroPage.decode (sreRun ZeroPage.produceData ZeroPage.consumeData) 5 false s)
  | 0x48 => some (execInstr Implicit.decode phaRun 3 false s)
  | 0x49 => some (execInstr Immediate.decode (eorRun Immediate.produceData) 2 false s)
  | 0x4A => some (execInstr Accumulator.decode (lsrRun Accumulator.produceData Accumulator.consumeData) 2 false s)
  | 0x4B => some (execInstr Immediate.decode alrRun 2 false s)
  | 0x4C => some (execInstr Absolute.decode (jmpRun Absolute.produceAddress) 3 false s)
  | 0x4D => some (execInstr Absolute.decode (eorRun Absolute.produceData) 4 false s)
  | 0x4E => some (execInstr Absolute.decode (lsrRun Absolute.produceData Absolute.consumeData) 6 false s)
  | 0x4F => some (execInstr Absolute.decode (sreRun Absolute.produceData Absolute.consumeData) 6 false s)
  | 0x50 => some (execInstr Relative.decode bvcRun 2 true s)
  | 0x51 => some (execInstr IndirectOffsetY.decode (eorRun IndirectOffsetY.produceData) 5 true s)
  | 0x53 => some (execInstr IndirectOffsetY.decode (sreRun IndirectOffsetY.produceData IndirectOffsetY.consumeData) 8 false s)
  | 0x54 => some (execInstr ZeroPageOffsetX.decode (nopMemRun ZeroPageOffsetX.produceData) 4 false s)
  | 0x55 => some (execInstr ZeroPageOffsetX.decode (eorRun ZeroPageOffsetX.produceData) 4 false s)
  | 0x56 => some (execInstr ZeroPageOffsetX.decode (lsrRun ZeroPageOffsetX.produceData ZeroPageOffsetX.consumeData) 6 false s)
  | 0x57 => some (execInstr ZeroPageOffsetX.decode (sreRun ZeroPageOffsetX.produceData ZeroPageOffsetX.consumeData) 6 false s)
  | 0x58 => some (execInstr Implicit.decode cliRun 2 false s)
  | 0x59 => some (execInstr AbsoluteOffsetY.decode (eorRun AbsoluteOffsetY.produceData) 4 true s)
  | 0x5A => some (execInstr Implicit.decode nopRun 2 false s)
  | 0x5B => some (execInstr AbsoluteOffsetY.decode (sreRun AbsoluteOffsetY.produceData AbsoluteOffsetY.consumeData) 7 false s)
  | 0x5C => some (execInstr AbsoluteOffsetX.decode (nopMemRun AbsoluteOffsetX.produceData) 4 true s)
  | 0x5D => some (execInstr AbsoluteOffsetX.decode (eorRun AbsoluteOffsetX.produceData) 4 true s)
  | 0x5E => some (execInstr AbsoluteOffsetX.decode (lsrRun AbsoluteOffsetX.produceData AbsoluteOffsetX.consumeData) 7 false s)
  | 0x5F => some (execInstr AbsoluteOffsetX.decode (sreRun AbsoluteOffsetX.produceData AbsoluteOffsetX.consumeData) 7 false s)
  | 0x60 => some (execInstr Implicit.decode rtsRun 6 false s)
  | 0x61 => some (execInstr OffsetXIndirect.decode (adcRun OffsetXIndirect.produceData) 6 false s)
  | 0x63 => some (execInstr OffsetXIndirect.decode (rraRun OffsetXIndirect.produceData OffsetXIndirect.consumeData) 8 false s)
  | 0x64 => some (execInstr ZeroPage.decode (nopMemRun ZeroPage.produceData) 3 false s)
  | 0x65 => some (execInstr ZeroPage.decode (adcRun ZeroPage.produceData) 3 false s)
  | 0x66 => some (execInstr ZeroPage.decode (rorRun ZeroPage.produceData ZeroPage.consumeData) 5 false s)
  | 0x67 => some (execInstr ZeroPage.decode (rraRun ZeroPage.produceData ZeroPage.consumeData) 5 false s)
  | 0x68 => some (execInstr Implicit.decode plaRun 4 false s)
  | 0x69 => some (execInstr Immediate.decode (adcRun Immediate.produceData) 2 false s)
  | 0x6A => some (execInstr Accumulator.decode (rorRun Accumulator.produceData Accumulator.consumeData) 2 false s)
  | 0x6B => some (execInstr Immediate.decode arrRun 2 false s)
  | 0x6C => some (execInstr Indirect.decode (jmpRun Indirect.produceAddress) 5 false s)
  | 0x6D => some (execInstr Absolute.decode (adcRun Absolute.produceData) 4 false s)
  | 0x6E => some (execInstr Absolute.decode (rorRun Absolute.produceData Absolute.consumeData) 6 false s)
  | 0x6F => some (execInstr Absolute.decode (rraRun Absolute.produceData Absolute.consumeData) 6 false s)
  | 0x70 => some (execInstr Relative.decode bvsRun 2 true s)
  | 0x71 => some (execInstr IndirectOffsetY.decode (adcRun IndirectOffsetY.produceData) 5 true s)
  | 0x73 => some (execInstr IndirectOffsetY.decode (rraRun IndirectOffsetY.produceData IndirectOffsetY.consumeData) 8 false s)
  | 0x74 => some (execInstr ZeroPageOffsetX.decode (nopMemRun ZeroPageOffsetX.produceData) 4 false s)
  | 0x75 => some (execInstr ZeroPageOffsetX.decode (adcRun ZeroPageOffsetX.produceData) 4 false s)
  | 0x76 => some (execInstr ZeroPageOffsetX.decode (rorRun ZeroPageOffsetX.produceData ZeroPageOffsetX.consumeData) 6 false s)
  | 0x77 => some (execInstr ZeroPageOffsetX.decode (rraRun ZeroPageOffsetX.produceData ZeroPageOffsetX.consumeData) 6 false s)
  | 0x78 => some (execInstr Implicit.decode seiRun 2 false s)
  | 0x79 => some (execInstr AbsoluteOffsetY.decode (adcRun AbsoluteOffsetY.produceData) 4 true s)
  | 0x7A => some (execInstr Implicit.decode nopRun 2 false s)
  | 0x7B => some (execInstr AbsoluteOffsetY.decode (rraRun AbsoluteOffsetY.produceData AbsoluteOffsetY.consumeData) 7 false s)
  | 0x7C => some (execInstr AbsoluteOffsetX.decode (nopMemRun AbsoluteOffsetX.produceData) 4 true s)
  | 0x7D => some (execInstr AbsoluteOffsetX.decode (adcRun AbsoluteOffsetX.produceData) 4 true s)
  | 0x7E => some (execInstr AbsoluteOffsetX.decode (rorRun AbsoluteOffsetX.produceData AbsoluteOffsetX.consumeData) 7 false s)
  | 0x7F => some (execInstr AbsoluteOffsetX.decode (rraRun AbsoluteOffsetX.produceData AbsoluteOffsetX.consumeData) 7 false s)
  | 0x80 => some (execInstr Immediate.decode nopRun 2 false s)
  | 0x81 => some (execInstr OffsetXIndirect.decode (staRun OffsetXIndirect.consumeData) 6 false s)
  | 0x82 => some (execInstr Immediate.decode nopRun 2 false s)
  | 0x83 => some (execInstr OffsetXIndirect.decode (saxRun OffsetXIndirect.consumeData) 6 false s)
  | 0x84 => some (execInstr ZeroPage.decode (styRun ZeroPage.consumeData) 3 false s)
  | 0x85 => some (execInstr ZeroPage.decode (staRun ZeroPage.consumeData) 3 false s)
  | 0x86 => some (execInstr ZeroPage.decode (stxRun ZeroPage.consumeData) 3 false s)
  | 0x87 => some (execInstr ZeroPage.decode (saxRun ZeroPage.consumeData) 3 false s)
  | 0x88 => some (execInstr Implicit.decode deyRun 2 false s)
  | 0x89 => some (execInstr Immediate.decode nopRun 2 false s)
  | 0x8A => some (execInstr Implicit.decode txaRun 2 false s)
  | 0x8B => some (execInstr Immediate.decode aneRun 2 false s)
  | 0x8C => some (execInstr Absolute.decode (styRun Absolute.consumeData) 4 false s)
  | 0x8D => some (execInstr Absolute.decode (staRun Absolute.consumeData) 4 false s)
  | 0x8E => some (execInstr Absolute.decode (stxRun Absolute.consumeData) 4 false s)
  | 0x8F => some (execInstr Absolute.decode (saxRun Absolute.consumeData) 4 false s)
  | 0x90 => some (execInstr Relative.decode bccRun 2 true s)
  | 0x91 => some (execInstr IndirectOffsetY.decode (staRun IndirectOffsetY.consumeData) 6 false s)
  | 0x93 => some (execInstr IndirectOffsetYUnstable.decode (shaRun IndirectOffsetYUnstable.consumeDataUnstable) 6 false s)
  | 0x94 => some (execInstr ZeroPageOffsetX.decode (styRun ZeroPageOffsetX.consumeData) 4 false s)
  | 0x95 => some (execInstr ZeroPageOffsetX.decode (staRun ZeroPageOffsetX.consumeData) 4 false s)
  | 0x96 => some (execInstr ZeroPageOffsetY.decode (stxRun ZeroPageOffsetY.consumeData) 4 false s)
  | 0x97 => some (execInstr ZeroPageOffsetY.decode (saxRun ZeroPageOffsetY.consumeData) 4 false s)
  | 0x98 => some (execInstr Implicit.decode tyaRun 2 false s)
  | 0x99 => some (execInstr AbsoluteOffsetY.decode (staRun AbsoluteOffsetY.consumeData) 5 false s)
  | 0x9A => some (execInstr Implicit.decode txsRun 2 false s)
  | 0x9B => some (execInstr AbsoluteOffsetYUnstable.decode (tasRun AbsoluteOffsetYUnstable.consumeDataUnstable) 5 false s)
  | 0x9C => some (execInstr AbsoluteOffsetXUnstable.decode (shyRun AbsoluteOffsetXUnstable.consumeDataUnstable) 5 false s)
  | 0x9D => some (execInstr AbsoluteOffsetX.decode (staRun AbsoluteOffsetX.consumeData) 5 false s)
  | 0x9E => some (execInstr AbsoluteOffsetYUnstable.decode (shxRun AbsoluteOffsetYUnstable.consumeDataUnstable) 5 false s)
  | 0x9F => some (execInstr AbsoluteOffsetYUnstable.decode (shaRun AbsoluteOffsetYUnstable.consumeDataUnstable) 5 false s)
  | 0xA0 => some (execInstr Immediate.decode (ldyRun Immediate.produceData) 2 false s)
  | 0xA1 => some (execInstr OffsetXIndirect.decode (ldaRun OffsetXIndirect.produceData) 6 false s)
  | 0xA2 => some (execInstr Immediate.decode (ldxRun Immediate.produceData) 2 false s)
  | 0xA3 => some (execInstr OffsetXIndirect.decode (laxRun OffsetXIndirect.produceData) 6 false s)
  | 0xA4 => some (execInstr ZeroPage.decode (ldyRun ZeroPage.produceData) 3 false s)
  | 0xA5 => some (execInstr ZeroPage.decode (ldaRun ZeroPage.produceData) 3 false s)
  | 0xA6 => some (execInstr ZeroPage.decode (ldxRun ZeroPage.produceData) 3 false s)
  | 0xA7 => some (execInstr ZeroPage.decode (laxRun ZeroPage.produceData) 3 false s)
  | 0xA8 => some (execInstr Implicit.decode tayRun 2 false s)
  | 0xA9 => some (execInstr Immediate.decode (ldaRun Immediate.produceData) 2 false s)
  | 0xAA => some (execInstr Implicit.decode taxRun 2 false s)
  | 0xAB => some (execInstr Immediate.decode lxaRun 2 false s)
  | 0xAC => some (execInstr Absolute.decode (ldyRun Absolute.produceData) 4 false s)
  | 0xAD => some (execInstr Absolute.decode (ldaRun Absolute.produceData) 4 false s)
  | 0xAE => some (execInstr Absolute.decode (ldxRun Absolute.produceData) 4 false s)
  | 0xAF => some (execInstr Absolute.decode (laxRun Absolute.produceData) 4 false s)
  | 0xB0 => some (execInstr Relative.decode bcsRun 2 true s)
  | 0xB1 => some (execInstr IndirectOffsetY.decode (ldaRun IndirectOffsetY.produceData) 5 true s)
  | 0xB3 => some (execInstr IndirectOffsetY.decode (laxRun IndirectOffsetY.produceData) 5 true s)
  | 0xB4 => some (execInstr ZeroPageOffsetX.decode (ldyRun ZeroPageOffsetX.produceData) 4 false s)
  | 0xB5 => some (execInstr ZeroPageOffsetX.decode (ldaRun ZeroPageOffsetX.produceData) 4 false s)
  | 0xB6 => some (execInstr ZeroPageOffsetY.decode (ldxRun ZeroPageOffsetY.produceData) 4 false s)
  | 0xB7 => some (execInstr ZeroPageOffsetY.decode (laxRun ZeroPageOffsetY.produceData) 4 false s)
  | 0xB8 => some (execInstr Implicit.decode clvRun 2 false s)
  | 0xB9 => some (execInstr AbsoluteOffsetY.decode (ldaRun AbsoluteOffsetY.produceData) 4 true s)
  | 0xBA => some (execInstr Implicit.decode tsxRun 2 false s)
  | 0xBB => some (execInstr AbsoluteOffsetY.decode (lasRun AbsoluteOffsetY.produceData) 4 false s)
  | 0xBC => some (execInstr AbsoluteOffsetX.decode (ldyRun AbsoluteOffsetX.produceData) 4 true s)
  | 0xBD => some (execInstr AbsoluteOffsetX.decode (ldaRun AbsoluteOffsetX.produceData) 4 true s)
  | 0xBE => some (execInstr AbsoluteOffsetY.decode (ldxRun AbsoluteOffsetY.produceData) 4 true s)
  | 0xBF => some (execInstr AbsoluteOffsetY.decode (laxRun AbsoluteOffsetY.produceData) 4 true s)
  | 0xC0 => some (execInstr Immediate.decode (cpyRun Immediate.produceData) 2 false s)
  | 0xC1 => some (execInstr OffsetXIndirect.decode (cmpRun OffsetXIndirect.produceData) 6 false s)
  | 0xC2 => some (execInstr Immediate.decode nopRun 2 false s)
  | 0xC3 => some (execInstr OffsetXIndirect.decode (dcpRun OffsetXIndirect.produceData OffsetXIndirect.consumeData) 8 false s)
  | 0xC4 => some (execInstr ZeroPage.decode (cpyRun ZeroPage.produceData) 3 false s)
  | 0xC5 => some (execInstr ZeroPage.decode (cmpRun ZeroPage.produceData) 3 false s)
  | 0xC6 => some (execInstr ZeroPage.decode (decRun ZeroPage.produceData ZeroPage.consumeData) 5 false s)
  | 0xC7 => some (execInstr ZeroPage.decode (dcpRun ZeroPage.produceData ZeroPage.consumeData) 5 false s)
  | 0xC8 => some (execInstr Implicit.decode inyRun 2 false s)
  | 0xC9 => some (execInstr Immediate.decode (cmpRun Immediate.produceData) 2 false s)
  | 0xCA => some (execInstr Implicit.decode dexRun 2 false s)
  | 0xCB => some (execInstr Immediate.decode sbxRun 2 false s)
  | 0xCC => some (execInstr Absolute.decode (cpyRun Absolute.produceData) 4 false s)
  | 0xCD => some (execInstr Absolute.decode (cmpRun Absolute.produceData) 4 false s)
  | 0xCE => some (execInstr Absolute.decode (decRun Absolute.produceData Absolute.consumeData) 6 false s)
  | 0xCF => some (execInstr Absolute.decode (dcpRun Absolute.produceData Absolute.consumeData) 6 false s)
  | 0xD0 => some (execInstr Relative.decode bneRun 2 true s)
  | 0xD1 => some (execInstr IndirectOffsetY.decode (cmpRun IndirectOffsetY.produceData) 5 true s)
  | 0xD3 => some (execInstr IndirectOffsetY.decode (dcpRun IndirectOffsetY.produceData IndirectOffsetY.consumeData) 8 false s)
  | 0xD4 => some (execInstr ZeroPageOffsetX.decode (nopMemRun ZeroPageOffsetX.produceData) 4 false s)
  | 0xD5 => some (execInstr ZeroPageOffsetX.decode (cmpRun ZeroPageOffsetX.produceData) 4 false s)
  | 0xD6 => some (execInstr ZeroPageOffsetX.decode (decRun ZeroPageOffsetX.produceData ZeroPageOffsetX.consumeData) 6 false s)
  | 0xD7 => some (execInstr ZeroPageOffsetX.decode (dcpRun ZeroPageOffsetX.produceData ZeroPageOffsetX.consumeData) 6 false s)
  | 0xD8 => some (execInstr Implicit.decode cldRun 2 false s)
  | 0xD9 => some (execInstr AbsoluteOffsetY.decode (cmpRun AbsoluteOffsetY.produceData) 4 true s)
  | 0xDA => some (execInstr Implicit.decode nopRun 2 false s)
  | 0xDB => some (execInstr AbsoluteOffsetY.decode (dcpRun AbsoluteOffsetY.produceData AbsoluteOffsetY.consumeData) 7 false s)
  | 0xDC => some (execInstr AbsoluteOffsetX.decode (nopMemRun AbsoluteOffsetX.produceData) 4 true s)
  | 0xDD => some (execInstr AbsoluteOffsetX.decode (cmpRun AbsoluteOffsetX.produceData) 4 true s)
  | 0xDE => some (execInstr AbsoluteOffsetX.decode (decRun AbsoluteOffsetX.produceData AbsoluteOffsetX.consumeData) 7 false s)
  | 0xDF => some (execInstr AbsoluteOffsetX.decode (dcpRun AbsoluteOffsetX.produceData AbsoluteOffsetX.consumeData) 7 false s)
  | 0xE0 => some (execInstr Immediate.decode (cpxRun Immediate.produceData) 2 false s)
  | 0xE1 => some (execInstr OffsetXIndirect.decode (sbcRun OffsetXIndirect.produceData) 6 false s)
  | 0xE2 => some (execInstr Immediate.decode nopRun 2 false s)
  | 0xE3 => some (execInstr OffsetXIndirect.decode (isbRun OffsetXIndirect.produceData OffsetXIndirect.consumeData) 8 false s)
  | 0xE4 => some (execInstr ZeroPage.decode (cpxRun ZeroPage.produceData) 3 false s)
  | 0xE5 => some (execInstr ZeroPage.decode (sbcRun ZeroPage.produceData) 3 false s)
  | 0xE6 => some (execInstr ZeroPage.decode (incRun ZeroPage.produceData ZeroPage.consumeData) 5 false s)
  | 0xE7 => some (execInstr ZeroPage.decode (isbRun ZeroPage.produceData ZeroPage.consumeData) 5 false s)
  | 0xE8 => some (execInstr Implicit.decode inxRun 2 false s)
  | 0xE9 => some (execInstr Immediate.decode (sbcRun Immediate.produceData) 2 false s)
  | 0xEA => some (execInstr Implicit.decode nopRun 2 false s)
  | 0xEB => some (execInstr Immediate.decode (sbcRun Immediate.produceData) 2 false s)
  | 0xEC => some (execInstr Absolute.decode (cpxRun Absolute.produceData) 4 false s)
  | 0xED => some (execInstr Absolute.decode (sbcRun Absolute.produceData) 4 false s)
  | 0xEE => some (execInstr Absolute.decode (incRun Absolute.produceData Absolute.consumeData) 6 false s)
  | 0xEF => some (execInstr Absolute.decode (isbRun Absolute.produceData Absolute.consumeData) 6 false s)
  | 0xF0 => some (execInstr Relative.decode beqRun 2 true s)
  | 0xF1 => some (execInstr IndirectOffsetY.decode (sbcRun IndirectOffsetY.produceData) 5 true s)
  | 0xF3 => some (execInstr IndirectOffsetY.decode (isbRun IndirectOffsetY.produceData IndirectOffsetY.consumeData) 8 false s)
  | 0xF4 => some (execInstr ZeroPageOffsetX.decode (nopMemRun ZeroPageOffsetX.produceData) 4 false s)
  | 0xF5 => some (execInstr ZeroPageOffsetX.decode (sbcRun ZeroPageOffsetX.produceData) 4 false s)
  | 0xF6 => some (execInstr ZeroPageOffsetX.decode (incRun ZeroPageOffsetX.produceData ZeroPageOffsetX.consumeData) 6 false s)
  | 0xF7 => some (execInstr ZeroPageOffsetX.decode (isbRun ZeroPageOffsetX.produceData ZeroPageOffsetX.consumeData) 6 false s)
  | 0xF8 => some (execInstr Implicit.decode sedRun 2 false s)
  | 0xF9 => some (execInstr AbsoluteOffsetY.decode (sbcRun AbsoluteOffsetY.produceData) 4 true s)
  | 0xFA => some (execInstr Implicit.decode nopRun 2 false s)
  | 0xFB => some (execInstr AbsoluteOffsetY.decode (isbRun AbsoluteOffsetY.produceData AbsoluteOffsetY.consumeData) 7 false s)
  | 0xFC => some (execInstr AbsoluteOffsetX.decode (nopMemRun AbsoluteOffsetX.produceData) 4 true s)
  | 0xFD => some (execInstr AbsoluteOffsetX.decode (sbcRun AbsoluteOffsetX.produceData) 4 true s)
  | 0xFE => some (execInstr AbsoluteOffsetX.decode (incRun AbsoluteOffsetX.produceData AbsoluteOffsetX.consumeData) 7 false s)
  | 0xFF => some (execInstr AbsoluteOffsetX.decode (isbRun AbsoluteOffsetX.produceData AbsoluteOffsetX.consumeData) 7 false s)
  | _ => none

/-- `Cpu::clock`: when the countdown is zero, service a pending NMI (8
cycles) or IRQ (7 cycles) — pushing PC and P-with-U-set, setting I and
loading the vector — or fetch and dispatch the next opcode; the loaded
cycle count is then decremented once (the trailing `cycle_counter -= 1`).
A nonzero countdown just decrements.  The Rust `panic!` on an illegal
opcode is `none`. -/
def cpuClock (s : NesState) : Option NesState :=
  if s.cpu.cycle_counter = 0 then
    let res : Option (Nat × NesState) :=
      if s.cpu.nmi_pending then
        let s := { s with cpu := { s.cpu with nmi_pending := false } }
        let s := push16 s s.cpu.pc
        let pb := s.cpu.p % 256
        let s := push s (pb - pb / 32 % 2 * 32 + 32)
        let s := { s with cpu := { s.cpu with p := setFlag s.cpu.p FLAG_I true } }
        let (pc, s) := busRead16 s NMI_VECTOR
        some (8, { s with cpu := { s.cpu with pc := pc } })
      else if s.cpu.irq_pending then
        let s := { s with cpu := { s.cpu with irq_pending := false } }
        let s := push16 s s.cpu.pc
        let pb := s.cpu.p % 256
        let s := push s (pb - pb / 32 % 2 * 32 + 32)
        let s := { s with cpu := { s.cpu with p := setFlag s.cpu.p FLAG_I true } }
        let (pc, s) := busRead16 s IRQ_VECTOR
        some (7, { s with cpu := { s.cpu with pc := pc } })
      else
        let (opcode, s) := busRead s s.cpu.pc
        let s := { s with cpu := { s.cpu with pc := (s.cpu.pc + 1) % 65536 } }
        execOpcode (opcode % 256) s
    match res with
    | none => none
    | some (cycles, s) =>
      some { s with cpu := { s.cpu with cycle_counter := cycles - 1 } }
  else
    some { s with cpu := { s.cpu with cycle_counter := s.cpu.cycle_counter - 1 } }

/-- `Cpu::signal_irq`: latch an IRQ only when the I flag is clear. -/
def signalIrq (s : NesState) : NesState :=
  if s.cpu.p / FLAG_I % 2 = 1 then s
  else { s with cpu := { s.cpu with irq_pending := true } }

/-- `Cpu::signal_nmi`: latch the NMI unconditionally. -/
def signalNmi (s : NesState) : NesState :=
  { s with cpu := { s.cpu with nmi_pending := true } }

/-! ## The master clock (src/system.rs, `System::clock`) -/

/-- The even-cycle DMA transfer of the loop body: read one byte from
`[page:addr]` through the CPU bus, write it to PPU OAM, increment the DMA
offset with wrap, and deactivate when the offset wraps to zero (the ghost
`dmaTransfers` counts the copies). -/
def dmaTransferStep (s : NesState) : NesState :=
  let addr := s.dma.page % 256 * 256 + s.dma.addr % 256
  let (data, s) := busRead s addr
  let s := { s with
    ppu := s.ppu.dmaWrite data
    dmaTransfers := s.dmaTransfers + 1 }
  let newAddr := (s.dma.addr % 256 + 1) % 256
  let s := { s with dma := { s.dma with addr := newAddr } }
  if s.dma.addr = 0 then { s with dma := { s.dma with active := false } }
  else s

/-- The tail of the loop body, run every master cycle: clock the APU
(collecting its pushed samples), clock the PPU three times, poll the PPU
NMI and the APU / cartridge IRQs, and flip the cycle parity. -/
def clockPost (s : NesState) : NesState :=
  let (apu, samples) := s.apu.clock s.cart
  let s := { s with
    apu := apu
    audio := s.audio ++ samples }
  let (ppu, cart) := s.ppu.clock s.cart
  let s := { s with
    ppu := ppu
    cart := cart }
  let (ppu, cart) := s.ppu.clock s.cart
  let s := { s with
    ppu := ppu
    cart := cart }
  let (ppu, cart) := s.ppu.clock s.cart
  let s := { s with
    ppu := ppu
    cart := cart }
  let (nmi, ppu) := s.ppu.checkNmi
  let s := { s with ppu := ppu }
  let s := if nmi then signalNmi s else s
  let s := if s.apu.irqRequested || s.apu.dmcIrqRequested then signalIrq s else s
  let s :=
    if s.cart.interruptState then signalIrq { s with cart := s.cart.resetInterrupt }
    else s
  { s with even_cycle := !s.even_cycle }

/-- One iteration of the `System::clock` loop.  While the DMA unit is
active the CPU is bypassed: an even master cycle runs the DMA transfer, an
odd one does nothing.  Otherwise the CPU is clocked (the ghost `cpuClocks`
counts these invocations; `none` propagates an illegal-opcode panic).
Either way the per-cycle tail `clockPost` runs. -/
def clockOne (s : NesState) : Option NesState :=
  let step1 : Option NesState :=
    if s.dma.active then
      if s.even_cycle then some (dmaTransferStep s)
      else some s
    else
      cpuClock { s with cpuClocks := s.cpuClocks + 1 }
  match step1 with
  | none => none
  | some s => some (clockPost s)

/-- `System::clock(cycles, ..)`: iterate `clockOne`, propagating a panic. -/
def runClock (n : Nat) (s : NesState) : Option NesState :=
  match n with
  | 0 => some s
  | n + 1 =>
    match clockOne s with
    | none => none
    | some s => runClock n s

/-! ## Claim C2: read-modify-write bus traffic -/

/-- A power-up state about to execute `ASL $10` (opcode 0x06): the program
bytes 0x06 0x10 sit at 0x0200, the operand cell 0x0010 holds 0x41, and the
PC points at the opcode. -/
def c2State : NesState :=
  { mkState with
    cpu := { mkState.cpu with pc := 0x200 }
    ram := ((mkState.ram.write 0x200 0x06).write 0x201 0x10).write 0x10 0x41 }

/-- C2: executing the read-modify-write instruction `ASL $10` with
`[0x10] = 0x41` performs exactly ONE bus write — the new value 0x82 — not
the two writes (old value 0x41, then new value 0x82) the claim requires:
the instruction bodies go through `produce_data`/`consume_data`, while the
`modify_data` trait method (second conjunct), which does issue the dummy
write of the old value first, is never called by any instruction. -/
theorem c2_rmw_single_write :
    ((cpuClock c2State).map NesState.writeLog = some [(0x10, 0x82)]) ∧
    (ZeroPage.modifyData ⟨0x10⟩ c2State (fun v => v * 2)).2.2.writeLog =
      [(0x10, 0x41), (0x10, 0x82)] := by
  exact ⟨rfl, rfl⟩

/-! ## Claim C3: branch instruction cycle counts -/

/-- No arm of the read-routing match touches the CPU registers. -/
lemma busReadCore_cpu (s : NesState) (addr : Nat) :
    (busReadCore s addr).2.cpu = s.cpu := by
  unfold busReadCore
  repeat' split
  all_goals rfl

/-- `CpuBus::read` leaves the CPU registers unchanged. -/
lemma busRead_cpu (s : NesState) (addr : Nat) :
    (busRead s addr).2.cpu = s.cpu := by
  unfold busRead
  rcases h : busReadCore s (addr % 65536) with ⟨v, s1⟩
  have h2 : s1.cpu = s.cpu := by
    have h3 := congrArg (fun p => (Prod.snd p).cpu) h
    simp only [busReadCore_cpu] at h3
    exact h3.symm
  simpa using h2

/-- A power-up state about to decode a `Relative` operand: PC at 0x02FD
(where the offset byte 0x70 sits), with the carry flag set so that BCC is
not taken. -/
def c3State : NesState :=
  { mkState with
    cpu := { mkState.cpu with
      pc := 0x2FD
      p := 0x05 }
    ram := mkState.ram.write 0x2FD 0x70 }

/-- C3, counterexample.  A BCC whose carry is set (branch NOT taken), with
offset 0x70 from PC 0x02FD: the target 0x036E crosses a page relative to
the post-operand PC 0x02FE, and `execute` still adds the page-cross cycle,
yielding 3 cycles — the claim says a branch that is not taken costs exactly
2 cycles regardless of the offset.  The second conjunct shows the branch
was indeed not taken (the PC stays at 0x02FE). -/
theorem c3_branch_cycles_counterexample :
    (execInstr Relative.decode bccRun 2 true c3State).1 = 3 ∧
      (execInstr Relative.decode bccRun 2 true c3State).2.cpu.pc = 0x2FE := by
  exact ⟨rfl, rfl⟩

/-- C3, amended.  For each of the eight conditional branches, the cycle
count returned by `execute` is `2 + page_cross + branch_taken`, where the
page-cross increment comes from `Relative::decode` alone — it compares the
high byte of the computed target with the high byte of the post-operand PC
and is charged even when the branch is not taken — and a not-taken branch
leaves the machine state exactly as decode left it. -/
theorem c3_branch_cycles_amended (R : Relative → NesState → Bool × NesState)
    (hR : R = bccRun ∨ R = bcsRun ∨ R = beqRun ∨ R = bneRun ∨
      R = bmiRun ∨ R = bplRun ∨ R = bvcRun ∨ R = bvsRun)
    (s : NesState) :
    (execInstr Relative.decode R 2 true s).1 =
      2 + (if (Relative.decode s).2.1 then 1 else 0) +
        (if (R (Relative.decode s).1 (Relative.decode s).2.2).1 then 1 else 0) ∧
    (Relative.decode s).2.1 =
      decide ((Relative.decode s).1.abs_addr / 256 ≠
        (Relative.decode s).2.2.cpu.pc % 65536 / 256) ∧
    ((R (Relative.decode s).1 (Relative.decode s).2.2).1 = false →
      (R (Relative.decode s).1 (Relative.decode s).2.2).2 =
        (Relative.decode s).2.2) ∧
    ((R (Relative.decode s).1 (Relative.decode s).2.2).1 = true →
      (R (Relative.decode s).1 (Relative.decode s).2.2).2.cpu.pc =
        (Relative.decode s).1.abs_addr % 65536) := by
  refine ⟨?_, ?_, ?_, ?_⟩
  · rcases h1 : Relative.decode s with ⟨m, crossed, s1⟩
    rcases h2 : R m s1 with ⟨taken, s2⟩
    simp [execInstr, h1, h2]
  · unfold Relative.decode
    rcases h1 : busRead s s.cpu.pc with ⟨b, s1⟩
    dsimp only
  all_goals
    rcases hR with h | h | h | h | h | h | h | h <;> subst h <;>
      intro ht <;>
      simp only [bccRun, bcsRun, beqRun, bneRun, bmiRun, bplRun, bvcRun, bvsRun,
        Relative.produceAddress] at ht ⊢ <;>
      split at ht <;> simp_all

/-- C3 witness: the amended cycle formula applied to BCC at the concrete
counterexample state. -/
theorem c3_branch_cycles_witness :
    (execInstr Relative.decode bccRun 2 true c3State).1 =
      2 + (if (Relative.decode c3State).2.1 then 1 else 0) +
        (if (bccRun (Relative.decode c3State).1 (Relative.decode c3State).2.2).1
          then 1 else 0) :=
  (c3_branch_cycles_amended bccRun (Or.inl rfl) c3State).1

/-! ## Claim C4: DMA transfers -/

/-- CPU reads of the PPU register file never touch OAM or the OAM address
register. -/
lemma Ppu.cpuRead_oam (p : Ppu) (pb : PpuBus) (a : Nat) :
    (p.cpuRead pb a).2.oam = p.oam ∧ (p.cpuRead pb a).2.oam_addr = p.oam_addr := by
  unfold Ppu.cpuRead
  dsimp only
  repeat' split
  all_goals exact ⟨rfl, rfl⟩

/-- No arm of the read-routing match touches the DMA unit, the ghost
counters, the cycle parity, or the PPU OAM. -/
lemma busReadCore_ghost (s : NesState) (a : Nat) :
    (busReadCore s a).2.dma = s.dma ∧
    (busReadCore s a).2.cpuClocks = s.cpuClocks ∧
    (busReadCore s a).2.dmaTransfers = s.dmaTransfers ∧
    (busReadCore s a).2.even_cycle = s.even_cycle ∧
    (busReadCore s a).2.ppu.oam = s.ppu.oam ∧
    (busReadCore s a).2.ppu.oam_addr = s.ppu.oam_addr := by
  unfold busReadCore
  repeat' split
  all_goals refine ⟨rfl, rfl, rfl, rfl, ?_, ?_⟩
  all_goals
    first
      | rfl
      | (rename_i v ppu heq
         have h1 := Ppu.cpuRead_oam s.ppu s.ppuBus (a - 8192)
         rw [heq] at h1
         first
           | exact h1.1
           | exact h1.2)

/-- `CpuBus::read` preserves the DMA unit, the ghost counters, the cycle
parity and the PPU OAM. -/
lemma busRead_ghost (s : NesState) (a : Nat) :
    (busRead s a).2.dma = s.dma ∧
    (busRead s a).2.cpuClocks = s.cpuClocks ∧
    (busRead s a).2.dmaTransfers = s.dmaTransfers ∧
    (busRead s a).2.even_cycle = s.even_cycle ∧
    (busRead s a).2.ppu.oam = s.ppu.oam ∧
    (busRead s a).2.ppu.oam_addr = s.ppu.oam_addr := by
  unfold busRead
  exact busReadCore_ghost s (a % 65536)

/-- One PPU dot never touches OAM or the OAM address register. -/
lemma Ppu.clock_oam (p : Ppu) (c : Cartridge) :
    (Ppu.clock p c).1.oam = p.oam ∧ (Ppu.clock p c).1.oam_addr = p.oam_addr := by
  unfold Ppu.clock
  dsimp only
  repeat' split
  all_goals exact ⟨rfl, rfl⟩

/-- The per-cycle tail (`clockPost`) flips the parity and preserves the
DMA unit, the ghost counters and the PPU OAM. -/
lemma clockPost_ghost (s : NesState) :
    (clockPost s).dma = s.dma ∧
    (clockPost s).cpuClocks = s.cpuClocks ∧
    (clockPost s).dmaTransfers = s.dmaTransfers ∧
    (clockPost s).even_cycle = !s.even_cycle ∧
    (clockPost s).ppu.oam = s.ppu.oam ∧
    (clockPost s).ppu.oam_addr = s.ppu.oam_addr := by
  unfold clockPost
  rcases hA : s.apu.clock s.cart with ⟨apu, samples⟩
  dsimp only
  rcases hP1 : Ppu.clock s.ppu s.cart with ⟨ppu1, cart1⟩
  dsimp only
  rcases hP2 : Ppu.clock ppu1 cart1 with ⟨ppu2, cart2⟩
  dsimp only
  rcases hP3 : Ppu.clock ppu2 cart2 with ⟨ppu3, cart3⟩
  dsimp only [Ppu.checkNmi]
  have e1 : ppu1.oam = s.ppu.oam ∧ ppu1.oam_addr = s.ppu.oam_addr := by
    have h := Ppu.clock_oam s.ppu s.cart
    rw [hP1] at h
    exact h
  have e2 : ppu2.oam = ppu1.oam ∧ ppu2.oam_addr = ppu1.oam_addr := by
    have h := Ppu.clock_oam ppu1 cart1
    rw [hP2] at h
    exact h
  have e3 : ppu3.oam = ppu2.oam ∧ ppu3.oam_addr = ppu2.oam_addr := by
    have h := Ppu.clock_oam ppu2 cart2
    rw [hP3] at h
    exact h
  simp only [signalNmi, signalIrq]
  repeat' split
  all_goals refine ⟨rfl, rfl, rfl, rfl, ?_, ?_⟩
  all_goals simp only [e1.1, e1.2, e2.1, e2.2, e3.1, e3.2]

/-- What one even-cycle DMA transfer does: the byte read from
`[page:addr]` through the CPU bus lands in OAM at the OAM address, the OAM
address and the DMA offset increment with wrap, the unit deactivates
exactly when the offset wraps to zero, and the CPU-clock ghost, the parity
and the DMA page are untouched. -/
lemma dmaTransferStep_spec (s : NesState) :
    (dmaTransferStep s).cpuClocks = s.cpuClocks ∧
    (dmaTransferStep s).dmaTransfers = s.dmaTransfers + 1 ∧
    (dmaTransferStep s).dma.page = s.dma.page ∧
    (dmaTransferStep s).dma.addr = (s.dma.addr % 256 + 1) % 256 ∧
    ((s.dma.addr % 256 + 1) % 256 = 0 → (dmaTransferStep s).dma.active = false) ∧
    ((s.dma.addr % 256 + 1) % 256 ≠ 0 →
      (dmaTransferStep s).dma.active = s.dma.active) ∧
    (dmaTransferStep s).even_cycle = s.even_cycle ∧
    (dmaTransferStep s).ppu.oam (s.ppu.oam_addr % 256) =
      (busRead s (s.dma.page % 256 * 256 + s.dma.addr % 256)).1 % 256 ∧
    (dmaTransferStep s).ppu.oam_addr = (s.ppu.oam_addr % 256 + 1) % 256 := by
  obtain ⟨hd, hc, ht, he, ho, ha⟩ :=
    busRead_ghost s (s.dma.page % 256 * 256 + s.dma.addr % 256)
  unfold dmaTransferStep
  dsimp only
  rw [hd, hc, ht, he]
  dsimp only [Ppu.dmaWrite, updFn]
  rw [ho, ha]
  split <;>
    exact ⟨rfl, rfl, rfl, rfl, fun _ => by simp_all, fun h => by simp_all, rfl,
      by simp [updFn], rfl⟩

/-- While the DMA unit is active, an even master cycle runs the transfer
and the tail. -/
lemma clockOne_active_even (s : NesState) (h : s.dma.active = true)
    (he : s.even_cycle = true) :
    clockOne s = some (clockPost (dmaTransferStep s)) := by
  simp [clockOne, h, he]

/-- While the DMA unit is active, an odd master cycle runs only the tail. -/
lemma clockOne_active_odd (s : NesState) (h : s.dma.active = true)
    (he : s.even_cycle = false) :
    clockOne s = some (clockPost s) := by
  simp [clockOne, h, he]

/-- Unfolding one successful step of the clock loop. -/
lemma runClock_succ_of (n : Nat) (s s1 : NesState) (h : clockOne s = some s1) :
    runClock (n + 1) s = runClock n s1 := by
  simp only [runClock, h]

/-- The DMA drain run, starting on an even cycle: with `r` bytes left
(`addr = 256 - r`), after `2r - 1` master cycles the unit has deactivated,
exactly `r` bytes more have been transferred, the CPU was never clocked,
and the unit was still active at every earlier step. -/
lemma dmaRunEven : ∀ r, 1 ≤ r → r ≤ 256 → ∀ s : NesState,
    s.dma.active = true → s.even_cycle = true → s.dma.addr = 256 - r →
    ∃ s', runClock (2 * r - 1) s = some s' ∧
      s'.dma.active = false ∧
      s'.dmaTransfers = s.dmaTransfers + r ∧
      s'.cpuClocks = s.cpuClocks ∧
      ∀ k, k < 2 * r - 1 → ∃ sk, runClock k s = some sk ∧
        sk.dma.active = true ∧ sk.cpuClocks = s.cpuClocks := by
  intro r
  induction r with
  | zero => intro h1; exact absurd h1 (by norm_num)
  | succ n ih =>
    intro _ h2 s hact heven haddr
    obtain ⟨tc, tt, tp, ta, tz, tnz, te, tom, toa⟩ := dmaTransferStep_spec s
    obtain ⟨pd, pc, pt, pe, po, poa⟩ := clockPost_ghost (dmaTransferStep s)
    have hstep1 : clockOne s = some (clockPost (dmaTransferStep s)) :=
      clockOne_active_even s hact heven
    have s1clocks : (clockPost (dmaTransferStep s)).cpuClocks = s.cpuClocks := by
      rw [pc, tc]
    have s1transfers :
        (clockPost (dmaTransferStep s)).dmaTransfers = s.dmaTransfers + 1 := by
      rw [pt, tt]
    have s1even : (clockPost (dmaTransferStep s)).even_cycle = false := by
      rw [pe, te, heven]
      rfl
    rcases Nat.eq_zero_or_pos n with hn | hn
    · subst hn
      have haddr255 : s.dma.addr = 255 := by omega
      have hwrap : (s.dma.addr % 256 + 1) % 256 = 0 := by
        rw [haddr255]
      have s1active : (clockPost (dmaTransferStep s)).dma.active = false := by
        rw [pd]
        exact tz hwrap
      refine ⟨clockPost (dmaTransferStep s), ?_, s1active, s1transfers, s1clocks, ?_⟩
      · simpa [runClock] using runClock_succ_of 0 s _ hstep1
      · intro k hk
        have hk0 : k = 0 := by omega
        subst hk0
        exact ⟨s, rfl, hact, rfl⟩
    · have hnwrap : (s.dma.addr % 256 + 1) % 256 = 256 - n := by
        rw [haddr]
        have e1 : (256 - (n + 1)) % 256 = 256 - (n + 1) :=
          Nat.mod_eq_of_lt (by omega)
        rw [e1]
        have e2 : 256 - (n + 1) + 1 = 256 - n := by omega
        rw [e2]
        exact Nat.mod_eq_of_lt (by omega)
      have hnz : (s.dma.addr % 256 + 1) % 256 ≠ 0 := by
        rw [hnwrap]
        omega
      have s1active : (clockPost (dmaTransferStep s)).dma.active = true := by
        rw [pd, tnz hnz, hact]
      have s1addr : (clockPost (dmaTransferStep s)).dma.addr = 256 - n := by
        rw [pd, ta, hnwrap]
      have hstep2 : clockOne (clockPost (dmaTransferStep s)) =
          some (clockPost (clockPost (dmaTransferStep s))) :=
        clockOne_active_odd _ s1active s1even
      obtain ⟨qd, qc, qt, qe, qo, qoa⟩ := clockPost_ghost (clockPost (dmaTransferStep s))
      have s2active : (clockPost (clockPost (dmaTransferStep s))).dma.active = true := by
        rw [qd]
        exact s1active
      have s2even : (clockPost (clockPost (dmaTransferStep s))).even_cycle = true := by
        rw [qe, s1even]
        rfl
      have s2addr : (clockPost (clockPost (dmaTransferStep s))).dma.addr = 256 - n := by
        rw [qd]
        exact s1addr
      have s2clocks : (clockPost (clockPost (dmaTransferStep s))).cpuClocks = s.cpuClocks := by
        rw [qc, s1clocks]
      have s2transfers : (clockPost (clockPost (dmaTransferStep s))).dmaTransfers =
          s.dmaTransfers + 1 := by
        rw [qt, s1transfers]
      obtain ⟨s', hrun, hfa, hft, hfc, hall⟩ := ih hn (by omega) _ s2active s2even s2addr
      refine ⟨s', ?_, hfa, ?_, ?_, ?_⟩
      · have e : 2 * (n + 1) - 1 = 2 * n - 1 + 1 + 1 := by omega
        rw [e, runClock_succ_of _ s _ hstep1, runClock_succ_of _ _ _ hstep2, hrun]
      · rw [hft, s2transfers]
        omega
      · rw [hfc, s2clocks]
      · intro k hk
        match k with
        | 0 => exact ⟨s, rfl, hact, rfl⟩
        | 1 =>
          refine ⟨clockPost (dmaTransferStep s), ?_, s1active, s1clocks⟩
          simpa [runClock] using runClock_succ_of 0 s _ hstep1
        | Nat.succ (Nat.succ k) =>
          have hk2 : k < 2 * n - 1 := by omega
          obtain ⟨sk, hks, hka, hkc⟩ := hall k hk2
          refine ⟨sk, ?_, hka, by rw [hkc, s2clocks]⟩
          rw [runClock_succ_of _ s _ hstep1, runClock_succ_of _ _ _ hstep2]
          exact hks

/-- C4: while the DMA unit is active the CPU is never clocked (the clock
step always succeeds and leaves the CPU-invocation ghost unchanged); each
even master cycle copies one byte from `[page:addr]` through the CPU bus
into PPU OAM at the OAM address, incrementing the DMA offset and
deactivating exactly on the wrap to zero; an odd cycle transfers nothing;
and from `r` remaining bytes the unit deactivates after exactly `r` more
transfers (`2r-1` or `2r` master cycles depending on parity), having stayed
active at every earlier step with the CPU never clocked. -/
theorem c4_dma_transfer (s : NesState) (h : s.dma.active = true) :
    (∃ s', clockOne s = some s' ∧ s'.cpuClocks = s.cpuClocks) ∧
    (s.even_cycle = true →
      ∃ s', clockOne s = some s' ∧
        s'.ppu.oam (s.ppu.oam_addr % 256) =
          (busRead s (s.dma.page % 256 * 256 + s.dma.addr % 256)).1 % 256 ∧
        s'.dmaTransfers = s.dmaTransfers + 1 ∧
        s'.dma.addr = (s.dma.addr % 256 + 1) % 256 ∧
        ((s.dma.addr % 256 + 1) % 256 = 0 → s'.dma.active = false) ∧
        ((s.dma.addr % 256 + 1) % 256 ≠ 0 → s'.dma.active = true)) ∧
    (s.even_cycle = false →
      ∃ s', clockOne s = some s' ∧ s'.dma = s.dma ∧
        s'.dmaTransfers = s.dmaTransfers ∧ s'.even_cycle = true) ∧
    (∀ r, 1 ≤ r → r ≤ 256 → s.dma.addr = 256 - r →
      ∃ s', runClock (2 * r - (if s.even_cycle then 1 else 0)) s = some s' ∧
        s'.dma.active = false ∧
        s'.dmaTransfers = s.dmaTransfers + r ∧
        s'.cpuClocks = s.cpuClocks ∧
        ∀ k, k < 2 * r - (if s.even_cycle then 1 else 0) →
          ∃ sk, runClock k s = some sk ∧ sk.dma.active = true ∧
            sk.cpuClocks = s.cpuClocks) := by
  obtain ⟨tc, tt, tp, ta, tz, tnz, te, tom, toa⟩ := dmaTransferStep_spec s
  obtain ⟨pd, pc, pt, pe, po, poa⟩ := clockPost_ghost (dmaTransferStep s)
  obtain ⟨qd, qc, qt, qe, qo, qoa⟩ := clockPost_ghost s
  refine ⟨?_, ?_, ?_, ?_⟩
  · cases he : s.even_cycle with
    | true =>
      exact ⟨_, clockOne_active_even s h he, by rw [pc, tc]⟩
    | false =>
      exact ⟨_, clockOne_active_odd s h he, qc⟩
  · intro he
    refine ⟨_, clockOne_active_even s h he, ?_, by rw [pt, tt], by rw [pd, ta], ?_, ?_⟩
    · rw [congrFun po (s.ppu.oam_addr % 256), tom]
    · intro hz
      rw [pd]
      exact tz hz
    · intro hnz
      rw [pd, tnz hnz, h]
  · intro he
    exact ⟨_, clockOne_active_odd s h he, qd, qt, by rw [qe, he]; rfl⟩
  · intro r h1 h2 haddr
    cases he : s.even_cycle with
    | true =>
      simp only [if_pos rfl]
      exact dmaRunEven r h1 h2 s h he haddr
    | false =>
      rw [if_neg Bool.false_ne_true]
      have hstep : clockOne s = some (clockPost s) := clockOne_active_odd s h he
      have s1active : (clockPost s).dma.active = true := by rw [qd]; exact h
      have s1even : (clockPost s).even_cycle = true := by rw [qe, he]; rfl
      have s1addr : (clockPost s).dma.addr = 256 - r := by rw [qd]; exact haddr
      obtain ⟨s', hrun, hfa, hft, hfc, hall⟩ :=
        dmaRunEven r h1 h2 (clockPost s) s1active s1even s1addr
      refine ⟨s', ?_, hfa, ?_, ?_, ?_⟩
      · have e : 2 * r - 0 = 2 * r - 1 + 1 := by omega
        rw [e, runClock_succ_of _ s _ hstep, hrun]
      · rw [hft, qt]
      · rw [hfc, qc]
      · intro k hk
        match k with
        | 0 => exact ⟨s, rfl, h, rfl⟩
        | Nat.succ k =>
          have hk2 : k < 2 * r - 1 := by omega
          obtain ⟨sk, hks, hka, hkc⟩ := hall k hk2
          refine ⟨sk, ?_, hka, by rw [hkc, qc]⟩
          rw [runClock_succ_of _ s _ hstep]
          exact hks

/-- C4 witness: a CPU write of 0x02 to 0x4014 activates the DMA unit, and
the clock step on the resulting state leaves the CPU-invocation ghost
unchanged. -/
theorem c4_dma_transfer_witness :
    ∃ s', clockOne (busWrite mkState 0x4014 0x02) = some s' ∧
      s'.cpuClocks = (busWrite mkState 0x4014 0x02).cpuClocks :=
  (c4_dma_transfer (busWrite mkState 0x4014 0x02) rfl).1

end Nes

